import Mathlib

/-!
# LoxBerry Smart Irrigation: watering decision and zone control

A shallow embedding of `bin/server.js`.

* Database tables are lists of rows in table order; the database itself is taken to be
  reliable (no query fails).
* Numeric columns and forecast values are integers (`INTEGER` columns, `Math.round`ed
  probabilities); a nullable column is an `Option`.
* Every outside influence on a call (the clock, the outcome of an HTTP request) is an explicit
  argument, and every outside effect of a call is returned in an explicit list.
-/

namespace Irrigation

/-! ## Data model -/

/-- The JavaScript expression `x || d` for a nullable number `x`: `null`/`undefined` and `0`
are falsy and yield the default `d`. -/
def jsOr (x : Option Int) (d : Int) : Int :=
  match x with
  | some v => if v = 0 then d else v
  | none => d

/-- A row of the `zones` table (the columns the server reads or writes). -/
structure Zone where
  id : Int
  name : String
  loxone_output : String
  loxone_input : String
  enabled : Int
  priority : Int
  default_duration : Option Int
  moisture : Option Int
  moisture_threshold : Option Int
  moisture_optimal : Option Int
  auto_water_enabled : Int
  is_active : Int
  last_watered : Option String
  deriving DecidableEq, Repr

/-- The `current` part of a weather snapshot. -/
structure Current where
  temperature : Int
  humidity : Int
  description : String
  icon : String
  windSpeed : Int
  deriving DecidableEq, Repr

/-- The `forecast` part of a weather snapshot. -/
structure Forecast where
  rainProbability : Int
  willRain : Bool
  daily : List Int
  deriving DecidableEq, Repr

/-- The object returned by a weather provider and kept in `weatherCache`. -/
structure WeatherData where
  current : Current
  forecast : Forecast
  location : String
  timestamp : Int
  provider : String
  deriving DecidableEq, Repr

/-- The object `config.loxone`. -/
structure LoxoneConfig where
  host : String
  username : String
  password : String
  deriving DecidableEq, Repr

/-- The object `config.weather` (`lat`/`lon` only parameterise the provider request). -/
structure WeatherConfig where
  provider : Option String
  apiKey : String
  enabled : Bool
  rainThreshold : Option Int
  deriving DecidableEq, Repr

/-- The object `config.winterMode`. -/
structure WinterMode where
  enabled : Bool
  activatedAt : Option String
  deriving DecidableEq, Repr

/-- The global `config` object; a missing key is `none`. -/
structure Config where
  loxone : Option LoxoneConfig
  weather : Option WeatherConfig
  winterMode : Option WinterMode
  deriving DecidableEq, Repr

/-- A row of the `weather_log` table. -/
structure WeatherLogRow where
  temperature : Int
  humidity : Int
  rain_probability : Int
  wind_speed : Int
  description : String
  deriving DecidableEq, Repr

/-- The module-level weather cache together with the `weather_log` table. -/
structure WeatherStore where
  weatherCache : Option WeatherData
  weatherCacheTime : Option Int
  weather_log : List WeatherLogRow
  deriving DecidableEq, Repr

/-! ## Weather oracle -/

/-- How a call of a provider function (`fetchOpenMeteoWeather`,
`fetchOpenWeatherMapWeather`) ends: it throws, or it returns a snapshot or `null`. -/
inductive ProviderOutcome where
  | threw (message : String)
  | returned (data : Option WeatherData)
  deriving DecidableEq, Repr

/-- The outcome each provider function would have if it were called now. -/
structure Providers where
  openMeteo : ProviderOutcome
  openWeatherMap : ProviderOutcome
  deriving DecidableEq, Repr

/-- What one call of `fetchWeatherData` returns and does: the returned value, the store
afterwards, and the provider functions it called. -/
structure FetchResult where
  value : Option WeatherData
  store : WeatherStore
  calls : List String
  deriving DecidableEq, Repr

/-- The cache test of `fetchWeatherData`:
`weatherCache && weatherCacheTime && (now - weatherCacheTime < 15 * 60 * 1000)`. -/
def cachedWeather (st : WeatherStore) (now : Int) : Option WeatherData :=
  match st.weatherCache, st.weatherCacheTime with
  | some cached, some t => if t ≠ 0 ∧ now - t < 15 * 60 * 1000 then some cached else none
  | _, _ => none

/-- The success path of `fetchWeatherData` after the provider returned `weatherData`: one
`weather_log` row is inserted and the cache is replaced. -/
def storeWeather (st : WeatherStore) (now : Int) (weatherData : WeatherData) : WeatherStore :=
  { weatherCache := some weatherData
    weatherCacheTime := some now
    weather_log := st.weather_log ++
      [{ temperature := weatherData.current.temperature
         humidity := weatherData.current.humidity
         rain_probability := weatherData.forecast.rainProbability
         wind_speed := weatherData.current.windSpeed
         description := weatherData.current.description }] }

/-- The function `fetchWeatherData()`, called at time `now` (milliseconds). -/
def fetchWeatherData (config : Config) (st : WeatherStore) (now : Int) (net : Providers) :
    FetchResult :=
  match config.weather with
  | none => { value := none, store := st, calls := [] }
  | some wc =>
    if !wc.enabled then { value := none, store := st, calls := [] }
    else
      match cachedWeather st now with
      | some cached => { value := some cached, store := st, calls := [] }
      | none =>
        let provider :=
          match wc.provider with
          | some p => if p = "" then "open-meteo" else p
          | none => "open-meteo"
        let outcome : Option ProviderOutcome :=
          if provider = "open-meteo" then some net.openMeteo
          else if provider = "openweathermap" then some net.openWeatherMap
          else none
        match outcome with
        | none => { value := none, store := st, calls := [] }
        | some (ProviderOutcome.threw _) => { value := none, store := st, calls := [provider] }
        | some (ProviderOutcome.returned none) =>
          { value := none, store := st, calls := [provider] }
        | some (ProviderOutcome.returned (some weatherData)) =>
          { value := some weatherData, store := storeWeather st now weatherData,
            calls := [provider] }

/-! ## Moisture-based decision engine -/

/-- The object returned by `shouldWaterBasedOnMoisture`; `duration` is absent on the
no-water results. -/
structure Decision where
  shouldWater : Bool
  reason : String
  duration : Option Int
  deriving DecidableEq, Repr

/-- What one call of `shouldWaterBasedOnMoisture` returns and does: the decision, the weather
store afterwards, and the `fetchWeatherData` call it made, if it made one. -/
structure WaterResult where
  decision : Decision
  store : WeatherStore
  weatherFetch : Option FetchResult
  deriving DecidableEq, Repr

/-- The constant `baseDuration`. -/
def baseDuration : Int := 10

/-- The uncapped ramp `baseDuration + Math.floor(moistureDiff / 5) * 2`. -/
def rampDuration (moistureDiff : Int) : Int :=
  baseDuration + Int.fdiv moistureDiff 5 * 2

/-- The expression `Math.min(baseDuration + Math.floor(moistureDiff / 5) * 2, 30)`. -/
def cappedDuration (moistureDiff : Int) : Int :=
  min (rampDuration moistureDiff) 30

/-- The local `rainThreshold = config.weather.rainThreshold || 70`. It is evaluated only after
`fetchWeatherData` has returned a snapshot, hence with `config.weather` present. -/
def rainThresholdOf (config : Config) : Int :=
  jsOr (config.weather.bind fun wc => wc.rainThreshold) 70

/-- The local `rainToday = weather.forecast.daily[0] || 0`. -/
def rainTodayOf (weather : WeatherData) : Int :=
  jsOr weather.forecast.daily[0]? 0

/-- The local `rainTomorrow = weather.forecast.daily[1] || 0`. -/
def rainTomorrowOf (weather : WeatherData) : Int :=
  jsOr weather.forecast.daily[1]? 0

/-- The function `shouldWaterBasedOnMoisture(zone)`, called at time `now`. -/
def shouldWaterBasedOnMoisture (config : Config) (st : WeatherStore) (now : Int)
    (net : Providers) (zone : Zone) : WaterResult :=
  let moisture := jsOr zone.moisture 100
  let threshold := jsOr zone.moisture_threshold 30
  let optimal := jsOr zone.moisture_optimal 60
  if moisture ≥ optimal then
    { decision := { shouldWater := false, reason := "Feuchtigkeit ausreichend", duration := none }
      store := st, weatherFetch := none }
  else if moisture > threshold then
    { decision := { shouldWater := false, reason := "Noch über Schwellwert", duration := none }
      store := st, weatherFetch := none }
  else
    let fetched := fetchWeatherData config st now net
    match fetched.value with
    | none =>
      { decision := { shouldWater := true, reason := "Kritisch trocken, Wetter unbekannt",
                      duration := some 10 }
        store := fetched.store, weatherFetch := some fetched }
    | some weather =>
      let rainThreshold := rainThresholdOf config
      let rainToday := rainTodayOf weather
      let rainTomorrow := rainTomorrowOf weather
      if rainToday ≥ rainThreshold then
        { decision := { shouldWater := false
                        reason := "Heute " ++ toString rainToday ++ "% Regen erwartet"
                        duration := none }
          store := fetched.store, weatherFetch := some fetched }
      else if rainTomorrow ≥ rainThreshold then
        { decision := { shouldWater := false
                        reason := "Morgen " ++ toString rainTomorrow ++ "% Regen erwartet"
                        duration := none }
          store := fetched.store, weatherFetch := some fetched }
      else
        let moistureDiff := optimal - moisture
        let duration := cappedDuration moistureDiff
        { decision := { shouldWater := true
                        reason := "Zu trocken (" ++ toString moisture ++ "%), kein Regen in Sicht"
                        duration := some duration }
          store := fetched.store, weatherFetch := some fetched }

/-! ## Zone actuator -/

/-- Everything outside the zone table that one `controlZone` call observes: whether the
relay request `axios.get(loxoneUrl)` resolves, the MQTT client state, and the value of
`datetime('now','localtime')`. -/
structure CallEnv where
  relayOk : Bool
  mqttConnected : Bool
  mqttBaseTopic : String
  localTime : String
  deriving DecidableEq, Repr

/-- An outside effect of `controlZone`. -/
inductive Effect where
  | loxoneGet (url : String)
  | mqttPublish (topic : String) (payload : String)
  | broadcastZoneUpdate (zone_id : Int) (is_active : Bool)
  deriving DecidableEq, Repr

/-- The value `controlZone` resolves with: `{ success: true, zone: zone.name, state }`. -/
structure ControlResult where
  success : Bool
  zone : String
  state : Bool
  deriving DecidableEq, Repr

/-- What one call of `controlZone` returns and does: the settled promise (`Except.error`
carries the message of the rejection), the zone table afterwards and the effects, in order. -/
structure ControlOutcome where
  result : Except String ControlResult
  zones : List Zone
  effects : List Effect

/-- The message of the rejection for an unknown zone id. -/
def zoneNotFound : String := "Zone nicht gefunden"

/-- The message of the rejection when another zone is running. -/
def alreadyRunning (name : String) : String :=
  "Zone \"" ++ name ++ "\" läuft bereits. Bitte zuerst stoppen."

/-- The query `SELECT * FROM zones WHERE id = ?`. -/
def selectZone (zones : List Zone) (zoneId : Int) : Option Zone :=
  zones.find? fun z => z.id = zoneId

/-- The query `SELECT id, name FROM zones WHERE is_active = 1 AND id != ?`. -/
def selectOtherActive (zones : List Zone) (zoneId : Int) : Option Zone :=
  zones.find? fun z => z.is_active = 1 ∧ z.id ≠ zoneId

/-- The statements `UPDATE zones SET is_active = 1 WHERE id = ?` (for `state = true`) and
`UPDATE zones SET is_active = 0, last_watered = datetime('now','localtime') WHERE id = ?`. -/
def updateZone (zones : List Zone) (zoneId : Int) (state : Bool) (localTime : String) :
    List Zone :=
  zones.map fun z =>
    if z.id = zoneId then
      if state then { z with is_active := 1 }
      else { z with is_active := 0, last_watered := some localTime }
    else z

/-- The relay block of `controlZone`: with `config.loxone.host` and `config.loxone.username`
set, one request to the Miniserver and, when it resolves and MQTT is connected, one retained
status message; a failed request is only logged. -/
def relayEffects (config : Config) (env : CallEnv) (zone : Zone) (zoneId : Int)
    (state : Bool) : List Effect :=
  match config.loxone with
  | none => []
  | some lox =>
    if lox.host ≠ "" ∧ lox.username ≠ "" then
      Effect.loxoneGet ("http://" ++ lox.host ++ "/dev/sps/io/" ++ zone.loxone_output ++ "/" ++
          (if state then "1" else "0")) ::
        (if env.relayOk ∧ env.mqttConnected then
          [Effect.mqttPublish (env.mqttBaseTopic ++ "/zone/" ++ toString zoneId ++ "/status")
            (if state then "on" else "off")]
        else [])
    else []

/-- The function `controlZone(zoneId, state)`. -/
def controlZone (config : Config) (env : CallEnv) (zones : List Zone) (zoneId : Int)
    (state : Bool) : ControlOutcome :=
  match selectZone zones zoneId with
  | none => { result := Except.error zoneNotFound, zones := zones, effects := [] }
  | some zone =>
    let activeZone := if state then selectOtherActive zones zoneId else none
    match activeZone with
    | some active =>
      { result := Except.error (alreadyRunning active.name), zones := zones, effects := [] }
    | none =>
      { result := Except.ok { success := true, zone := zone.name, state := state }
        zones := updateZone zones zoneId state env.localTime
        effects := relayEffects config env zone zoneId state ++
          [Effect.broadcastZoneUpdate zoneId state] }

/-- One `controlZone` call together with everything it observes. -/
structure ControlCall where
  config : Config
  env : CallEnv
  zoneId : Int
  state : Bool

/-- A sequence of `controlZone` calls, each run to completion before the next one starts;
the result is the zone table after the last call. -/
def runCalls (zones : List Zone) : List ControlCall → List Zone
  | [] => zones
  | c :: cs => runCalls (controlZone c.config c.env zones c.zoneId c.state).zones cs

/-- The number of rows with `is_active = 1`. -/
def activeCount (zones : List Zone) : Nat :=
  zones.countP fun z => z.is_active = 1

/-- The `PRIMARY KEY` constraint on `zones.id`: no two rows share an id. -/
def PrimaryKey (zones : List Zone) : Prop :=
  (zones.map fun z => z.id).Nodup

instance (zones : List Zone) : Decidable (PrimaryKey zones) := by
  unfold PrimaryKey; infer_instance

/-! ## Weather oracle: provider choice and the schedule gate -/

/-- The local `provider = config.weather.provider || 'open-meteo'` of `fetchWeatherData`. -/
def providerOf (wc : WeatherConfig) : String :=
  match wc.provider with
  | some p => if p = "" then "open-meteo" else p
  | none => "open-meteo"

/-- The provider function that `fetchWeatherData` calls for a provider name, given as the
outcome of that call; `none` for an unknown name, for which nothing is called. -/
def providerCall (net : Providers) (provider : String) : Option ProviderOutcome :=
  if provider = "open-meteo" then some net.openMeteo
  else if provider = "openweathermap" then some net.openWeatherMap
  else none

/-- A provider call that fails: it throws (timeout, network or parse error) or yields no
data. -/
def ProviderOutcome.failed : ProviderOutcome → Bool
  | ProviderOutcome.threw _ => true
  | ProviderOutcome.returned none => true
  | ProviderOutcome.returned (some _) => false

/-- What one call of `shouldSkipWateringDueToWeather` returns and does. -/
structure SkipResult where
  skip : Bool
  store : WeatherStore
  weatherFetch : FetchResult
  deriving DecidableEq, Repr

/-- The function `shouldSkipWateringDueToWeather()`, called at time `now`. -/
def shouldSkipWateringDueToWeather (config : Config) (st : WeatherStore) (now : Int)
    (net : Providers) : SkipResult :=
  let fetched := fetchWeatherData config st now net
  match fetched.value with
  | none => { skip := false, store := fetched.store, weatherFetch := fetched }
  | some weather =>
    let rainThreshold := rainThresholdOf config
    if weather.forecast.rainProbability ≥ rainThreshold then
      { skip := true, store := fetched.store, weatherFetch := fetched }
    else if weather.forecast.willRain then
      { skip := true, store := fetched.store, weatherFetch := fetched }
    else
      { skip := false, store := fetched.store, weatherFetch := fetched }

/-! ## Timers, request handlers and the sequence runner

The running server is a state on which events act: HTTP requests, MQTT messages and the expiry
of timers. A `controlZone` call takes no time; time passes only between events. `setTimeout`
arms a timer whose callback runs once, not before its delay has passed, unless `clearTimeout`
removes it first; a delay outside the range of the runtime's timers counts as 1 ms. Every
`controlZone` call is recorded in `Server.log`. -/

/-- A step of a sequence, `{ zone_id, duration }`, with the duration in minutes. -/
structure Step where
  zone_id : Int
  duration : Nat
  deriving DecidableEq, Repr

/-- The callback of an armed timer.
* `autoOff id`: `await controlZone(id, false); activeTimers.delete(id)` (start route, MQTT
  `start`);
* `sequenceStop zoneId rest`: `await controlZone(zoneId, false); resolve()` inside
  `runSequence`, with `rest` the steps the loop still has to run;
* `sequencePause rest`: the two-second pause of `runSequence` before the steps `rest`. -/
inductive Callback where
  | autoOff (zoneId : Int)
  | sequenceStop (zoneId : Int) (rest : List Step)
  | sequencePause (rest : List Step)
  deriving DecidableEq, Repr

/-- An armed `setTimeout`: its handle, the time at which its delay has passed, its callback. -/
structure Timer where
  handle : Nat
  due : Nat
  callback : Callback
  deriving DecidableEq, Repr

/-- Who made a `controlZone` call: a request handler (or the loop of `runSequence` it started),
or the callback of the timer with the given handle. -/
inductive Origin where
  | request
  | timer (handle : Nat)
  deriving DecidableEq, Repr

/-- A record of one `controlZone(zoneId, state)` call: when it was made, whether it resolved,
who made it, and the ids of the zones that had `is_active = 1` when it was made. -/
structure Call where
  time : Nat
  zoneId : Int
  state : Bool
  ok : Bool
  origin : Origin
  running : List Int
  deriving DecidableEq, Repr

/-- The state of the running server: `config`, the `zones` table, the map `activeTimers` (zone
id to timer handle, in insertion order), the timers armed and neither run nor cleared, the
next timer handle, the clock (milliseconds) and the record of calls and effects. -/
structure Server where
  config : Config
  zones : List Zone
  activeTimers : List (Int × Nat)
  pending : List Timer
  nextHandle : Nat
  now : Nat
  log : List Call
  effects : List Effect
  deriving Repr

/-- The body of an HTTP response: `{ success, error?, message? }` with its status code. -/
structure Response where
  status : Nat
  success : Bool
  error : Option String
  message : Option String
  deriving DecidableEq, Repr

/-- The longest delay of a timer of the runtime, in milliseconds (2^31 - 1). -/
def TIMEOUT_MAX : Nat := 2147483647

/-- The delay the runtime arms a timer with: a delay below 1 ms or above `TIMEOUT_MAX` is
replaced by 1 ms. -/
def timerDelay (delay : Nat) : Nat :=
  if 1 ≤ delay ∧ delay ≤ TIMEOUT_MAX then delay else 1

/-- The call `setTimeout(callback, delay)`: arms a timer and returns its handle. The timer is
due `timerDelay delay` milliseconds from now. -/
def setTimeout (s : Server) (delay : Nat) (callback : Callback) : Server × Nat :=
  ({ s with pending := s.pending ++ [{ handle := s.nextHandle, due := s.now + timerDelay delay,
                                        callback := callback }]
            nextHandle := s.nextHandle + 1 }, s.nextHandle)

/-- The call `clearTimeout(handle)`. -/
def clearTimeout (s : Server) (handle : Nat) : Server :=
  { s with pending := s.pending.filter fun t => t.handle ≠ handle }

/-- The call `activeTimers.get(id)` (`none` when `activeTimers.has(id)` is false). -/
def timersGet (m : List (Int × Nat)) (id : Int) : Option Nat :=
  (m.find? fun e => e.1 = id).map fun e => e.2

/-- The call `activeTimers.set(id, timer)`: replaces the value of an existing key in place,
appends a new key. -/
def timersSet (m : List (Int × Nat)) (id : Int) (handle : Nat) : List (Int × Nat) :=
  if m.any fun e => e.1 = id then m.map fun e => if e.1 = id then (id, handle) else e
  else m ++ [(id, handle)]

/-- The call `activeTimers.delete(id)`. -/
def timersDelete (m : List (Int × Nat)) (id : Int) : List (Int × Nat) :=
  m.filter fun e => e.1 ≠ id

/-- The ids of the rows with `is_active = 1`. -/
def runningIds (zones : List Zone) : List Int :=
  (zones.filter fun z => z.is_active = 1).map fun z => z.id

/-- One `await controlZone(zoneId, state)` made by `origin`: the table and the effects are
committed, the call is recorded, and the settled promise is returned. -/
def call (s : Server) (env : CallEnv) (origin : Origin) (zoneId : Int) (state : Bool) :
    Server × Except String ControlResult :=
  let out := controlZone s.config env s.zones zoneId state
  ({ s with zones := out.zones
            effects := s.effects ++ out.effects
            log := s.log ++ [{ time := s.now, zoneId := zoneId, state := state
                               ok := out.result.toBool, origin := origin
                               running := runningIds s.zones }] }, out.result)

/-- The statements `const timer = setTimeout(async () => { await controlZone(id, false);
activeTimers.delete(id) }, delay); activeTimers.set(id, timer)` of the start route and of the
MQTT `start` command. A timer already registered for `id` is not cleared: its entry in the map
is overwritten. -/
def armAutoOff (s : Server) (delay : Nat) (id : Int) : Server :=
  let (s1, timer) := setTimeout s delay (Callback.autoOff id)
  { s1 with activeTimers := timersSet s1.activeTimers id timer }

/-- The expression `duration || zone.default_duration || 10` of the start route; with no
`duration` in the body and no such zone the property access throws a `TypeError`. -/
def finalDuration (duration : Option Int) (zone : Option Zone) : Except String Int :=
  if jsOr duration 0 ≠ 0 then Except.ok (jsOr duration 0)
  else
    match zone with
    | none => Except.error "Cannot read properties of undefined (reading 'default_duration')"
    | some z => Except.ok (jsOr z.default_duration 10)

/-- The handler of `POST /api/zones/:id/start` with `duration` from the request body, for a
URL whose `:id` is a number written in plain decimal digits: for such a text the row the
database finds for it and the key `parseInt(id)` of `activeTimers` are that number `id`. (For
other texts the two readings can differ, as for `1e1`: row 10, key 1.) -/
def startRoute (s : Server) (id : Int) (duration : Option Int) (env : CallEnv) :
    Server × Response :=
  if (s.config.winterMode.map fun wm => wm.enabled) = some true then
    (s, { status := 423, success := false, error := some "Wintersperre aktiv"
          message := some "❄️ Bewässerung im Wintermodus deaktiviert" })
  else
    match finalDuration duration (selectZone s.zones id) with
    | Except.error e => (s, { status := 400, success := false, error := some e, message := none })
    | Except.ok minutes =>
      match call s env Origin.request id true with
      | (s1, Except.error e) =>
        (s1, { status := 400, success := false, error := some e, message := none })
      | (s1, Except.ok _) =>
        (armAutoOff s1 (minutes * 60 * 1000).toNat id,
         { status := 200, success := true, error := none
           message := some ("Zone " ++ toString id ++ " gestartet für " ++ toString minutes ++
             " Minuten") })

/-- The first statement of the stop route and of the MQTT `stop` command:
`if (activeTimers.has(id)) { clearTimeout(activeTimers.get(id)); activeTimers.delete(id) }`. -/
def cancelTimer (s : Server) (id : Int) : Server :=
  match timersGet s.activeTimers id with
  | some timer => { clearTimeout s timer with activeTimers := timersDelete s.activeTimers id }
  | none => s

/-- The handler of `POST /api/zones/:id/stop`, for a URL whose `:id` is a number written in
plain decimal digits (see `startRoute`). -/
def stopRoute (s : Server) (id : Int) (env : CallEnv) : Server × Response :=
  match call (cancelTimer s id) env Origin.request id false with
  | (s1, Except.error e) =>
    (s1, { status := 400, success := false, error := some e, message := none })
  | (s1, Except.ok _) =>
    (s1, { status := 200, success := true, error := none
           message := some ("Zone " ++ toString id ++ " gestoppt") })

/-- The statements `activeTimers.forEach(timer => clearTimeout(timer)); activeTimers.clear()`
of the stop-all route and of the `SIGINT` handler. -/
def clearAllTimers (s : Server) : Server :=
  { s with pending := s.pending.filter fun t => !(s.activeTimers.any fun e => e.2 = t.handle)
           activeTimers := [] }

/-- The loop `for (const zone of zones) await controlZone(zone.id, false)` of the stop-all
route; a rejection leaves the loop. -/
def stopEach (s : Server) (env : CallEnv) : List Int → Server × Except String Unit
  | [] => (s, Except.ok ())
  | id :: ids =>
    match call s env Origin.request id false with
    | (s1, Except.error e) => (s1, Except.error e)
    | (s1, Except.ok _) => stopEach s1 env ids

/-- The handler of `POST /api/zones/stopall`. -/
def stopAllRoute (s : Server) (env : CallEnv) : Server × Response :=
  let s1 := clearAllTimers s
  let zones := runningIds s1.zones
  match stopEach s1 env zones with
  | (s2, Except.error e) =>
    (s2, { status := 500, success := false, error := some e, message := none })
  | (s2, Except.ok _) =>
    (s2, { status := 200, success := true, error := none
           message := some (toString zones.length ++ " Zonen gestoppt") })

/-- The timer part of the `SIGINT` handler. -/
def shutdownHandler (s : Server) : Server :=
  clearAllTimers s

/-- The command branch of `handleMqttMessage` for the topic `<base>/zones/<zoneId>/command`,
with `command = message.toString().toLowerCase()`. A rejected `controlZone` is not handled and
arms nothing. -/
def mqttCommand (s : Server) (zoneId : Int) (command : String) (env : CallEnv) : Server :=
  if command = "start" then
    match call s env Origin.request zoneId true with
    | (s1, Except.error _) => s1
    | (s1, Except.ok _) => armAutoOff s1 (10 * 60 * 1000) zoneId
  else if command = "stop" then
    (call (cancelTimer s zoneId) env Origin.request zoneId false).1
  else s

/-- The function `runSequence(zones)` from the head of its loop up to its next wait: a step
whose start is rejected is logged and skipped; after a start that resolved, the loop waits for
the step's timer. -/
def runSequence (s : Server) (env : CallEnv) (origin : Origin) : List Step → Server
  | [] => s
  | zoneConfig :: rest =>
    match call s env origin zoneConfig.zone_id true with
    | (s1, Except.error _) => runSequence s1 env origin rest
    | (s1, Except.ok _) =>
      (setTimeout s1 (zoneConfig.duration * 60 * 1000)
        (Callback.sequenceStop zoneConfig.zone_id rest)).1

/-- The callback of a timer runs, as the event `handle` expired.
* `autoOff`: the zone is switched off and then unregistered; if `controlZone` rejects, the
  callback ends there.
* `sequenceStop`: the zone is switched off and the loop goes on to its pause; if
  `controlZone` rejects, `resolve()` is never reached and the loop never goes on.
* `sequencePause`: the loop goes on with the remaining steps. -/
def runCallback (s : Server) (env : CallEnv) (handle : Nat) : Callback → Server
  | Callback.autoOff zoneId =>
    match call s env (Origin.timer handle) zoneId false with
    | (s1, Except.error _) => s1
    | (s1, Except.ok _) => { s1 with activeTimers := timersDelete s1.activeTimers zoneId }
  | Callback.sequenceStop zoneId rest =>
    match call s env (Origin.timer handle) zoneId false with
    | (s1, Except.error _) => s1
    | (s1, Except.ok _) => (setTimeout s1 2000 (Callback.sequencePause rest)).1
  | Callback.sequencePause rest => runSequence s env (Origin.timer handle) rest

/-- The timer `handle` expires: if it is still armed and its delay has passed, it leaves the
armed timers and its callback runs; otherwise nothing happens. -/
def expire (s : Server) (handle : Nat) (env : CallEnv) : Server :=
  match s.pending.find? fun t => t.handle = handle with
  | none => s
  | some t =>
    if t.due ≤ s.now then
      runCallback { s with pending := s.pending.filter fun u => u.handle ≠ handle } env handle
        t.callback
    else s

/-- Time passes. -/
def elapse (s : Server) (ms : Nat) : Server :=
  { s with now := s.now + ms }

/-- The statement `DELETE FROM zones WHERE id = ?` of the handler of `DELETE /api/zones/:id`. -/
def deleteZone (s : Server) (id : Int) : Server :=
  { s with zones := s.zones.filter fun z => z.id ≠ id }

/-- The data of the `moisture_update` message sent to the WebSocket clients. -/
structure MoistureUpdate where
  zone_id : Int
  sensor : String
  moisture : Int
  deriving DecidableEq, Repr

/-- The sensor branch of `handleMqttMessage` for the topic `<base>/sensors/<sensorId>/moisture`.
`value` is `parseFloat(message.toString())`, with `none` for `NaN`. The reading is written by
`UPDATE zones SET moisture = ? WHERE loxone_input = ?`; if a row changed, the first zone of that
input is announced. -/
def sensorReading (zones : List Zone) (sensorId : String) (value : Option Int) :
    List Zone × Option MoistureUpdate :=
  match value with
  | none => (zones, none)
  | some v =>
    let updated := zones.map fun z =>
      if z.loxone_input = sensorId then { z with moisture := some v } else z
    (updated, (updated.find? fun z => z.loxone_input = sensorId).map fun z =>
      { zone_id := z.id, sensor := sensorId, moisture := v })

/-- What one run of the 6-hour auto-water sweep leaves: the server and the weather store, the
ids of the zones it passed to `shouldWaterBasedOnMoisture`, in order, and the message of the
rejection that ended it, if one did. -/
structure SweepResult where
  server : Server
  store : WeatherStore
  evaluated : List Int
  aborted : Option String

/-- The loop of the auto-water sweep over the scanned rows. A zone without
`auto_water_enabled` is passed over. `await controlZone(zone.id, true)` stands in no
`try`: a rejection leaves the loop and the callback. After a start that resolved, the auto-off
is armed for `decision.duration` minutes (always set on a decision to water) and registered in
`activeTimers`. -/
def sweepZones (env : CallEnv) (now : Int) (net : Providers) :
    Server → WeatherStore → List Zone → SweepResult
  | s, st, [] => { server := s, store := st, evaluated := [], aborted := none }
  | s, st, zone :: rest =>
    if zone.auto_water_enabled = 0 then sweepZones env now net s st rest
    else
      let decided := shouldWaterBasedOnMoisture s.config st now net zone
      if decided.decision.shouldWater then
        match call s env Origin.request zone.id true with
        | (s1, Except.error e) =>
          { server := s1, store := decided.store, evaluated := [zone.id], aborted := some e }
        | (s1, Except.ok _) =>
          let later := sweepZones env now net
            (armAutoOff s1 (jsOr decided.decision.duration 0 * 60 * 1000).toNat zone.id)
            decided.store rest
          { later with evaluated := zone.id :: later.evaluated }
      else
        let later := sweepZones env now net s decided.store rest
        { later with evaluated := zone.id :: later.evaluated }

/-- The callback of the job `0 */6 * * *`: the sweep over
`SELECT * FROM zones WHERE moisture IS NOT NULL`. -/
def autoWaterSweep (s : Server) (st : WeatherStore) (now : Int) (net : Providers)
    (env : CallEnv) : SweepResult :=
  sweepZones env now net s st (s.zones.filter fun z => z.moisture.isSome)

/-- What can happen to the running server. -/
inductive Event where
  | startRequest (id : Int) (duration : Option Int) (env : CallEnv)
  | stopRequest (id : Int) (env : CallEnv)
  | stopAllRequest (env : CallEnv)
  | mqtt (zoneId : Int) (command : String) (env : CallEnv)
  | sequenceStart (steps : List Step) (env : CallEnv)
  | expired (handle : Nat) (env : CallEnv)
  | elapsed (ms : Nat)
  | sigint
  | zoneDeleted (id : Int)
  | sensor (sensorId : String) (value : Option Int)
  | sweep (st : WeatherStore) (now : Int) (net : Providers) (env : CallEnv)

/-- The effect of one event. -/
def step (s : Server) : Event → Server
  | Event.startRequest id duration env => (startRoute s id duration env).1
  | Event.stopRequest id env => (stopRoute s id env).1
  | Event.stopAllRequest env => (stopAllRoute s env).1
  | Event.mqtt zoneId command env => mqttCommand s zoneId command env
  | Event.sequenceStart steps env => runSequence s env Origin.request steps
  | Event.expired handle env => expire s handle env
  | Event.elapsed ms => elapse s ms
  | Event.sigint => shutdownHandler s
  | Event.zoneDeleted id => deleteZone s id
  | Event.sensor sensorId value => { s with zones := (sensorReading s.zones sensorId value).1 }
  | Event.sweep st now net env => (autoWaterSweep s st now net env).server

/-- The effect of a series of events, one after the other. -/
def run (s : Server) (events : List Event) : Server :=
  events.foldl step s

/-- The number of times the callback of timer `handle` has called `controlZone`. -/
def executions (handle : Nat) (s : Server) : Nat :=
  s.log.countP fun c => c.origin = Origin.timer handle

/-- The armed timer that is due first (the one armed first among equals). -/
def nextDue : List Timer → Option Timer
  | [] => none
  | t :: ts =>
    match nextDue ts with
    | none => some t
    | some u => if t.due ≤ u.due then some t else some u

/-- The server left alone: as long as a timer is armed, the clock moves on to the time the
next one is due and that timer expires; `envs` gives what the callback of each handle
observes. At most `fuel` timers expire. -/
def drain (envs : Nat → CallEnv) : Nat → Server → Server
  | 0, s => s
  | fuel + 1, s =>
    match nextDue s.pending with
    | none => s
    | some t => drain envs fuel (expire { s with now := max s.now t.due } t.handle (envs t.handle))

/-- The trace the sequence runner is to leave for `steps` when started at time `t` after a
previous step for zone `previous`: for each step in list order a start and a stop of its
zone; the first start at `t`, not seeing the previous zone running; each stop `duration`
minutes after its start; each next start two seconds after the stop. -/
def SequenceTrace (t : Nat) (previous : Option Int) : List Step → List Call → Prop
  | [], [] => True
  | zoneConfig :: rest, start :: stop :: more =>
    start.zoneId = zoneConfig.zone_id ∧ start.state = true ∧ start.time = t ∧
    (∀ p, previous = some p → p ∉ start.running) ∧
    stop.zoneId = zoneConfig.zone_id ∧ stop.state = false ∧
    stop.time = start.time + zoneConfig.duration * 60 * 1000 ∧
    SequenceTrace (stop.time + 2000) (some zoneConfig.zone_id) rest more
  | _, _ => False

/-- Timer handles are issued in increasing order: every handle that occurs in the state, as
an armed timer, in `activeTimers` or in the record of calls, is below `nextHandle`. This holds
at start-up and is kept by every event. -/
def Fresh (s : Server) : Prop :=
  (∀ t ∈ s.pending, t.handle < s.nextHandle) ∧
  (∀ e ∈ s.activeTimers, e.2 < s.nextHandle) ∧
  (∀ c ∈ s.log, ∀ h, c.origin = Origin.timer h → h < s.nextHandle)

/-- The frame of what handlers do to timers and to the record of calls between a state `s` and
a later state `next`: handles are only issued upwards, an armed or registered timer is an old
one or newly issued, and the record of calls only grows, by calls of request handlers and of
the timers in `callers`. -/
def Evolves (callers : Nat → Prop) (s next : Server) : Prop :=
  s.nextHandle ≤ next.nextHandle ∧
  (∀ t ∈ next.pending, t ∈ s.pending ∨ (s.nextHandle ≤ t.handle ∧ t.handle < next.nextHandle)) ∧
  (∀ e ∈ next.activeTimers,
    e ∈ s.activeTimers ∨ (s.nextHandle ≤ e.2 ∧ e.2 < next.nextHandle)) ∧
  ∃ more, next.log = s.log ++ more ∧ ∀ c ∈ more, ∀ h, c.origin = Origin.timer h → callers h

/-- The timer `handle` is armed in `s`. -/
def Armed (s : Server) (handle : Nat) : Prop :=
  ∃ t ∈ s.pending, t.handle = handle

/-- The timer `handle` has been issued and is no longer armed: it ran or was cleared. -/
def Dead (handle : Nat) (s : Server) : Prop :=
  handle < s.nextHandle ∧ ∀ t ∈ s.pending, t.handle ≠ handle

/-! ## The daily check and the schedules

The job of a schedule and the daily check are callbacks of `node-cron`. What the library and
the built-in parser decide is an argument: the `cron` pattern of a schedule row, or the error
thrown while it is built and validated, is given by `cronPattern`. -/

/-- What one run of `dailyIrrigationCheck` leaves: the server, the ids of the zones its loop
visited, and the error its outer `catch` logged, if any. -/
structure DailyCheck where
  server : Server
  visited : List Int
  caught : Option String

/-- The function `dailyIrrigationCheck()`. `winterRow` is the outcome of
`SELECT enabled FROM winter_mode WHERE id = 1`: an error, or `row?.enabled`. With the gate off
the next statement is `await fetchWeather()`; no function or variable of that name is declared
in the program (the weather function is `fetchWeatherData`), so evaluating the name throws a
`ReferenceError`, caught by the outer `catch`. The statements after it, among them the loop
over the zones, are never reached. -/
def dailyIrrigationCheck (s : Server) (winterRow : Except String (Option Int)) : DailyCheck :=
  match winterRow with
  | Except.error e => { server := s, visited := [], caught := some e }
  | Except.ok enabled =>
    if jsOr enabled 0 ≠ 0 then { server := s, visited := [], caught := none }
    else { server := s, visited := [], caught := some "fetchWeather is not defined" }

/-- A row of the `sequences` table, `zones` being `JSON.parse(sequence.zones)`. -/
structure Sequence where
  id : Int
  name : String
  zones : List Step
  deriving DecidableEq, Repr

/-- A row of the `schedules` table. -/
structure Schedule where
  id : Int
  sequence_id : Int
  days : String
  time : String
  enabled : Int
  deriving DecidableEq, Repr

/-- The query `SELECT * FROM sequences WHERE id = ?`. -/
def selectSequence (sequences : List Sequence) (id : Int) : Option Sequence :=
  sequences.find? fun q => q.id = id

/-- What one firing of the job of a schedule leaves: the server, the weather store, the
sequence id it looked up, if it did, and the steps it passed to `runSequence`, if it did. -/
structure TriggerResult where
  server : Server
  store : WeatherStore
  lookedUp : Option Int
  invoked : Option (List Step)

/-- The callback given to `cron.schedule` by `registerScheduleCron(schedule)`, fired at time
`now`. No branch of it throws. -/
def scheduleTrigger (s : Server) (st : WeatherStore) (now : Int) (net : Providers)
    (sequences : List Sequence) (schedule : Schedule) (env : CallEnv) : TriggerResult :=
  let skipDueToWeather := shouldSkipWateringDueToWeather s.config st now net
  if skipDueToWeather.skip then
    { server := s, store := skipDueToWeather.store, lookedUp := none, invoked := none }
  else
    match selectSequence sequences schedule.sequence_id with
    | none =>
      { server := s, store := skipDueToWeather.store, lookedUp := some schedule.sequence_id
        invoked := none }
    | some sequence =>
      { server := runSequence s env Origin.request sequence.zones
        store := skipDueToWeather.store, lookedUp := some schedule.sequence_id
        invoked := some sequence.zones }

/-- The key `schedule_<id>` of the map `activeCrons`, kept as the id it is written from. -/
inductive CronKey where
  | schedule (id : Int)
  deriving DecidableEq, Repr

/-- A job made by `cron.schedule(pattern, callback)`: the object (`handle`), its pattern, the
schedule row its callback holds, and whether it is running (`stop()` not yet called). -/
structure CronJob where
  handle : Nat
  pattern : String
  schedule : Schedule
  running : Bool
  deriving DecidableEq, Repr

/-- The map `activeCrons` (key to job, in insertion order), every job made so far, and the
handle of the next job. -/
structure Crons where
  activeCrons : List (CronKey × Nat)
  jobs : List CronJob
  nextJob : Nat
  deriving DecidableEq, Repr

/-- The call `activeCrons.get(cronKey)` (`none` when `activeCrons.has(cronKey)` is false). -/
def cronsGet (m : List (CronKey × Nat)) (cronKey : CronKey) : Option Nat :=
  (m.find? fun e => e.1 = cronKey).map fun e => e.2

/-- The call `activeCrons.set(cronKey, job)`. -/
def cronsSet (m : List (CronKey × Nat)) (cronKey : CronKey) (handle : Nat) :
    List (CronKey × Nat) :=
  if m.any fun e => e.1 = cronKey then
    m.map fun e => if e.1 = cronKey then (cronKey, handle) else e
  else m ++ [(cronKey, handle)]

/-- The call `job.stop()` on the job `handle`. -/
def stopJob (jobs : List CronJob) (handle : Nat) : List CronJob :=
  jobs.map fun j => if j.handle = handle then { j with running := false } else j

/-- The function `registerScheduleCron(schedule)`; the second component is the error it throws,
if it throws. A job already registered under the key is stopped and removed first. -/
def registerScheduleCron (cronPattern : Schedule → Except String String) (c : Crons)
    (schedule : Schedule) : Crons × Option String :=
  let cronKey := CronKey.schedule schedule.id
  let c1 : Crons :=
    match cronsGet c.activeCrons cronKey with
    | some handle =>
      { c with jobs := stopJob c.jobs handle
               activeCrons := c.activeCrons.filter fun e => e.1 ≠ cronKey }
    | none => c
  match cronPattern schedule with
  | Except.error e => (c1, some e)
  | Except.ok pattern =>
    ({ activeCrons := cronsSet c1.activeCrons cronKey c1.nextJob
       jobs := c1.jobs ++
         [{ handle := c1.nextJob, pattern := pattern, schedule := schedule, running := true }]
       nextJob := c1.nextJob + 1 }, none)

/-- The loop `schedules.forEach(schedule => registerScheduleCron(schedule))`: an error thrown
for one row ends it. -/
def registerEach (cronPattern : Schedule → Except String String) :
    Crons → List Schedule → Crons × Option String
  | c, [] => (c, none)
  | c, schedule :: rest =>
    match registerScheduleCron cronPattern c schedule with
    | (c1, some e) => (c1, some e)
    | (c1, none) => registerEach cronPattern c1 rest

/-- The function `loadScheduleCrons()` over the rows of
`SELECT * FROM schedules WHERE enabled = 1`. -/
def loadScheduleCrons (cronPattern : Schedule → Except String String) (c : Crons)
    (schedules : List Schedule) : Crons × Option String :=
  registerEach cronPattern c (schedules.filter fun x => x.enabled = 1)

/-- The function `reloadAllCrons()`: every job in the map is stopped, the map is cleared, and
the enabled schedules are registered. It has completed when the second component is `none`. -/
def reloadAllCrons (cronPattern : Schedule → Except String String) (c : Crons)
    (schedules : List Schedule) : Crons × Option String :=
  loadScheduleCrons cronPattern
    { c with jobs := c.activeCrons.foldl (fun jobs e => stopJob jobs e.2) c.jobs
             activeCrons := [] }
    schedules

/-- The triggers in force: for each entry of `activeCrons`, in order, its key with the schedule
row and the pattern of each running job that is the entry's job. -/
def registrations (c : Crons) : List (CronKey × Schedule × String) :=
  c.activeCrons.flatMap fun e =>
    (c.jobs.filter fun j => j.handle = e.2 ∧ j.running = true).map fun j =>
      (e.1, j.schedule, j.pattern)

/-- Job handles are issued in order: every job made so far, and every job in the map, has a
handle below the next one. -/
def CronsFresh (c : Crons) : Prop :=
  (∀ e ∈ c.activeCrons, e.2 < c.nextJob) ∧ ∀ j ∈ c.jobs, j.handle < c.nextJob

/-- The pattern of a row (the empty text if building it throws). -/
def patternOf (cronPattern : Schedule → Except String String) (x : Schedule) : String :=
  match cronPattern x with
  | Except.ok pattern => pattern
  | Except.error _ => ""

/-- The jobs made for the rows `schedules` in order, the first with handle `n`. -/
def newJobs (cronPattern : Schedule → Except String String) : Nat → List Schedule → List CronJob
  | _, [] => []
  | n, x :: rest =>
    { handle := n, pattern := patternOf cronPattern x, schedule := x, running := true }
      :: newJobs cronPattern (n + 1) rest

/-- The entry of `activeCrons` for a job. -/
def entryOf (j : CronJob) : CronKey × Nat :=
  (CronKey.schedule j.schedule.id, j.handle)

/-- The jobs after `stop()` was called on every job in the map `m`. -/
def stoppedJobs (m : List (CronKey × Nat)) (jobs : List CronJob) : List CronJob :=
  jobs.map fun j => if m.any fun e => e.2 = j.handle then { j with running := false } else j

/-- The state a completed reload leaves, written out: the old jobs stopped, one new job for
each enabled row, in table order. -/
def reloaded (cronPattern : Schedule → Except String String) (c : Crons)
    (schedules : List Schedule) : Crons :=
  { activeCrons :=
      (newJobs cronPattern c.nextJob (schedules.filter fun x => x.enabled = 1)).map entryOf
    jobs := stoppedJobs c.activeCrons c.jobs ++
      newJobs cronPattern c.nextJob (schedules.filter fun x => x.enabled = 1)
    nextJob := c.nextJob + (schedules.filter fun x => x.enabled = 1).length }

/-! ## The Open-Meteo snapshot -/

/-- The fields read from the answer of Open-Meteo: the `current` block and
`hourly.precipitation_probability` (absent, or one value or `null` per hour). Values are
whole numbers. -/
structure OpenMeteoData where
  temperature_2m : Int
  relative_humidity_2m : Int
  weather_code : Int
  wind_speed_10m : Int
  precipitation_probability : Option (List (Option Int))
  deriving DecidableEq, Repr

/-- The function `getWeatherInfoFromCode(code)`: description and icon. -/
def getWeatherInfoFromCode (code : Int) : String × String :=
  if code = 0 then ("Klar", "☀️")
  else if code = 1 then ("Überwiegend klar", "🌤️")
  else if code = 2 then ("Teilweise bewölkt", "⛅")
  else if code = 3 then ("Bedeckt", "☁️")
  else if code = 45 then ("Nebelig", "🌫️")
  else if code = 48 then ("Nebel mit Reifablagerung", "🌫️")
  else if code = 51 then ("Leichter Nieselregen", "🌦️")
  else if code = 53 then ("Nieselregen", "🌦️")
  else if code = 55 then ("Starker Nieselregen", "🌧️")
  else if code = 61 then ("Leichter Regen", "🌧️")
  else if code = 63 then ("Regen", "🌧️")
  else if code = 65 then ("Starker Regen", "🌧️")
  else if code = 71 then ("Leichter Schneefall", "🌨️")
  else if code = 73 then ("Schneefall", "🌨️")
  else if code = 75 then ("Starker Schneefall", "🌨️")
  else if code = 80 then ("Leichte Regenschauer", "🌦️")
  else if code = 81 then ("Regenschauer", "🌧️")
  else if code = 82 then ("Starke Regenschauer", "⛈️")
  else if code = 95 then ("Gewitter", "⛈️")
  else if code = 96 then ("Gewitter mit Hagel", "⛈️")
  else if code = 99 then ("Gewitter mit Hagel", "⛈️")
  else ("Unbekannt", "🌤️")

/-- The expression `probs.slice(from, to).filter(p => p !== null)`. -/
def sliceNonNull (probs : List (Option Int)) (start stop : Nat) : List Int :=
  ((probs.drop start).take (stop - start)).filterMap id

/-- The expression `day.length > 0 ? Math.max(...day) : 0`. -/
def maxOrZero : List Int → Int
  | [] => 0
  | p :: rest => rest.foldl max p

/-- The value of `rainToday`, `rainTomorrow` (`day = 1`) and `rainDay3` (`day = 2`) when the
snapshot is built: 0 unless the hourly probabilities are present. -/
def rainOfDay (data : OpenMeteoData) (day : Nat) : Int :=
  match data.precipitation_probability with
  | none => 0
  | some probs => maxOrZero (sliceNonNull probs (24 * day) (24 * day + 24))

/-- The object `fetchOpenMeteoWeather()` returns at time `now` for the answer `data`;
`locationName` is the place name found by the reverse lookup, if any. On whole numbers
`Math.round` changes nothing. -/
def fetchOpenMeteoWeather (data : OpenMeteoData) (locationName : Option String) (now : Int) :
    WeatherData :=
  let rainToday := rainOfDay data 0
  let rainTomorrow := rainOfDay data 1
  let rainDay3 := rainOfDay data 2
  let weatherInfo := getWeatherInfoFromCode data.weather_code
  { current :=
      { temperature := data.temperature_2m
        humidity := data.relative_humidity_2m
        description := weatherInfo.1
        icon := weatherInfo.2
        windSpeed := data.wind_speed_10m }
    forecast :=
      { rainProbability := rainToday
        willRain := decide (rainToday ≥ 50)
        daily := [rainToday, rainTomorrow, rainDay3] }
    location := locationName.getD "Standort"
    timestamp := now
    provider := "open-meteo" }

/-! ## Two `controlZone` calls under way at once

A call of `controlZone` waits up to four times: for its zone row, for the query for another
active zone (when starting), for the relay request (when the Miniserver is configured) and for
its `UPDATE`. While it waits, another call may go on. A step takes a call from one wait to the
next: the awaited operation happens on the table as it is then, and the code after it runs up
to the next wait. -/

/-- Where a `controlZone` call stands: what it waits for, or how it settled. -/
inductive Phase where
  | lookup
  | admission (zone : Zone)
  | relay (zone : Zone)
  | write (zone : Zone)
  | settled (result : Except String ControlResult)

/-- A `controlZone(zoneId, state)` call under way. -/
structure Task where
  config : Config
  env : CallEnv
  zoneId : Int
  state : Bool
  phase : Phase

/-- What the calls share: the zone table and the effects so far. -/
structure Shared where
  zones : List Zone
  effects : List Effect

/-- The test `config.loxone && config.loxone.host && config.loxone.username`. -/
def loxoneConfigured (config : Config) : Bool :=
  match config.loxone with
  | none => false
  | some lox => lox.host ≠ "" ∧ lox.username ≠ ""

/-- The wait that follows the admission check: the relay request if the Miniserver is
configured, the `UPDATE` otherwise. -/
def afterAdmission (config : Config) (zone : Zone) : Phase :=
  if loxoneConfigured config then Phase.relay zone else Phase.write zone

/-- One step of a call: from its present wait to the next. The effects of the relay block are
recorded when the request has completed. -/
def advance (t : Task) (w : Shared) : Task × Shared :=
  match t.phase with
  | Phase.lookup =>
    match selectZone w.zones t.zoneId with
    | none => ({ t with phase := Phase.settled (Except.error zoneNotFound) }, w)
    | some zone =>
      if t.state then ({ t with phase := Phase.admission zone }, w)
      else ({ t with phase := afterAdmission t.config zone }, w)
  | Phase.admission zone =>
    match selectOtherActive w.zones t.zoneId with
    | some active =>
      ({ t with phase := Phase.settled (Except.error (alreadyRunning active.name)) }, w)
    | none => ({ t with phase := afterAdmission t.config zone }, w)
  | Phase.relay zone =>
    ({ t with phase := Phase.write zone },
     { w with effects := w.effects ++ relayEffects t.config t.env zone t.zoneId t.state })
  | Phase.write zone =>
    ({ t with phase :=
        Phase.settled (Except.ok { success := true, zone := zone.name, state := t.state }) },
     { zones := updateZone w.zones t.zoneId t.state t.env.localTime
       effects := w.effects ++ [Effect.broadcastZoneUpdate t.zoneId t.state] })
  | Phase.settled _ => (t, w)

/-- Whose step is next. -/
inductive Turn where
  | first
  | second
  deriving DecidableEq, Repr

/-- Two calls under way, stepped in the order of `turns`. -/
def interleave : Task → Task → Shared → List Turn → Task × Task × Shared
  | a, b, w, [] => (a, b, w)
  | a, b, w, Turn.first :: rest => interleave (advance a w).1 b (advance a w).2 rest
  | a, b, w, Turn.second :: rest => interleave a (advance b w).1 (advance b w).2 rest

/-- A call stepped with nothing in between until it has settled (four steps at most). -/
def runAlone (t : Task) (w : Shared) : Task × Shared :=
  let r1 := advance t w
  let r2 := advance r1.1 r1.2
  let r3 := advance r2.1 r2.2
  advance r3.1 r3.2

/-- The result of a call, once settled. -/
def Task.result (t : Task) : Option (Except String ControlResult) :=
  match t.phase with
  | Phase.settled result => some result
  | _ => none

/-- The values the words "the first 24 non-null hourly probabilities" name when read as they
stand: the non-null values in order, and of these the first 24. (The program takes the first
24 hourly entries and of these the non-null ones: `sliceNonNull probs 0 24`.) -/
def firstNonNullValues (probs : List (Option Int)) : List Int :=
  (probs.filterMap id).take 24

/-! ## Concrete inputs used in the examples below -/

/-- A zone as seeded by the installer, with the scenario values `moisture = 20`,
`moisture_threshold = 30`, `moisture_optimal = 60`. -/
def sampleZone : Zone :=
  { id := 1, name := "Zone 1", loxone_output := "IrrigationValve1"
    loxone_input := "IrrigationMoisture1", enabled := 1, priority := 5
    default_duration := some 10, moisture := some 20, moisture_threshold := some 30
    moisture_optimal := some 60, auto_water_enabled := 1, is_active := 0
    last_watered := none }

/-- A configuration with the weather feature enabled (provider Open-Meteo, threshold 70), a
relay host and no winter mode. -/
def sampleConfig : Config :=
  { loxone := some { host := "192.168.1.77", username := "admin", password := "secret" }
    weather := some { provider := some "open-meteo", apiKey := "", enabled := true
                      rainThreshold := some 70 }
    winterMode := none }

/-- An empty weather cache and log. -/
def emptyStore : WeatherStore :=
  { weatherCache := none, weatherCacheTime := none, weather_log := [] }

/-- Both providers unreachable. -/
def offline : Providers :=
  { openMeteo := ProviderOutcome.threw "timeout of 10000ms exceeded"
    openWeatherMap := ProviderOutcome.threw "timeout of 10000ms exceeded" }

/-- A snapshot with the given rain probabilities for today and tomorrow. -/
def snapshot (today tomorrow : Int) : WeatherData :=
  { current := { temperature := 18, humidity := 55, description := "Klar", icon := "sun"
                 windSpeed := 7 }
    forecast := { rainProbability := today, willRain := decide (today ≥ 50)
                  daily := [today, tomorrow, 0] }
    location := "Wien", timestamp := 0, provider := "open-meteo" }

/-- The sample zone with `moisture = 5` and its optimum set to `0`. -/
def zeroOptimalZone : Zone :=
  { sampleZone with moisture := some 5, moisture_optimal := some 0 }

/-- The sample zone with a stored moisture of `0`. -/
def zeroMoistureZone : Zone :=
  { sampleZone with moisture := some 0 }

/-- The sample zone with `moisture = 10` and its threshold set to `0`. -/
def zeroThresholdZone : Zone :=
  { sampleZone with moisture := some 10, moisture_threshold := some 0 }

/-- The sample zone with `moisture = 40`, between threshold and optimum. -/
def moistZone : Zone :=
  { sampleZone with moisture := some 40 }

/-- The sample zone with `moisture = 70`, above its optimum. -/
def wetZone : Zone :=
  { sampleZone with moisture := some 70 }

/-- A zone whose threshold lies above its optimum: `moisture = 58`, `threshold = 90`,
`optimal = 60`. -/
def invertedZone : Zone :=
  { sampleZone with moisture := some 58, moisture_threshold := some 90 }

/-- A second zone, inactive. -/
def secondZone : Zone :=
  { sampleZone with id := 2, name := "Zone 2", loxone_output := "IrrigationValve2"
                    loxone_input := "IrrigationMoisture2" }

/-- The second zone while it is running. -/
def runningZone : Zone :=
  { secondZone with is_active := 1 }

/-- The relay answers, MQTT is not connected. -/
def sampleEnv : CallEnv :=
  { relayOk := true, mqttConnected := false, mqttBaseTopic := "irrigation"
    localTime := "2025-06-01 06:00:00" }

/-- The sample configuration with the winter lock switched on. -/
def winterConfig : Config :=
  { sampleConfig with
    winterMode := some { enabled := true, activatedAt := some "2025-11-01T08:00:00.000Z" } }

/-- A store whose cache was filled with the given snapshot at time `t0`. -/
def cachedStore (w : WeatherData) (t0 : Int) : WeatherStore :=
  { weatherCache := some w, weatherCacheTime := some t0, weather_log := [] }

/-- The sample configuration with the given `config.weather.rainThreshold`. -/
def thresholdConfig (rainThreshold : Option Int) : Config :=
  { sampleConfig with
    weather := some { provider := some "open-meteo", apiKey := "", enabled := true
                      rainThreshold := rainThreshold } }

/-- The sample configuration with the given `config.weather.provider`. -/
def providerConfig (provider : String) : Config :=
  { sampleConfig with
    weather := some { provider := some provider, apiKey := "", enabled := true
                      rainThreshold := some 70 } }

/-- The server at rest: two idle zones, no timer, the clock at 0. -/
def idleServer : Server :=
  { config := sampleConfig, zones := [sampleZone, secondZone], activeTimers := [], pending := []
    nextHandle := 0, now := 0, log := [], effects := [] }

/-- Zone 1 is started for 10 minutes and, five minutes later, started again for 30 minutes. -/
def rearmEvents : List Event :=
  [Event.startRequest 1 (some 10) sampleEnv, Event.elapsed 300000,
   Event.startRequest 1 (some 30) sampleEnv]

/-- Zone 1 is started for 10 minutes, started again at minute 5 and stopped at minute 6. -/
def stopAfterRearm : List Event :=
  [Event.startRequest 1 (some 10) sampleEnv, Event.elapsed 300000,
   Event.startRequest 1 (some 10) sampleEnv, Event.elapsed 60000,
   Event.stopRequest 1 sampleEnv]

/-- A sequence of zone 1 and zone 2, ten minutes each. -/
def tenMinuteSteps : List Step :=
  [{ zone_id := 1, duration := 10 }, { zone_id := 2, duration := 10 }]

/-- The sequence is started and, at minute 4, all zones are stopped. -/
def stopAllDuringSequence : List Event :=
  [Event.sequenceStart tenMinuteSteps sampleEnv, Event.elapsed 240000,
   Event.stopAllRequest sampleEnv]

/-- A sequence whose single step is to run zone 1 for 35792 minutes. -/
def longStep : List Step :=
  [{ zone_id := 1, duration := 35792 }]

/-- A third zone, as dry as the first. -/
def thirdZone : Zone :=
  { sampleZone with id := 3, name := "Zone 3", loxone_output := "IrrigationValve3"
                    loxone_input := "IrrigationMoisture3" }

/-- A sequence of zone 1 and zone 2, one minute each. -/
def twoSteps : List Step :=
  [{ zone_id := 1, duration := 1 }, { zone_id := 2, duration := 1 }]

/-- The sequence starts; zone 1 is deleted while it runs; after a minute the timer of the
first step expires. -/
def deletedDuringSequence : List Event :=
  [Event.sequenceStart twoSteps sampleEnv, Event.zoneDeleted 1, Event.elapsed 60000,
   Event.expired 0 sampleEnv]

/-- Three dry zones with auto-watering, none running. -/
def threeZoneServer : Server :=
  { idleServer with zones := [sampleZone, secondZone, thirdZone] }

/-- The sequence of zone 1 and zone 2, stored under id 5. -/
def sampleSequence : Sequence :=
  { id := 5, name := "Morgenrunde", zones := twoSteps }

/-- Schedule 3 runs sequence 5 on Monday, Wednesday and Friday at 06:30. -/
def sampleSchedule : Schedule :=
  { id := 3, sequence_id := 5, days := "[1,3,5]", time := "06:30", enabled := 1 }

/-- Schedule 4 runs sequence 5 at the weekend at 07:00. -/
def weekendSchedule : Schedule :=
  { id := 4, sequence_id := 5, days := "[0,6]", time := "07:00", enabled := 1 }

/-- Schedule 6 is switched off. -/
def disabledSchedule : Schedule :=
  { id := 6, sequence_id := 5, days := "[1,3,5]", time := "06:30", enabled := 0 }

/-- The patterns of the sample rows; for any other row building the pattern throws. -/
def samplePattern (x : Schedule) : Except String String :=
  if x.days = "[1,3,5]" ∧ x.time = "06:30" then Except.ok "30 06 * * 1,3,5"
  else if x.days = "[0,6]" ∧ x.time = "07:00" then Except.ok "00 07 * * 0,6"
  else Except.error "Unexpected token in JSON"

/-- The registry with the job of schedule 3 running. -/
def loadedCrons : Crons :=
  { activeCrons := [(CronKey.schedule 3, 0)]
    jobs := [{ handle := 0, pattern := "30 06 * * 1,3,5", schedule := sampleSchedule
               running := true }]
    nextJob := 1 }

/-- Hourly probabilities: the first hour has no value, 40 % at most during the first day,
90 % in the first hour of the second day. -/
def sampleProbabilities : List (Option Int) :=
  [none, some 10, some 40] ++ List.replicate 21 (some 5) ++ [some 90, some 20]

/-- An answer of Open-Meteo with these hourly probabilities. -/
def sampleAnswer : OpenMeteoData :=
  { temperature_2m := 18, relative_humidity_2m := 55, weather_code := 2, wind_speed_10m := 7
    precipitation_probability := some sampleProbabilities }

/-- The same answer with 60 % in the third hour. -/
def rainyAnswer : OpenMeteoData :=
  { sampleAnswer with
    precipitation_probability :=
      some ([none, some 10, some 60] ++ List.replicate 21 (some 5) ++ [some 90, some 20]) }

/-- The call `controlZone(zoneId, true)`, just made. -/
def startTask (zoneId : Int) : Task :=
  { config := sampleConfig, env := sampleEnv, zoneId := zoneId, state := true
    phase := Phase.lookup }

/-- The table of the two idle zones, no effect yet. -/
def idleShared : Shared :=
  { zones := [sampleZone, secondZone], effects := [] }

/-- The second call is made while the first waits for the relay: both pass the check for
another active zone before either has written. -/
def overlapping : List Turn :=
  [Turn.first, Turn.first, Turn.second, Turn.second, Turn.first, Turn.first, Turn.second,
   Turn.second]

/-- The first call settles before the second is made. -/
def oneAfterAnother : List Turn :=
  [Turn.first, Turn.first, Turn.first, Turn.first, Turn.second, Turn.second, Turn.second,
   Turn.second]

/-- Open-Meteo answers with the given snapshot. -/
def online (w : WeatherData) : Providers :=
  { openMeteo := ProviderOutcome.returned (some w)
    openWeatherMap := ProviderOutcome.threw "not configured" }

/-! ## Lemmas on the decision engine -/

theorem jsOr_some_of_ne_zero {v : Int} (d : Int) (h : v ≠ 0) : jsOr (some v) d = v := by
  simp [jsOr, h]

theorem fdiv_five (d : Int) : Int.fdiv d 5 = d / 5 :=
  Int.fdiv_eq_ediv d (by decide)

/-- The model of `Math.floor(moistureDiff / 5)` is the floor of the exact quotient. -/
theorem fdiv_five_eq_floor (d : Int) : Int.fdiv d 5 = ⌊(d : ℚ) / 5⌋ := by
  rw [fdiv_five]
  exact (Rat.floor_intCast_div_natCast d 5).symm

/-- A snapshot is only ever returned with the weather feature configured and enabled. -/
theorem fetchWeatherData_some_config {config : Config} {st : WeatherStore} {now : Int}
    {net : Providers} {w : WeatherData}
    (h : (fetchWeatherData config st now net).value = some w) :
    ∃ wc, config.weather = some wc ∧ wc.enabled = true := by
  unfold fetchWeatherData at h
  cases hc : config.weather with
  | none => simp [hc] at h
  | some wc =>
    refine ⟨wc, rfl, ?_⟩
    by_contra hne
    simp [hc, hne] at h

/-- First branch: the effective moisture has reached the effective optimum. -/
theorem decision_of_sufficient (config : Config) (st : WeatherStore) (now : Int)
    (net : Providers) (zone : Zone)
    (h : jsOr zone.moisture 100 ≥ jsOr zone.moisture_optimal 60) :
    (shouldWaterBasedOnMoisture config st now net zone).decision =
      { shouldWater := false, reason := "Feuchtigkeit ausreichend", duration := none } := by
  simp [shouldWaterBasedOnMoisture, h]

/-- Second branch: below the effective optimum and above the effective threshold. -/
theorem decision_of_above_threshold (config : Config) (st : WeatherStore) (now : Int)
    (net : Providers) (zone : Zone)
    (h1 : jsOr zone.moisture 100 < jsOr zone.moisture_optimal 60)
    (h2 : jsOr zone.moisture 100 > jsOr zone.moisture_threshold 30) :
    (shouldWaterBasedOnMoisture config st now net zone).decision =
      { shouldWater := false, reason := "Noch über Schwellwert", duration := none } := by
  have h1' : ¬ jsOr zone.moisture_optimal 60 ≤ jsOr zone.moisture 100 := by omega
  simp [shouldWaterBasedOnMoisture, h1', h2]

/-- Third branch, no weather data: water for ten minutes. -/
theorem decision_of_critical_unavailable (config : Config) (st : WeatherStore) (now : Int)
    (net : Providers) (zone : Zone)
    (h1 : jsOr zone.moisture 100 < jsOr zone.moisture_optimal 60)
    (h2 : jsOr zone.moisture 100 ≤ jsOr zone.moisture_threshold 30)
    (hw : (fetchWeatherData config st now net).value = none) :
    (shouldWaterBasedOnMoisture config st now net zone).decision =
      { shouldWater := true, reason := "Kritisch trocken, Wetter unbekannt",
        duration := some 10 } := by
  have h1' : ¬ jsOr zone.moisture_optimal 60 ≤ jsOr zone.moisture 100 := by omega
  have h2' : ¬ jsOr zone.moisture_threshold 30 < jsOr zone.moisture 100 := by omega
  simp [shouldWaterBasedOnMoisture, h1', h2', hw]

/-- Third branch with a snapshot: the flag and the duration of the decision. -/
theorem decision_of_critical_available (config : Config) (st : WeatherStore) (now : Int)
    (net : Providers) (zone : Zone) (w : WeatherData)
    (h1 : jsOr zone.moisture 100 < jsOr zone.moisture_optimal 60)
    (h2 : jsOr zone.moisture 100 ≤ jsOr zone.moisture_threshold 30)
    (hw : (fetchWeatherData config st now net).value = some w) :
    ((rainTodayOf w ≥ rainThresholdOf config ∨ rainTomorrowOf w ≥ rainThresholdOf config) →
      (shouldWaterBasedOnMoisture config st now net zone).decision.shouldWater = false ∧
      (shouldWaterBasedOnMoisture config st now net zone).decision.duration = none) ∧
    (¬ (rainTodayOf w ≥ rainThresholdOf config ∨ rainTomorrowOf w ≥ rainThresholdOf config) →
      (shouldWaterBasedOnMoisture config st now net zone).decision.shouldWater = true ∧
      (shouldWaterBasedOnMoisture config st now net zone).decision.duration =
        some (cappedDuration (jsOr zone.moisture_optimal 60 - jsOr zone.moisture 100))) := by
  have h1' : ¬ jsOr zone.moisture_optimal 60 ≤ jsOr zone.moisture 100 := by omega
  have h2' : ¬ jsOr zone.moisture_threshold 30 < jsOr zone.moisture 100 := by omega
  constructor
  · intro hr
    simp only [shouldWaterBasedOnMoisture, ge_iff_le, gt_iff_lt, h1', h2', hw, if_false]
    by_cases ht : rainThresholdOf config ≤ rainTodayOf w
    · simp [ht]
    · have hm : rainThresholdOf config ≤ rainTomorrowOf w := by
        rcases hr with hr | hr
        · exact absurd hr ht
        · exact hr
      simp [ht, hm]
  · intro hr
    have ht : ¬ rainThresholdOf config ≤ rainTodayOf w := fun h => hr (Or.inl h)
    have hm : ¬ rainThresholdOf config ≤ rainTomorrowOf w := fun h => hr (Or.inr h)
    simp [shouldWaterBasedOnMoisture, h1', h2', hw, ht, hm]

/-! ## The decision engine: claims C4 to C10 -/

/-- C4, counterexample: a zone with `moisture = 5` and `moisture_optimal = 0` satisfies
`moisture >= moisture_optimal`, but the code replaces the optimum `0` by `60`, finds the zone
critically dry and, with no weather data, answers `shouldWater = true`. -/
theorem decision_monotonicity_fails_for_zero_optimal :
    zeroOptimalZone.moisture = some 5 ∧ zeroOptimalZone.moisture_optimal = some 0 ∧
    (5 : Int) ≥ 0 ∧
    (shouldWaterBasedOnMoisture sampleConfig emptyStore 0 offline
      zeroOptimalZone).decision.shouldWater = true := by
  decide

/-- C4, amended: for every zone whose `moisture_optimal` is a non-zero number, whatever its
moisture and threshold, and for every weather state (configuration, cache, clock, provider
outcome): if `zone.moisture >= zone.moisture_optimal` then `shouldWaterBasedOnMoisture`
returns `shouldWater = false`. -/
theorem decision_monotonicity (config : Config) (st : WeatherStore) (now : Int)
    (net : Providers) (zone : Zone) (m o : Int)
    (hm : zone.moisture = some m) (ho : zone.moisture_optimal = some o)
    (hset : o ≠ 0) (h : m ≥ o) :
    (shouldWaterBasedOnMoisture config st now net zone).decision.shouldWater = false := by
  have hs : jsOr zone.moisture 100 ≥ jsOr zone.moisture_optimal 60 := by
    rw [hm, ho, jsOr_some_of_ne_zero 60 hset]
    simp only [jsOr]
    split_ifs <;> omega
  rw [decision_of_sufficient config st now net zone hs]

/-- C4, instance: moisture 70 against an optimum of 60, weather unreachable. -/
theorem decision_monotonicity_witness :
    wetZone.moisture = some 70 ∧ wetZone.moisture_optimal = some 60 ∧
    (60 : Int) ≠ 0 ∧ (70 : Int) ≥ 60 ∧
    (shouldWaterBasedOnMoisture sampleConfig emptyStore 0 offline wetZone).decision.shouldWater
      = false :=
  ⟨rfl, rfl, by decide, by decide,
    decision_monotonicity sampleConfig emptyStore 0 offline wetZone 70 60 rfl rfl
      (by decide) (by decide)⟩

/-- C5, counterexample: a zone with `moisture = 0`, `moisture_threshold = 30` and
`moisture_optimal = 60` is at or below its threshold and below its optimum, the weather is
unavailable, and the code answers `shouldWater = false`, because it reads the moisture `0` as
`100`. -/
theorem failsafe_watering_fails_for_zero_moisture :
    zeroMoistureZone.moisture = some 0 ∧
    zeroMoistureZone.moisture_threshold = some 30 ∧
    zeroMoistureZone.moisture_optimal = some 60 ∧
    (0 : Int) ≤ 30 ∧ (0 : Int) < 60 ∧
    (fetchWeatherData sampleConfig emptyStore 0 offline).value = none ∧
    (shouldWaterBasedOnMoisture sampleConfig emptyStore 0 offline
      zeroMoistureZone).decision.shouldWater = false := by
  decide

/-- C5, amended: for every zone whose moisture is a non-zero number at or below its
`moisture_threshold` and below its `moisture_optimal`, when `fetchWeatherData` yields no
snapshot, `shouldWaterBasedOnMoisture` returns `shouldWater = true` with duration exactly
10. -/
theorem failsafe_watering (config : Config) (st : WeatherStore) (now : Int)
    (net : Providers) (zone : Zone) (m t o : Int)
    (hm : zone.moisture = some m) (ht : zone.moisture_threshold = some t)
    (ho : zone.moisture_optimal = some o)
    (hset : m ≠ 0) (hmt : m ≤ t) (hmo : m < o)
    (hw : (fetchWeatherData config st now net).value = none) :
    (shouldWaterBasedOnMoisture config st now net zone).decision.shouldWater = true ∧
    (shouldWaterBasedOnMoisture config st now net zone).decision.duration = some 10 := by
  have h1 : jsOr zone.moisture 100 < jsOr zone.moisture_optimal 60 := by
    rw [hm, ho, jsOr_some_of_ne_zero 100 hset]
    simp only [jsOr]
    split_ifs <;> omega
  have h2 : jsOr zone.moisture 100 ≤ jsOr zone.moisture_threshold 30 := by
    rw [hm, ht, jsOr_some_of_ne_zero 100 hset]
    simp only [jsOr]
    split_ifs <;> omega
  rw [decision_of_critical_unavailable config st now net zone h1 h2 hw]
  exact ⟨rfl, rfl⟩

/-- C5, instance: the scenario `moisture = 20`, `threshold = 30`, `optimal = 60` with both
providers unreachable. -/
theorem failsafe_watering_witness :
    sampleZone.moisture = some 20 ∧ sampleZone.moisture_threshold = some 30 ∧
    sampleZone.moisture_optimal = some 60 ∧ (20 : Int) ≠ 0 ∧ (20 : Int) ≤ 30 ∧ (20 : Int) < 60 ∧
    (fetchWeatherData sampleConfig emptyStore 0 offline).value = none ∧
    (shouldWaterBasedOnMoisture sampleConfig emptyStore 0 offline sampleZone).decision.shouldWater
      = true ∧
    (shouldWaterBasedOnMoisture sampleConfig emptyStore 0 offline sampleZone).decision.duration
      = some 10 :=
  ⟨rfl, rfl, rfl, by decide, by decide, by decide, by decide,
    failsafe_watering sampleConfig emptyStore 0 offline sampleZone 20 30 60 rfl rfl rfl
      (by decide) (by decide) (by decide) (by decide)⟩

/-- C6, counterexample: a zone with `moisture = 10`, `moisture_threshold = 0` and
`moisture_optimal = 60` has `threshold < moisture < optimal`, but the code replaces the
threshold `0` by `30`, finds the zone critically dry and, with no weather data, answers
`shouldWater = true` with a duration. -/
theorem above_threshold_fails_for_zero_threshold :
    zeroThresholdZone.moisture = some 10 ∧ zeroThresholdZone.moisture_threshold = some 0 ∧
    zeroThresholdZone.moisture_optimal = some 60 ∧
    (0 : Int) < 10 ∧ (10 : Int) < 60 ∧
    (fetchWeatherData sampleConfig emptyStore 0 offline).value = none ∧
    (shouldWaterBasedOnMoisture sampleConfig emptyStore 0 offline
      zeroThresholdZone).decision.shouldWater = true ∧
    (shouldWaterBasedOnMoisture sampleConfig emptyStore 0 offline
      zeroThresholdZone).decision.duration = some 10 := by
  decide

/-- C6, amended: for every zone whose `moisture_threshold` is a non-zero number and with
`moisture_threshold < moisture < moisture_optimal`, and for every weather state,
`shouldWaterBasedOnMoisture` returns `shouldWater = false` with no duration. -/
theorem above_threshold_no_water (config : Config) (st : WeatherStore) (now : Int)
    (net : Providers) (zone : Zone) (m t o : Int)
    (hm : zone.moisture = some m) (ht : zone.moisture_threshold = some t)
    (_ho : zone.moisture_optimal = some o)
    (hset : t ≠ 0) (htm : t < m) (_hmo : m < o) :
    (shouldWaterBasedOnMoisture config st now net zone).decision.shouldWater = false ∧
    (shouldWaterBasedOnMoisture config st now net zone).decision.duration = none := by
  by_cases hs : jsOr zone.moisture 100 ≥ jsOr zone.moisture_optimal 60
  · rw [decision_of_sufficient config st now net zone hs]
    exact ⟨rfl, rfl⟩
  · have h2 : jsOr zone.moisture 100 > jsOr zone.moisture_threshold 30 := by
      rw [hm, ht, jsOr_some_of_ne_zero 30 hset]
      simp only [jsOr]
      split_ifs <;> omega
    rw [decision_of_above_threshold config st now net zone (by omega) h2]
    exact ⟨rfl, rfl⟩

/-- C6, instance: the scenario `moisture = 40`, `threshold = 30`, `optimal = 60` with an
80 % rain forecast for today and `rainThreshold = 70`. -/
theorem above_threshold_no_water_witness :
    moistZone.moisture = some 40 ∧
    moistZone.moisture_threshold = some 30 ∧
    moistZone.moisture_optimal = some 60 ∧
    (30 : Int) ≠ 0 ∧ (30 : Int) < 40 ∧ (40 : Int) < 60 ∧
    (shouldWaterBasedOnMoisture sampleConfig emptyStore 0 (online (snapshot 80 0))
      moistZone).decision.shouldWater = false ∧
    (shouldWaterBasedOnMoisture sampleConfig emptyStore 0 (online (snapshot 80 0))
      moistZone).decision.duration = none :=
  ⟨rfl, rfl, rfl, by decide, by decide, by decide,
    above_threshold_no_water sampleConfig emptyStore 0 (online (snapshot 80 0)) moistZone
      40 30 60 rfl rfl rfl (by decide) (by decide) (by decide)⟩

/-- C7, counterexample: a zone with `moisture = 0`, `moisture_threshold = 30` and
`moisture_optimal = 60` is at or below its threshold and below its optimum, the snapshot
forecasts 10 % rain today and 20 % tomorrow against `rainThreshold = 70`, and the code answers
`shouldWater = false`, because it reads the moisture `0` as `100`. -/
theorem forecast_rule_fails_for_zero_moisture :
    zeroMoistureZone.moisture = some 0 ∧
    zeroMoistureZone.moisture_threshold = some 30 ∧
    zeroMoistureZone.moisture_optimal = some 60 ∧
    (0 : Int) ≤ 30 ∧ (0 : Int) < 60 ∧
    (fetchWeatherData sampleConfig emptyStore 0 (online (snapshot 10 20))).value
      = some (snapshot 10 20) ∧
    rainTodayOf (snapshot 10 20) = 10 ∧ rainTomorrowOf (snapshot 10 20) = 20 ∧
    rainThresholdOf sampleConfig = 70 ∧
    (shouldWaterBasedOnMoisture sampleConfig emptyStore 0 (online (snapshot 10 20))
      zeroMoistureZone).decision.shouldWater = false := by
  decide

/-- C7, amended: for every zone whose moisture is a non-zero number at or below its
`moisture_threshold` and below its `moisture_optimal`, and every snapshot `w` that
`fetchWeatherData` yields: `shouldWaterBasedOnMoisture` returns `shouldWater = false` if
today's rain probability (`daily[0] || 0`) or tomorrow's (`daily[1] || 0`) is at least
`rainThreshold` (`config.weather.rainThreshold || 70`), and `shouldWater = true` otherwise. -/
theorem forecast_rule (config : Config) (st : WeatherStore) (now : Int)
    (net : Providers) (zone : Zone) (w : WeatherData) (m t o : Int)
    (hm : zone.moisture = some m) (ht : zone.moisture_threshold = some t)
    (ho : zone.moisture_optimal = some o)
    (hset : m ≠ 0) (hmt : m ≤ t) (hmo : m < o)
    (hw : (fetchWeatherData config st now net).value = some w) :
    ((rainTodayOf w ≥ rainThresholdOf config ∨ rainTomorrowOf w ≥ rainThresholdOf config) →
      (shouldWaterBasedOnMoisture config st now net zone).decision.shouldWater = false) ∧
    (¬ (rainTodayOf w ≥ rainThresholdOf config ∨ rainTomorrowOf w ≥ rainThresholdOf config) →
      (shouldWaterBasedOnMoisture config st now net zone).decision.shouldWater = true) := by
  have h1 : jsOr zone.moisture 100 < jsOr zone.moisture_optimal 60 := by
    rw [hm, ho, jsOr_some_of_ne_zero 100 hset]
    simp only [jsOr]
    split_ifs <;> omega
  have h2 : jsOr zone.moisture 100 ≤ jsOr zone.moisture_threshold 30 := by
    rw [hm, ht, jsOr_some_of_ne_zero 100 hset]
    simp only [jsOr]
    split_ifs <;> omega
  have key := decision_of_critical_available config st now net zone w h1 h2 hw
  exact ⟨fun hr => (key.1 hr).1, fun hr => (key.2 hr).1⟩

/-- C7, instance: the zone `moisture = 20`, `threshold = 30`, `optimal = 60` with 10 % rain
today and 80 % tomorrow against `rainThreshold = 70` is not watered. -/
theorem forecast_rule_witness :
    sampleZone.moisture = some 20 ∧ sampleZone.moisture_threshold = some 30 ∧
    sampleZone.moisture_optimal = some 60 ∧ (20 : Int) ≠ 0 ∧ (20 : Int) ≤ 30 ∧ (20 : Int) < 60 ∧
    (fetchWeatherData sampleConfig emptyStore 0 (online (snapshot 10 80))).value
      = some (snapshot 10 80) ∧
    (rainTodayOf (snapshot 10 80) ≥ rainThresholdOf sampleConfig ∨
      rainTomorrowOf (snapshot 10 80) ≥ rainThresholdOf sampleConfig) ∧
    (shouldWaterBasedOnMoisture sampleConfig emptyStore 0 (online (snapshot 10 80))
      sampleZone).decision.shouldWater = false :=
  ⟨rfl, rfl, rfl, by decide, by decide, by decide, by decide, by decide,
    (forecast_rule sampleConfig emptyStore 0 (online (snapshot 10 80)) sampleZone
      (snapshot 10 80) 20 30 60 rfl rfl rfl (by decide) (by decide) (by decide)
      (by decide)).1 (by decide)⟩

/-- C8, counterexample: for a zone with `moisture = 5` and `moisture_optimal = 0` and a
snapshot without rain the code waters on the forecast branch for 30 minutes (it computes the
deficit from the default optimum 60), while the formula on the zone's own values gives
`min(10 + floor((0 - 5) / 5) * 2, 30) = 8`. -/
theorem duration_formula_fails_for_zero_optimal :
    (fetchWeatherData sampleConfig emptyStore 0 (online (snapshot 10 20))).value
      = some (snapshot 10 20) ∧
    (shouldWaterBasedOnMoisture sampleConfig emptyStore 0 (online (snapshot 10 20))
      zeroOptimalZone).decision.shouldWater = true ∧
    (shouldWaterBasedOnMoisture sampleConfig emptyStore 0 (online (snapshot 10 20))
      zeroOptimalZone).decision.duration = some 30 ∧
    zeroOptimalZone.moisture = some 5 ∧ zeroOptimalZone.moisture_optimal = some 0 ∧
    min (10 + Int.fdiv (0 - 5) 5 * 2) 30 = (8 : Int) := by
  decide

/-- C8, amended: for every zone and every snapshot that `fetchWeatherData` yields, whenever
`shouldWaterBasedOnMoisture` decides to water, the returned duration equals
`min(10 + floor((optimal - moisture) / 5) * 2, 30)` for the effective values
`optimal = zone.moisture_optimal || 60` and `moisture = zone.moisture || 100`; these are the
zone's own `moisture_optimal` and `moisture` whenever both are non-zero numbers. -/
theorem duration_formula (config : Config) (st : WeatherStore) (now : Int)
    (net : Providers) (zone : Zone) (w : WeatherData)
    (hw : (fetchWeatherData config st now net).value = some w)
    (hd : (shouldWaterBasedOnMoisture config st now net zone).decision.shouldWater = true) :
    (shouldWaterBasedOnMoisture config st now net zone).decision.duration =
      some (min (10 + Int.fdiv (jsOr zone.moisture_optimal 60 - jsOr zone.moisture 100) 5 * 2)
        30) ∧
    ∀ m o : Int, zone.moisture = some m → zone.moisture_optimal = some o → m ≠ 0 → o ≠ 0 →
      (shouldWaterBasedOnMoisture config st now net zone).decision.duration =
        some (min (10 + Int.fdiv (o - m) 5 * 2) 30) := by
  have main : (shouldWaterBasedOnMoisture config st now net zone).decision.duration =
      some (min (10 + Int.fdiv (jsOr zone.moisture_optimal 60 - jsOr zone.moisture 100) 5 * 2)
        30) := by
    by_cases hs : jsOr zone.moisture 100 ≥ jsOr zone.moisture_optimal 60
    · rw [decision_of_sufficient config st now net zone hs] at hd
      exact absurd hd (by decide)
    · by_cases ha : jsOr zone.moisture 100 > jsOr zone.moisture_threshold 30
      · rw [decision_of_above_threshold config st now net zone (by omega) ha] at hd
        exact absurd hd (by decide)
      · have key := decision_of_critical_available config st now net zone w
          (by omega) (by omega) hw
        by_cases hr : rainTodayOf w ≥ rainThresholdOf config ∨
            rainTomorrowOf w ≥ rainThresholdOf config
        · rw [(key.1 hr).1] at hd
          exact absurd hd (by decide)
        · exact (key.2 hr).2
  refine ⟨main, ?_⟩
  intro m o hm ho hm0 ho0
  rw [main, hm, ho, jsOr_some_of_ne_zero 60 ho0, jsOr_some_of_ne_zero 100 hm0]

/-- C8, instance: `moisture = 20`, `optimal = 60`, no rain in sight: 26 minutes. -/
theorem duration_formula_witness :
    (fetchWeatherData sampleConfig emptyStore 0 (online (snapshot 10 20))).value
      = some (snapshot 10 20) ∧
    (shouldWaterBasedOnMoisture sampleConfig emptyStore 0 (online (snapshot 10 20))
      sampleZone).decision.shouldWater = true ∧
    (shouldWaterBasedOnMoisture sampleConfig emptyStore 0 (online (snapshot 10 20))
      sampleZone).decision.duration = some 26 :=
  ⟨by decide, by decide,
    ((duration_formula sampleConfig emptyStore 0 (online (snapshot 10 20)) sampleZone
      (snapshot 10 20) (by decide) (by decide)).2 20 60 rfl rfl (by decide) (by decide)).trans
      (by decide)⟩

/-- C9: for every zone (any moisture, threshold and optimum, set or not, in any order) and
every weather state, whenever `shouldWaterBasedOnMoisture` returns `shouldWater = true` its
duration is defined and is an integer `d` with `10 <= d <= 30`. -/
theorem duration_bounds (config : Config) (st : WeatherStore) (now : Int)
    (net : Providers) (zone : Zone)
    (hd : (shouldWaterBasedOnMoisture config st now net zone).decision.shouldWater = true) :
    ∃ d : Int, (shouldWaterBasedOnMoisture config st now net zone).decision.duration = some d ∧
      10 ≤ d ∧ d ≤ 30 := by
  by_cases hs : jsOr zone.moisture 100 ≥ jsOr zone.moisture_optimal 60
  · rw [decision_of_sufficient config st now net zone hs] at hd
    exact absurd hd (by decide)
  · by_cases ha : jsOr zone.moisture 100 > jsOr zone.moisture_threshold 30
    · rw [decision_of_above_threshold config st now net zone (by omega) ha] at hd
      exact absurd hd (by decide)
    · cases hw : (fetchWeatherData config st now net).value with
      | none =>
        rw [decision_of_critical_unavailable config st now net zone (by omega) (by omega) hw]
        exact ⟨10, rfl, by decide, by decide⟩
      | some w =>
        have key := decision_of_critical_available config st now net zone w
          (by omega) (by omega) hw
        by_cases hr : rainTodayOf w ≥ rainThresholdOf config ∨
            rainTomorrowOf w ≥ rainThresholdOf config
        · rw [(key.1 hr).1] at hd
          exact absurd hd (by decide)
        · refine ⟨_, (key.2 hr).2, ?_, ?_⟩
          · simp only [cappedDuration, rampDuration, baseDuration, fdiv_five]
            omega
          · simp only [cappedDuration, rampDuration, baseDuration, fdiv_five]
            omega

/-- C9, instance: a threshold above the optimum (`moisture = 58`, `threshold = 90`,
`optimal = 60`), no rain in sight: 10 minutes. -/
theorem duration_bounds_witness :
    (shouldWaterBasedOnMoisture sampleConfig emptyStore 0 (online (snapshot 10 20))
      invertedZone).decision.shouldWater = true ∧
    ∃ d : Int, (shouldWaterBasedOnMoisture sampleConfig emptyStore 0 (online (snapshot 10 20))
      invertedZone).decision.duration = some d ∧ 10 ≤ d ∧ d ≤ 30 :=
  ⟨by decide,
    duration_bounds sampleConfig emptyStore 0 (online (snapshot 10 20)) invertedZone
      (by decide)⟩

/-- C10: for every two moisture deficits `d1 <= d2` the uncapped duration
`10 + floor(d / 5) * 2` satisfies `dur(d1) <= dur(d2)`, and so does the capped duration
`min(10 + floor(d / 5) * 2, 30)` that `shouldWaterBasedOnMoisture` computes. -/
theorem duration_monotone (d1 d2 : Int) (h : d1 ≤ d2) :
    rampDuration d1 ≤ rampDuration d2 ∧ cappedDuration d1 ≤ cappedDuration d2 := by
  simp only [cappedDuration, rampDuration, baseDuration, fdiv_five]
  omega

/-- C10, instance: deficits 4 and 40 give 10 and 26 minutes. -/
theorem duration_monotone_witness :
    (4 : Int) ≤ 40 ∧ rampDuration 4 ≤ rampDuration 40 ∧ cappedDuration 4 ≤ cappedDuration 40 :=
  ⟨by decide, duration_monotone 4 40 (by decide)⟩

/-! ## Lemmas on the zone actuator -/

theorem selectZone_of_mem {zones : List Zone} {zoneId : Int}
    (h : ∃ z ∈ zones, z.id = zoneId) : ∃ zone, selectZone zones zoneId = some zone := by
  have hs : (selectZone zones zoneId).isSome := by
    unfold selectZone
    rw [List.find?_isSome]
    obtain ⟨z, hz, hid⟩ := h
    exact ⟨z, hz, by simpa using hid⟩
  exact Option.isSome_iff_exists.mp hs

theorem selectOtherActive_some {zones : List Zone} {zoneId : Int} {a : Zone}
    (h : selectOtherActive zones zoneId = some a) :
    a ∈ zones ∧ a.id ≠ zoneId ∧ a.is_active = 1 := by
  unfold selectOtherActive at h
  have hp := List.find?_some h
  have hmem := List.mem_of_find?_eq_some h
  simp only [decide_eq_true_eq] at hp
  exact ⟨hmem, hp.2, hp.1⟩

theorem selectOtherActive_of_mem {zones : List Zone} {zoneId : Int}
    (h : ∃ o ∈ zones, o.id ≠ zoneId ∧ o.is_active = 1) :
    ∃ a, selectOtherActive zones zoneId = some a := by
  have hs : (selectOtherActive zones zoneId).isSome := by
    unfold selectOtherActive
    rw [List.find?_isSome]
    obtain ⟨o, ho, hid, hact⟩ := h
    exact ⟨o, ho, by simp [hid, hact]⟩
  exact Option.isSome_iff_exists.mp hs

theorem selectOtherActive_none {zones : List Zone} {zoneId : Int}
    (h : selectOtherActive zones zoneId = none) :
    ∀ z ∈ zones, z.is_active = 1 → z.id = zoneId := by
  unfold selectOtherActive at h
  rw [List.find?_eq_none] at h
  intro z hz hact
  by_contra hne
  exact h z hz (by simp [hact, hne])

/-- Under the primary key at most one row carries a given id. -/
theorem countP_id_le_one {zones : List Zone} (hpk : PrimaryKey zones) (zoneId : Int) :
    zones.countP (fun z => z.id = zoneId) ≤ 1 := by
  have h := List.nodup_iff_count_le_one.mp hpk zoneId
  rw [List.count_eq_countP, List.countP_map] at h
  refine le_trans (le_of_eq ?_) h
  apply List.countP_congr
  intro z _
  simp

/-- The update statements of `controlZone` do not touch the `id` column. -/
theorem updateZone_ids (zones : List Zone) (zoneId : Int) (state : Bool) (localTime : String) :
    (updateZone zones zoneId state localTime).map (fun z => z.id) = zones.map fun z => z.id := by
  unfold updateZone
  rw [List.map_map]
  apply List.map_congr_left
  intro z _
  simp only [Function.comp]
  split_ifs <;> rfl

theorem activeCount_start {zones : List Zone} {zoneId : Int} (localTime : String)
    (hpk : PrimaryKey zones) (hnone : selectOtherActive zones zoneId = none) :
    activeCount (updateZone zones zoneId true localTime) ≤ 1 := by
  unfold activeCount updateZone
  rw [List.countP_map]
  refine le_trans (List.countP_mono_left ?_) (countP_id_le_one hpk zoneId)
  intro z hz hact
  by_cases hid : z.id = zoneId
  · simpa using hid
  · simp only [Function.comp, hid, if_false, decide_eq_true_eq] at hact
    exact absurd (selectOtherActive_none hnone z hz hact) hid

theorem activeCount_stop (zones : List Zone) (zoneId : Int) (localTime : String) :
    activeCount (updateZone zones zoneId false localTime) ≤ activeCount zones := by
  unfold activeCount updateZone
  rw [List.countP_map]
  apply List.countP_mono_left
  intro z _ hact
  by_cases hid : z.id = zoneId
  · simp [Function.comp, hid] at hact
  · simpa [Function.comp, hid] using hact

/-- The body of `controlZone` never reads `config.winterMode`. -/
theorem controlZone_ignores_winterMode (config : Config) (env : CallEnv) (zones : List Zone)
    (zoneId : Int) (state : Bool) (wm : Option WinterMode) :
    (controlZone { config with winterMode := wm } env zones zoneId state).result
      = (controlZone config env zones zoneId state).result ∧
    (controlZone { config with winterMode := wm } env zones zoneId state).zones
      = (controlZone config env zones zoneId state).zones ∧
    (controlZone { config with winterMode := wm } env zones zoneId state).effects
      = (controlZone config env zones zoneId state).effects := by
  refine ⟨rfl, rfl, rfl⟩

/-- One `controlZone` call keeps the primary key and the single-active-zone invariant. -/
theorem controlZone_preserves (config : Config) (env : CallEnv) (zones : List Zone)
    (zoneId : Int) (state : Bool) (hpk : PrimaryKey zones) (h : activeCount zones ≤ 1) :
    PrimaryKey (controlZone config env zones zoneId state).zones ∧
    activeCount (controlZone config env zones zoneId state).zones ≤ 1 := by
  unfold controlZone
  cases hsel : selectZone zones zoneId with
  | none => exact ⟨hpk, h⟩
  | some zone =>
    cases state with
    | false =>
      simp only [Bool.false_eq_true, if_false]
      refine ⟨?_, le_trans (activeCount_stop zones zoneId env.localTime) h⟩
      unfold PrimaryKey
      rw [updateZone_ids]
      exact hpk
    | true =>
      simp only [if_true]
      cases hact : selectOtherActive zones zoneId with
      | some a => exact ⟨hpk, h⟩
      | none =>
        refine ⟨?_, activeCount_start env.localTime hpk hact⟩
        unfold PrimaryKey
        rw [updateZone_ids]
        exact hpk

/-! ## The zone actuator: claims C1 to C3 -/

/-- C1: for every zone table and every zone id `zoneId` present in it, if some zone other than
`zoneId` has `is_active = 1`, then `controlZone(zoneId, true)` is rejected with the
"läuft bereits" error that carries the name of a running zone other than `zoneId`, has no
effect at all (in particular no relay request) and leaves the zone table, hence every
`is_active` and `last_watered`, unchanged. -/
theorem controlZone_conflict (config : Config) (env : CallEnv) (zones : List Zone)
    (zoneId : Int) (hz : ∃ z ∈ zones, z.id = zoneId)
    (hother : ∃ o ∈ zones, o.id ≠ zoneId ∧ o.is_active = 1) :
    ∃ running ∈ zones, running.id ≠ zoneId ∧ running.is_active = 1 ∧
      (controlZone config env zones zoneId true).result
        = Except.error (alreadyRunning running.name) ∧
      (controlZone config env zones zoneId true).effects = [] ∧
      (controlZone config env zones zoneId true).zones = zones := by
  obtain ⟨zone, hzone⟩ := selectZone_of_mem hz
  obtain ⟨a, ha⟩ := selectOtherActive_of_mem hother
  obtain ⟨hmem, hid, hact⟩ := selectOtherActive_some ha
  refine ⟨a, hmem, hid, hact, ?_, ?_, ?_⟩ <;> simp [controlZone, hzone, ha]

/-- C1, instance: zone 2 is running and zone 1 is asked to start. -/
theorem controlZone_conflict_witness :
    (∃ z ∈ [sampleZone, runningZone], z.id = 1) ∧
    (∃ o ∈ [sampleZone, runningZone], o.id ≠ 1 ∧ o.is_active = 1) ∧
    ∃ running ∈ [sampleZone, runningZone], running.id ≠ 1 ∧ running.is_active = 1 ∧
      (controlZone sampleConfig sampleEnv [sampleZone, runningZone] 1 true).result
        = Except.error (alreadyRunning running.name) ∧
      (controlZone sampleConfig sampleEnv [sampleZone, runningZone] 1 true).effects = [] ∧
      (controlZone sampleConfig sampleEnv [sampleZone, runningZone] 1 true).zones
        = [sampleZone, runningZone] :=
  ⟨by decide, by decide,
    controlZone_conflict sampleConfig sampleEnv [sampleZone, runningZone] 1
      (by decide) (by decide)⟩

/-- C2: starting from any zone table (ids unique, as the primary key demands) in which at most
one zone has `is_active = 1`, after any finite sequence of `controlZone` calls, with any zone
ids, any on/off values, any configuration and any relay and MQTT outcomes, each run to
completion before the next begins, at most one zone has `is_active = 1`. -/
theorem single_active_zone (zones : List Zone) (calls : List ControlCall)
    (hpk : PrimaryKey zones) (h : activeCount zones ≤ 1) :
    activeCount (runCalls zones calls) ≤ 1 := by
  induction calls generalizing zones with
  | nil => exact h
  | cons c cs ih =>
    have step := controlZone_preserves c.config c.env zones c.zoneId c.state hpk h
    exact ih _ step.1 step.2

/-- C2, instance: start 1, start 2 (rejected), stop 1, start 2, start 1 (rejected), with the
relay failing on the third call. -/
theorem single_active_zone_witness :
    PrimaryKey [sampleZone, secondZone] ∧ activeCount [sampleZone, secondZone] ≤ 1 ∧
    activeCount (runCalls [sampleZone, secondZone]
      [⟨sampleConfig, sampleEnv, 1, true⟩, ⟨sampleConfig, sampleEnv, 2, true⟩,
       ⟨sampleConfig, { sampleEnv with relayOk := false }, 1, false⟩,
       ⟨winterConfig, sampleEnv, 2, true⟩, ⟨sampleConfig, sampleEnv, 1, true⟩]) ≤ 1 :=
  ⟨by decide, by decide,
    single_active_zone [sampleZone, secondZone]
      [⟨sampleConfig, sampleEnv, 1, true⟩, ⟨sampleConfig, sampleEnv, 2, true⟩,
       ⟨sampleConfig, { sampleEnv with relayOk := false }, 1, false⟩,
       ⟨winterConfig, sampleEnv, 2, true⟩, ⟨sampleConfig, sampleEnv, 1, true⟩]
      (by decide) (by decide)⟩

/-- C3, the code at the failing input: with `config.winterMode.enabled = true`, the call
`controlZone(1, true)` that an MQTT `start` command, a sequence step or the auto-water sweep
makes is not rejected: it resolves, sends the relay request that opens the valve and sets
`is_active = 1`. -/
theorem controlZone_starts_in_winter_mode :
    winterConfig.winterMode.map (fun wm => wm.enabled) = some true ∧
    (controlZone winterConfig sampleEnv [sampleZone, secondZone] 1 true).result
      = Except.ok { success := true, zone := "Zone 1", state := true } ∧
    (controlZone winterConfig sampleEnv [sampleZone, secondZone] 1 true).effects
      = [Effect.loxoneGet "http://192.168.1.77/dev/sps/io/IrrigationValve1/1",
         Effect.broadcastZoneUpdate 1 true] ∧
    (controlZone winterConfig sampleEnv [sampleZone, secondZone] 1 true).zones
      = [{ sampleZone with is_active := 1 }, secondZone] := by
  exact ⟨rfl, rfl, by decide, by decide⟩

/-! ## Lemmas on the weather oracle -/

/-- On a cache miss with the weather feature enabled, `fetchWeatherData` is decided by the
call of the configured provider. -/
theorem fetchWeatherData_miss (config : Config) (st : WeatherStore) (now : Int)
    (net : Providers) (wc : WeatherConfig) (hc : config.weather = some wc)
    (he : wc.enabled = true) (hmiss : cachedWeather st now = none) :
    fetchWeatherData config st now net =
      match providerCall net (providerOf wc) with
      | none => { value := none, store := st, calls := [] }
      | some (ProviderOutcome.threw _) =>
        { value := none, store := st, calls := [providerOf wc] }
      | some (ProviderOutcome.returned none) =>
        { value := none, store := st, calls := [providerOf wc] }
      | some (ProviderOutcome.returned (some weatherData)) =>
        { value := some weatherData, store := storeWeather st now weatherData,
          calls := [providerOf wc] } := by
  simp only [fetchWeatherData, hc, he, hmiss, providerCall, providerOf]
  rfl

/-- Within the freshness window `fetchWeatherData` answers from the cache. -/
theorem fetchWeatherData_hit (config : Config) (st : WeatherStore) (now : Int)
    (net : Providers) (wc : WeatherConfig) (cached : WeatherData)
    (hc : config.weather = some wc) (he : wc.enabled = true)
    (hhit : cachedWeather st now = some cached) :
    fetchWeatherData config st now net = { value := some cached, store := st, calls := [] } := by
  simp [fetchWeatherData, hc, he, hhit]

/-- Without a snapshot the schedule gate does not skip. -/
theorem skip_of_unavailable (config : Config) (st : WeatherStore) (now : Int)
    (net : Providers) (h : (fetchWeatherData config st now net).value = none) :
    (shouldSkipWateringDueToWeather config st now net).skip = false := by
  simp [shouldSkipWateringDueToWeather, h]

/-! ## The weather oracle: claims C11 to C13 -/

/-- C11: with the weather feature enabled, whenever on a cache miss the call of the configured
provider fails (it throws, which covers a timeout, or it yields no data), `fetchWeatherData`
returns `null` (it has no other way to end, the exception is caught), leaves the cache, the
cache timestamp and the weather log unchanged, and `shouldSkipWateringDueToWeather()` returns
`false`. -/
theorem weather_fail_open (config : Config) (st : WeatherStore) (now : Int) (net : Providers)
    (wc : WeatherConfig) (o : ProviderOutcome)
    (hc : config.weather = some wc) (he : wc.enabled = true)
    (hmiss : cachedWeather st now = none)
    (hcall : providerCall net (providerOf wc) = some o) (hfail : o.failed = true) :
    (fetchWeatherData config st now net).value = none ∧
    (fetchWeatherData config st now net).store = st ∧
    (shouldSkipWateringDueToWeather config st now net).skip = false ∧
    (shouldSkipWateringDueToWeather config st now net).store = st := by
  have hf := fetchWeatherData_miss config st now net wc hc he hmiss
  rw [hcall] at hf
  have hv : (fetchWeatherData config st now net).value = none ∧
      (fetchWeatherData config st now net).store = st := by
    cases o with
    | threw m => rw [hf]; exact ⟨rfl, rfl⟩
    | returned d =>
      cases d with
      | none => rw [hf]; exact ⟨rfl, rfl⟩
      | some w => simp [ProviderOutcome.failed] at hfail
  refine ⟨hv.1, hv.2, skip_of_unavailable config st now net hv.1, ?_⟩
  simp [shouldSkipWateringDueToWeather, hv.1, hv.2]

/-- C11, instance: empty cache, Open-Meteo times out. -/
theorem weather_fail_open_witness :
    sampleConfig.weather = some { provider := some "open-meteo", apiKey := "", enabled := true
                                  rainThreshold := some 70 } ∧
    cachedWeather emptyStore 1000 = none ∧
    providerCall offline "open-meteo" = some (ProviderOutcome.threw "timeout of 10000ms exceeded") ∧
    (fetchWeatherData sampleConfig emptyStore 1000 offline).value = none ∧
    (fetchWeatherData sampleConfig emptyStore 1000 offline).store = emptyStore ∧
    (shouldSkipWateringDueToWeather sampleConfig emptyStore 1000 offline).skip = false ∧
    (shouldSkipWateringDueToWeather sampleConfig emptyStore 1000 offline).store = emptyStore :=
  ⟨rfl, rfl, rfl,
    weather_fail_open sampleConfig emptyStore 1000 offline
      { provider := some "open-meteo", apiKey := "", enabled := true, rainThreshold := some 70 }
      (ProviderOutcome.threw "timeout of 10000ms exceeded") rfl rfl rfl rfl rfl⟩

/-- C12, counterexample: with `config.weather.rainThreshold = 0` configured and a snapshot
with `rainProbability = 10` and `willRain = false`, the probability reaches the configured
threshold (`10 >= 0`), but the code compares with `0 || 70 = 70` and does not skip. -/
theorem skip_rule_fails_for_zero_threshold :
    (thresholdConfig (some 0)).weather.bind (fun wc => wc.rainThreshold) = some 0 ∧
    (fetchWeatherData (thresholdConfig (some 0)) emptyStore 1000 (online (snapshot 10 20))).value
      = some (snapshot 10 20) ∧
    (snapshot 10 20).forecast.rainProbability = 10 ∧ (10 : Int) ≥ 0 ∧
    (snapshot 10 20).forecast.willRain = false ∧
    (shouldSkipWateringDueToWeather (thresholdConfig (some 0)) emptyStore 1000
      (online (snapshot 10 20))).skip = false := by
  decide

/-- C12, amended: for every snapshot `w` that `fetchWeatherData` yields,
`shouldSkipWateringDueToWeather()` returns `true` if and only if
`forecast.rainProbability >= rainThreshold` or `forecast.willRain` is true, where
`rainThreshold` is `config.weather.rainThreshold || 70`: the configured value when that is a
non-zero number, and 70 when it is `0` or not configured. -/
theorem skip_rule (config : Config) (st : WeatherStore) (now : Int) (net : Providers)
    (w : WeatherData) (hw : (fetchWeatherData config st now net).value = some w) :
    ((shouldSkipWateringDueToWeather config st now net).skip = true ↔
      (w.forecast.rainProbability ≥ rainThresholdOf config ∨ w.forecast.willRain = true)) ∧
    (∀ wc r, config.weather = some wc → wc.rainThreshold = some r → r ≠ 0 →
      rainThresholdOf config = r) ∧
    (∀ wc, config.weather = some wc → (wc.rainThreshold = some 0 ∨ wc.rainThreshold = none) →
      rainThresholdOf config = 70) := by
  refine ⟨?_, ?_, ?_⟩
  · simp only [shouldSkipWateringDueToWeather, hw, ge_iff_le]
    by_cases h1 : rainThresholdOf config ≤ w.forecast.rainProbability
    · simp [h1]
    · by_cases h2 : w.forecast.willRain = true
      · simp [h1, h2]
      · simp [h1, h2]
  · intro wc r hc hr hr0
    simp [rainThresholdOf, hc, hr, jsOr, hr0]
  · intro wc hc hr
    rcases hr with hr | hr <;> simp [rainThresholdOf, hc, hr, jsOr]

/-- C12, instance: 80 % rain today against the configured threshold 70. -/
theorem skip_rule_witness :
    (fetchWeatherData sampleConfig emptyStore 1000 (online (snapshot 80 0))).value
      = some (snapshot 80 0) ∧
    (shouldSkipWateringDueToWeather sampleConfig emptyStore 1000 (online (snapshot 80 0))).skip
      = true :=
  ⟨by decide,
    (skip_rule sampleConfig emptyStore 1000 (online (snapshot 80 0)) (snapshot 80 0)
      (by decide)).1.mpr (Or.inl (by decide))⟩

/-- C13, counterexample: the weather feature is enabled with `config.weather.provider =
"wetter.com"`, a snapshot was cached at `t0 = 1000` and the call comes 15 minutes later: the
cache is stale, yet `fetchWeatherData` calls no provider at all and returns `null`. -/
theorem cache_window_fails_for_unknown_provider :
    (providerConfig "wetter.com").weather.map (fun wc => wc.enabled) = some true ∧
    (cachedStore (snapshot 10 20) 1000).weatherCacheTime = some 1000 ∧
    ((901000 : Int) - 1000 ≥ 15 * 60 * 1000) ∧
    (fetchWeatherData (providerConfig "wetter.com") (cachedStore (snapshot 10 20) 1000) 901000
      (online (snapshot 30 40))).calls = [] ∧
    (fetchWeatherData (providerConfig "wetter.com") (cachedStore (snapshot 10 20) 1000) 901000
      (online (snapshot 30 40))).value = none := by
  decide

/-- C13, amended: with the weather feature enabled, for every state in which a snapshot was
cached at a (non-zero) time `t0` and every call time `now`: if `now - t0` is below 15 minutes,
`fetchWeatherData` returns exactly the cached snapshot, makes no provider call, appends no
`weather_log` row and leaves the cache and its timestamp unchanged; if `now - t0` is at least
15 minutes it calls exactly one provider when the configured provider is `open-meteo`,
`openweathermap` or not set, and no provider for any other name. -/
theorem cache_window (config : Config) (st : WeatherStore) (now : Int) (net : Providers)
    (wc : WeatherConfig) (cached : WeatherData) (t0 : Int)
    (hc : config.weather = some wc) (he : wc.enabled = true)
    (hcache : st.weatherCache = some cached) (htime : st.weatherCacheTime = some t0)
    (ht0 : t0 ≠ 0) :
    (now - t0 < 15 * 60 * 1000 →
      (fetchWeatherData config st now net).value = some cached ∧
      (fetchWeatherData config st now net).calls = [] ∧
      (fetchWeatherData config st now net).store = st) ∧
    (now - t0 ≥ 15 * 60 * 1000 →
      ((providerOf wc = "open-meteo" ∨ providerOf wc = "openweathermap") →
        (fetchWeatherData config st now net).calls = [providerOf wc]) ∧
      (¬ (providerOf wc = "open-meteo" ∨ providerOf wc = "openweathermap") →
        (fetchWeatherData config st now net).calls = [])) := by
  constructor
  · intro hfresh
    have hhit : cachedWeather st now = some cached := by
      have h900 : now - t0 < 900000 := by omega
      simp [cachedWeather, hcache, htime, ht0, h900]
    rw [fetchWeatherData_hit config st now net wc cached hc he hhit]
    exact ⟨rfl, rfl, rfl⟩
  · intro hstale
    have hmiss : cachedWeather st now = none := by
      have h900 : 900000 ≤ now - t0 := by omega
      simp [cachedWeather, hcache, htime, h900]
    have hf := fetchWeatherData_miss config st now net wc hc he hmiss
    constructor
    · intro hp
      have hcall : ∃ o, providerCall net (providerOf wc) = some o := by
        rcases hp with hp | hp
        · exact ⟨net.openMeteo, by simp [providerCall, hp]⟩
        · exact ⟨net.openWeatherMap, by simp [providerCall, hp]⟩
      obtain ⟨o, ho⟩ := hcall
      rw [ho] at hf
      rw [hf]
      cases o with
      | threw m => rfl
      | returned d => cases d <;> rfl
    · intro hp
      have hcall : providerCall net (providerOf wc) = none := by
        have h1 : ¬ providerOf wc = "open-meteo" := fun h => hp (Or.inl h)
        have h2 : ¬ providerOf wc = "openweathermap" := fun h => hp (Or.inr h)
        simp [providerCall, h1, h2]
      rw [hcall] at hf
      rw [hf]

/-- C13, instance: a snapshot cached at `t0 = 1000` is returned 14 minutes later without any
provider call. -/
theorem cache_window_witness :
    sampleConfig.weather = some { provider := some "open-meteo", apiKey := "", enabled := true
                                  rainThreshold := some 70 } ∧
    (cachedStore (snapshot 10 20) 1000).weatherCache = some (snapshot 10 20) ∧
    (cachedStore (snapshot 10 20) 1000).weatherCacheTime = some 1000 ∧
    (1000 : Int) ≠ 0 ∧ ((841000 : Int) - 1000 < 15 * 60 * 1000) ∧
    (fetchWeatherData sampleConfig (cachedStore (snapshot 10 20) 1000) 841000
      (online (snapshot 30 40))).value = some (snapshot 10 20) ∧
    (fetchWeatherData sampleConfig (cachedStore (snapshot 10 20) 1000) 841000
      (online (snapshot 30 40))).calls = [] ∧
    (fetchWeatherData sampleConfig (cachedStore (snapshot 10 20) 1000) 841000
      (online (snapshot 30 40))).store = cachedStore (snapshot 10 20) 1000 :=
  ⟨rfl, rfl, rfl, by decide, by decide,
    (cache_window sampleConfig (cachedStore (snapshot 10 20) 1000) 841000
      (online (snapshot 30 40))
      { provider := some "open-meteo", apiKey := "", enabled := true, rainThreshold := some 70 }
      (snapshot 10 20) 1000 rfl rfl rfl rfl (by decide)).1 (by decide)⟩

/-! ## The zone actuator: claims C14 to C16 -/

/-- An admitted `controlZone` call found its zone and commits the update statement. -/
theorem controlZone_admitted {config : Config} {env : CallEnv} {zones : List Zone}
    {zoneId : Int} {state : Bool}
    (hadm : ∃ r, (controlZone config env zones zoneId state).result = Except.ok r) :
    ∃ zone, selectZone zones zoneId = some zone ∧
      (controlZone config env zones zoneId state).result
        = Except.ok { success := true, zone := zone.name, state := state } ∧
      (controlZone config env zones zoneId state).zones
        = updateZone zones zoneId state env.localTime ∧
      (state = true → selectOtherActive zones zoneId = none) := by
  obtain ⟨r, hr⟩ := hadm
  unfold controlZone at hr ⊢
  cases hsel : selectZone zones zoneId with
  | none => simp [hsel] at hr
  | some zone =>
    cases state with
    | false => exact ⟨zone, rfl, rfl, rfl, by simp⟩
    | true =>
      cases hact : selectOtherActive zones zoneId with
      | some a => simp [hsel, hact] at hr
      | none => exact ⟨zone, rfl, rfl, rfl, fun _ => rfl⟩

theorem selectZone_some {zones : List Zone} {zoneId : Int} {zone : Zone}
    (h : selectZone zones zoneId = some zone) : zone ∈ zones ∧ zone.id = zoneId := by
  unfold selectZone at h
  have hp := List.find?_some h
  simp only [decide_eq_true_eq] at hp
  exact ⟨List.mem_of_find?_eq_some h, hp⟩

/-- C14: for every zone table, zone id and on/off value for which `controlZone` is admitted,
the resulting zone table and the returned result `{success: true, zone, state}` are the same
for any other relay configuration and relay outcome: whether the Loxone request succeeds,
fails, or is not made because no relay host is configured. -/
theorem relay_independence (config other : Config) (env fate : CallEnv) (zones : List Zone)
    (zoneId : Int) (state : Bool) (hclock : fate.localTime = env.localTime)
    (hadm : ∃ r, (controlZone config env zones zoneId state).result = Except.ok r) :
    (controlZone other fate zones zoneId state).zones
      = (controlZone config env zones zoneId state).zones ∧
    (controlZone other fate zones zoneId state).result
      = (controlZone config env zones zoneId state).result ∧
    ∃ zone ∈ zones, zone.id = zoneId ∧
      (controlZone config env zones zoneId state).result
        = Except.ok { success := true, zone := zone.name, state := state } := by
  obtain ⟨zone, hsel, hres, hzones, hact⟩ := controlZone_admitted hadm
  have hmem := selectZone_some hsel
  refine ⟨?_, ?_, zone, hmem.1, hmem.2, hres⟩
  · rw [hzones]
    cases state with
    | false => simp [controlZone, hsel, hclock]
    | true => simp [controlZone, hsel, hact rfl, hclock]
  · rw [hres]
    cases state with
    | false => simp [controlZone, hsel]
    | true => simp [controlZone, hsel, hact rfl]

/-- C14, instance: a start with the relay answering against the same start with no relay
configured at all. -/
theorem relay_independence_witness :
    ({ sampleEnv with relayOk := false } : CallEnv).localTime = sampleEnv.localTime ∧
    (∃ r, (controlZone sampleConfig sampleEnv [sampleZone, secondZone] 1 true).result
      = Except.ok r) ∧
    (controlZone { sampleConfig with loxone := none } { sampleEnv with relayOk := false }
      [sampleZone, secondZone] 1 true).zones
      = (controlZone sampleConfig sampleEnv [sampleZone, secondZone] 1 true).zones ∧
    (controlZone { sampleConfig with loxone := none } { sampleEnv with relayOk := false }
      [sampleZone, secondZone] 1 true).result
      = (controlZone sampleConfig sampleEnv [sampleZone, secondZone] 1 true).result ∧
    ∃ zone ∈ [sampleZone, secondZone], zone.id = 1 ∧
      (controlZone sampleConfig sampleEnv [sampleZone, secondZone] 1 true).result
        = Except.ok { success := true, zone := zone.name, state := true } :=
  ⟨rfl, ⟨_, rfl⟩,
    relay_independence sampleConfig { sampleConfig with loxone := none } sampleEnv
      { sampleEnv with relayOk := false } [sampleZone, secondZone] 1 true rfl ⟨_, rfl⟩⟩

/-- C15: for every admitted `controlZone(z, on)` call the table keeps its rows in place and,
row by row: a row of zone `z` has afterwards `is_active = 1` for `on = true` and
`is_active = 0` for `on = false`; for `on = false` its `last_watered` is the current local
time, for `on = true` its `last_watered` is unchanged; and every row of another zone is
unchanged in every field. -/
theorem controlZone_update (config : Config) (env : CallEnv) (zones : List Zone)
    (zoneId : Int) (state : Bool)
    (hadm : ∃ r, (controlZone config env zones zoneId state).result = Except.ok r) :
    (controlZone config env zones zoneId state).zones.length = zones.length ∧
    ∀ (i : Nat) (before : Zone), zones[i]? = some before →
      ∃ after, (controlZone config env zones zoneId state).zones[i]? = some after ∧
        (before.id ≠ zoneId → after = before) ∧
        (before.id = zoneId →
          after.is_active = (if state then 1 else 0) ∧
          (state = false → after.last_watered = some env.localTime) ∧
          (state = true → after.last_watered = before.last_watered)) := by
  obtain ⟨zone, _, _, hzones, _⟩ := controlZone_admitted hadm
  rw [hzones]
  refine ⟨by simp [updateZone], ?_⟩
  intro i before hi
  have hrow : (updateZone zones zoneId state env.localTime)[i]? =
      some (if before.id = zoneId then
        if state then { before with is_active := 1 }
        else { before with is_active := 0, last_watered := some env.localTime }
      else before) := by
    simp only [updateZone, List.getElem?_map, hi, Option.map_some']
  refine ⟨_, hrow, ?_, ?_⟩
  · intro hne
    simp [hne]
  · intro heq
    cases state <;> simp [heq]

/-- C15, instance: stopping the running zone 2 stamps its `last_watered` and leaves zone 1
as it is. -/
theorem controlZone_update_witness :
    (∃ r, (controlZone sampleConfig sampleEnv [sampleZone, runningZone] 2 false).result
      = Except.ok r) ∧
    (controlZone sampleConfig sampleEnv [sampleZone, runningZone] 2 false).zones
      = [sampleZone,
         { runningZone with is_active := 0, last_watered := some "2025-06-01 06:00:00" }] ∧
    (controlZone sampleConfig sampleEnv [sampleZone, runningZone] 2 false).zones.length
      = [sampleZone, runningZone].length :=
  ⟨⟨_, rfl⟩, by decide,
    (controlZone_update sampleConfig sampleEnv [sampleZone, runningZone] 2 false ⟨_, rfl⟩).1⟩

/-- C16: for every zone table and every id not present in it, `controlZone(id, on)` for either
value of `on` is rejected with the error "Zone nicht gefunden", has no effect at all (no relay
request, no MQTT message, no `zone_update` event) and leaves the zone table unchanged. -/
theorem controlZone_not_found (config : Config) (env : CallEnv) (zones : List Zone)
    (zoneId : Int) (state : Bool) (h : ∀ z ∈ zones, z.id ≠ zoneId) :
    (controlZone config env zones zoneId state).result = Except.error "Zone nicht gefunden" ∧
    (controlZone config env zones zoneId state).effects = [] ∧
    (controlZone config env zones zoneId state).zones = zones := by
  have hsel : selectZone zones zoneId = none := by
    unfold selectZone
    rw [List.find?_eq_none]
    intro z hz
    simpa using h z hz
  simp [controlZone, hsel, zoneNotFound]

/-- C16, instance: zone 7 does not exist. -/
theorem controlZone_not_found_witness :
    (∀ z ∈ [sampleZone, secondZone], z.id ≠ 7) ∧
    (controlZone sampleConfig sampleEnv [sampleZone, secondZone] 7 true).result
      = Except.error "Zone nicht gefunden" ∧
    (controlZone sampleConfig sampleEnv [sampleZone, secondZone] 7 true).effects = [] ∧
    (controlZone sampleConfig sampleEnv [sampleZone, secondZone] 7 true).zones
      = [sampleZone, secondZone] :=
  ⟨by decide,
    controlZone_not_found sampleConfig sampleEnv [sampleZone, secondZone] 7 true (by decide)⟩

/-! ## Lemmas on timers and handlers -/

theorem Evolves.refl (callers : Nat → Prop) (s : Server) : Evolves callers s s :=
  ⟨le_refl _, fun _ ht => Or.inl ht, fun _ he => Or.inl he, [], by simp, by simp⟩

theorem Evolves.trans {callers : Nat → Prop} {s mid next : Server}
    (h1 : Evolves callers s mid) (h2 : Evolves callers mid next) : Evolves callers s next := by
  obtain ⟨hn1, hp1, ha1, more1, hl1, ho1⟩ := h1
  obtain ⟨hn2, hp2, ha2, more2, hl2, ho2⟩ := h2
  refine ⟨le_trans hn1 hn2, ?_, ?_, more1 ++ more2, by rw [hl2, hl1, List.append_assoc], ?_⟩
  · intro t ht
    rcases hp2 t ht with h | h
    · rcases hp1 t h with h' | h'
      · exact Or.inl h'
      · exact Or.inr ⟨h'.1, by omega⟩
    · exact Or.inr ⟨by omega, h.2⟩
  · intro e he
    rcases ha2 e he with h | h
    · rcases ha1 e h with h' | h'
      · exact Or.inl h'
      · exact Or.inr ⟨h'.1, by omega⟩
    · exact Or.inr ⟨by omega, h.2⟩
  · intro c hc h horigin
    rcases List.mem_append.mp hc with hc | hc
    · exact ho1 c hc h horigin
    · exact ho2 c hc h horigin

theorem Evolves.mono {callers others : Nat → Prop} {s next : Server}
    (h : Evolves callers s next) (hsub : ∀ k, callers k → others k) : Evolves others s next := by
  obtain ⟨hn, hp, ha, more, hl, ho⟩ := h
  exact ⟨hn, hp, ha, more, hl, fun c hc k hk => hsub k (ho c hc k hk)⟩

theorem evolves_call (callers : Nat → Prop) (s : Server) (env : CallEnv) (origin : Origin)
    (zoneId : Int) (state : Bool) (horigin : ∀ h, origin = Origin.timer h → callers h) :
    Evolves callers s (call s env origin zoneId state).1 := by
  refine ⟨le_refl _, fun _ ht => Or.inl ht, fun _ he => Or.inl he, _, rfl, ?_⟩
  intro c hc h hh
  simp only [List.mem_singleton] at hc
  subst hc
  exact horigin h hh

theorem evolves_setTimeout (callers : Nat → Prop) (s : Server) (delay : Nat)
    (callback : Callback) : Evolves callers s (setTimeout s delay callback).1 := by
  refine ⟨Nat.le_succ _, ?_, fun _ he => Or.inl he, [], by simp [setTimeout], by simp⟩
  intro t ht
  simp only [setTimeout, List.mem_append, List.mem_singleton] at ht
  rcases ht with ht | ht
  · exact Or.inl ht
  · subst ht
    exact Or.inr ⟨le_refl _, Nat.lt_succ_self _⟩

theorem mem_timersSet {m : List (Int × Nat)} {id : Int} {handle : Nat} {e : Int × Nat}
    (h : e ∈ timersSet m id handle) : e ∈ m ∨ e = (id, handle) := by
  unfold timersSet at h
  split_ifs at h
  · simp only [List.mem_map] at h
    obtain ⟨a, ha, hae⟩ := h
    split_ifs at hae
    · exact Or.inr hae.symm
    · exact Or.inl (hae ▸ ha)
  · simp only [List.mem_append, List.mem_singleton] at h
    exact h

/-- Arming and registering an auto-off timer, as the start route and the MQTT `start` do. -/
theorem evolves_arm (callers : Nat → Prop) (s : Server) (delay : Nat) (id : Int) :
    Evolves callers s (armAutoOff s delay id) := by
  obtain ⟨hn, hp, _, hl⟩ := evolves_setTimeout callers s delay (Callback.autoOff id)
  refine ⟨hn, hp, ?_, hl⟩
  intro e he
  rcases mem_timersSet he with h | h
  · exact Or.inl h
  · subst h
    exact Or.inr ⟨le_refl _, Nat.lt_succ_self _⟩

theorem evolves_clearTimeout (callers : Nat → Prop) (s : Server) (handle : Nat) :
    Evolves callers s (clearTimeout s handle) :=
  ⟨le_refl _, fun _ ht => Or.inl (List.mem_of_mem_filter ht), fun _ he => Or.inl he, [],
    by simp [clearTimeout], by simp⟩

theorem evolves_cancelTimer (callers : Nat → Prop) (s : Server) (id : Int) :
    Evolves callers s (cancelTimer s id) := by
  unfold cancelTimer
  split
  · exact ⟨le_refl _, fun _ ht => Or.inl (List.mem_of_mem_filter ht),
      fun _ he => Or.inl (List.mem_of_mem_filter he), [], by simp [clearTimeout], by simp⟩
  · exact Evolves.refl callers s

theorem evolves_clearAllTimers (callers : Nat → Prop) (s : Server) :
    Evolves callers s (clearAllTimers s) :=
  ⟨le_refl _, fun _ ht => Or.inl (List.mem_of_mem_filter ht),
    fun _ he => by simp [clearAllTimers] at he, [], by simp [clearAllTimers], by simp⟩

theorem evolves_unregister (callers : Nat → Prop) (s : Server) (id : Int) :
    Evolves callers s { s with activeTimers := timersDelete s.activeTimers id } :=
  ⟨le_refl _, fun _ ht => Or.inl ht, fun _ he => Or.inl (List.mem_of_mem_filter he), [],
    by simp, by simp⟩

theorem evolves_call_eq {callers : Nat → Prop} {s s1 : Server} {env : CallEnv}
    {origin : Origin} {zoneId : Int} {state : Bool} {r : Except String ControlResult}
    (h : call s env origin zoneId state = (s1, r))
    (horigin : ∀ k, origin = Origin.timer k → callers k) : Evolves callers s s1 := by
  have := evolves_call callers s env origin zoneId state horigin
  rw [h] at this
  exact this

theorem evolves_runSequence (callers : Nat → Prop) (env : CallEnv) (origin : Origin)
    (horigin : ∀ k, origin = Origin.timer k → callers k) (steps : List Step) (s : Server) :
    Evolves callers s (runSequence s env origin steps) := by
  induction steps generalizing s with
  | nil => exact Evolves.refl callers s
  | cons zoneConfig rest ih =>
    unfold runSequence
    rcases hc : call s env origin zoneConfig.zone_id true with ⟨s1, r⟩
    have h1 : Evolves callers s s1 := evolves_call_eq hc horigin
    cases r with
    | error e => exact h1.trans (ih s1)
    | ok v => exact h1.trans (evolves_setTimeout callers s1 _ _)

theorem evolves_stopEach (callers : Nat → Prop) (env : CallEnv) (ids : List Int) (s : Server) :
    Evolves callers s (stopEach s env ids).1 := by
  induction ids generalizing s with
  | nil => exact Evolves.refl callers s
  | cons id rest ih =>
    unfold stopEach
    rcases hc : call s env Origin.request id false with ⟨s1, r⟩
    have h1 : Evolves callers s s1 := evolves_call_eq hc (by simp)
    cases r with
    | error e => exact h1
    | ok v => exact h1.trans (ih s1)

theorem evolves_startRoute (callers : Nat → Prop) (s : Server) (id : Int)
    (duration : Option Int) (env : CallEnv) :
    Evolves callers s (startRoute s id duration env).1 := by
  unfold startRoute
  split_ifs
  · exact Evolves.refl callers s
  · cases finalDuration duration (selectZone s.zones id) with
    | error e => exact Evolves.refl callers s
    | ok minutes =>
      rcases hc : call s env Origin.request id true with ⟨s1, r⟩
      have h1 : Evolves callers s s1 := evolves_call_eq hc (by simp)
      cases r with
      | error e => exact h1
      | ok v => exact h1.trans (evolves_arm callers s1 _ id)

theorem evolves_stopRoute (callers : Nat → Prop) (s : Server) (id : Int) (env : CallEnv) :
    Evolves callers s (stopRoute s id env).1 := by
  unfold stopRoute
  rcases hc : call (cancelTimer s id) env Origin.request id false with ⟨s1, r⟩
  have h1 : Evolves callers (cancelTimer s id) s1 := evolves_call_eq hc (by simp)
  cases r with
  | error e => exact (evolves_cancelTimer callers s id).trans h1
  | ok v => exact (evolves_cancelTimer callers s id).trans h1

theorem evolves_stopAllRoute (callers : Nat → Prop) (s : Server) (env : CallEnv) :
    Evolves callers s (stopAllRoute s env).1 := by
  unfold stopAllRoute
  have h := (evolves_clearAllTimers callers s).trans
    (evolves_stopEach callers env (runningIds (clearAllTimers s).zones) (clearAllTimers s))
  rcases hc : stopEach (clearAllTimers s) env (runningIds (clearAllTimers s).zones) with ⟨s2, r⟩
  rw [hc] at h
  cases r with
  | error e => simp only [hc]; exact h
  | ok v => simp only [hc]; exact h

theorem evolves_mqttCommand (callers : Nat → Prop) (s : Server) (zoneId : Int)
    (command : String) (env : CallEnv) :
    Evolves callers s (mqttCommand s zoneId command env) := by
  unfold mqttCommand
  split_ifs
  · rcases hc : call s env Origin.request zoneId true with ⟨s1, r⟩
    have h1 : Evolves callers s s1 := evolves_call_eq hc (by simp)
    cases r with
    | error e => exact h1
    | ok v => exact h1.trans (evolves_arm callers s1 _ zoneId)
  · exact (evolves_cancelTimer callers s zoneId).trans (evolves_call callers _ env _ _ _ (by simp))
  · exact Evolves.refl callers s

theorem evolves_runCallback (callers : Nat → Prop) (s : Server) (env : CallEnv) (handle : Nat)
    (hcaller : callers handle) (callback : Callback) :
    Evolves callers s (runCallback s env handle callback) := by
  have horigin : ∀ k, Origin.timer handle = Origin.timer k → callers k := by
    intro k hk
    cases hk
    exact hcaller
  cases callback with
  | autoOff zoneId =>
    rcases hc : call s env (Origin.timer handle) zoneId false with ⟨s1, r⟩
    have h1 : Evolves callers s s1 := evolves_call_eq hc horigin
    cases r with
    | error e => simp only [runCallback, hc]; exact h1
    | ok v => simp only [runCallback, hc]; exact h1.trans (evolves_unregister callers s1 zoneId)
  | sequenceStop zoneId rest =>
    rcases hc : call s env (Origin.timer handle) zoneId false with ⟨s1, r⟩
    have h1 : Evolves callers s s1 := evolves_call_eq hc horigin
    cases r with
    | error e => simp only [runCallback, hc]; exact h1
    | ok v => simp only [runCallback, hc]; exact h1.trans (evolves_setTimeout callers s1 _ _)
  | sequencePause rest =>
    simp only [runCallback]
    exact evolves_runSequence callers env _ horigin rest s

theorem evolves_sweepZones (callers : Nat → Prop) (env : CallEnv) (now : Int)
    (net : Providers) (zones : List Zone) (s : Server) (st : WeatherStore) :
    Evolves callers s (sweepZones env now net s st zones).server := by
  induction zones generalizing s st with
  | nil => exact Evolves.refl callers s
  | cons zone rest ih =>
    unfold sweepZones
    by_cases hauto : zone.auto_water_enabled = 0
    · simp only [hauto, if_true]
      exact ih s st
    · simp only [hauto, if_false]
      by_cases hwater :
          (shouldWaterBasedOnMoisture s.config st now net zone).decision.shouldWater = true
      · simp only [hwater, if_true]
        rcases hc : call s env Origin.request zone.id true with ⟨s1, r⟩
        have h1 : Evolves callers s s1 := evolves_call_eq hc (by simp)
        cases r with
        | error e => exact h1
        | ok v => exact h1.trans ((evolves_arm callers s1 _ zone.id).trans (ih _ _))
      · simp only [hwater]
        exact ih s _

/-- One event only lets armed timers call. -/
theorem evolves_expire (s : Server) (handle : Nat) (env : CallEnv) :
    Evolves (Armed s) s (expire s handle env) := by
  unfold expire
  cases hf : s.pending.find? (fun t => t.handle = handle) with
  | none => exact Evolves.refl _ s
  | some t =>
    simp only
    split_ifs
    · have harmed : Armed s handle :=
        ⟨t, List.mem_of_find?_eq_some hf, by simpa using List.find?_some hf⟩
      have h0 : Evolves (Armed s) s
          { s with pending := s.pending.filter fun u => u.handle ≠ handle } :=
        ⟨le_refl _, fun _ ht => Or.inl (List.mem_of_mem_filter ht), fun _ he => Or.inl he, [],
          by simp, by simp⟩
      exact h0.trans (evolves_runCallback _ _ env handle harmed t.callback)
    · exact Evolves.refl _ s

theorem evolves_step (s : Server) (e : Event) : Evolves (Armed s) s (step s e) := by
  cases e with
  | startRequest id duration env => exact evolves_startRoute _ s id duration env
  | stopRequest id env => exact evolves_stopRoute _ s id env
  | stopAllRequest env => exact evolves_stopAllRoute _ s env
  | mqtt zoneId command env => exact evolves_mqttCommand _ s zoneId command env
  | sequenceStart steps env => exact evolves_runSequence _ env _ (by simp) steps s
  | expired handle env => exact evolves_expire s handle env
  | elapsed ms => exact ⟨le_refl _, fun _ ht => Or.inl ht, fun _ he => Or.inl he, [],
      by simp [step, elapse], by simp⟩
  | sigint => exact evolves_clearAllTimers _ s
  | zoneDeleted id => exact ⟨le_refl _, fun _ ht => Or.inl ht, fun _ he => Or.inl he, [],
      by simp [step, deleteZone], by simp⟩
  | sensor sensorId value => exact ⟨le_refl _, fun _ ht => Or.inl ht, fun _ he => Or.inl he, [],
      by simp [step], by simp⟩
  | sweep st now net env => exact evolves_sweepZones _ env now net _ s st

/-- Over any series of events only timers that are armed now, or are issued later, call. -/
theorem evolves_run (events : List Event) (s : Server) :
    Evolves (fun h => Armed s h ∨ s.nextHandle ≤ h) s (run s events) := by
  induction events generalizing s with
  | nil => exact Evolves.refl _ s
  | cons e rest ih =>
    have h1 := evolves_step s e
    have h2 := ih (step s e)
    refine (h1.mono fun k hk => Or.inl hk).trans (h2.mono ?_)
    intro k hk
    rcases hk with ⟨t, ht, htk⟩ | hk
    · rcases h1.2.1 t ht with h | h
      · exact Or.inl ⟨t, h, htk⟩
      · exact Or.inr (htk ▸ h.1)
    · exact Or.inr (le_trans h1.1 hk)

/-- A timer that ran or was cleared stays so, and its callback makes no further call. -/
theorem dead_forever {handle : Nat} {s : Server} (hdead : Dead handle s) (events : List Event) :
    Dead handle (run s events) ∧ executions handle (run s events) = executions handle s := by
  obtain ⟨hn, hp, _, more, hl, ho⟩ := evolves_run events s
  have hnot : ¬ (Armed s handle ∨ s.nextHandle ≤ handle) := by
    rintro (⟨t, ht, hth⟩ | h)
    · exact hdead.2 t ht hth
    · exact absurd hdead.1 (by omega)
  refine ⟨⟨lt_of_lt_of_le hdead.1 hn, ?_⟩, ?_⟩
  · intro t ht hth
    rcases hp t ht with h | h
    · exact hdead.2 t h hth
    · have := hdead.1
      omega
  · unfold executions
    rw [hl, List.countP_append]
    have : more.countP (fun c => c.origin = Origin.timer handle) = 0 := by
      rw [List.countP_eq_zero]
      intro c hc
      simp only [decide_eq_true_eq]
      intro horigin
      exact hnot (ho c hc handle horigin)
    omega

/-- One event keeps the handles in order. -/
theorem fresh_step {s : Server} (hfresh : Fresh s) (e : Event) : Fresh (step s e) := by
  obtain ⟨hn, hp, ha, more, hl, ho⟩ := evolves_step s e
  obtain ⟨f1, f2, f3⟩ := hfresh
  refine ⟨?_, ?_, ?_⟩
  · intro t ht
    rcases hp t ht with h | h
    · exact lt_of_lt_of_le (f1 t h) hn
    · exact h.2
  · intro a ha'
    rcases ha a ha' with h | h
    · exact lt_of_lt_of_le (f2 a h) hn
    · exact h.2
  · intro c hc h horigin
    rw [hl] at hc
    rcases List.mem_append.mp hc with hc | hc
    · exact lt_of_lt_of_le (f3 c hc h horigin) hn
    · obtain ⟨t, ht, hth⟩ := ho c hc h horigin
      exact hth ▸ lt_of_lt_of_le (f1 t ht) hn

/-- Every series of events keeps the handles in order. -/
theorem fresh_run (events : List Event) {s : Server} (hfresh : Fresh s) :
    Fresh (run s events) := by
  induction events generalizing s with
  | nil => exact hfresh
  | cons e rest ih => exact ih (fresh_step hfresh e)

theorem timersGet_timersSet (m : List (Int × Nat)) (id : Int) (handle : Nat) :
    timersGet (timersSet m id handle) id = some handle := by
  unfold timersGet timersSet
  split_ifs with hany
  · induction m with
    | nil => simp at hany
    | cons e rest ih =>
      by_cases he : e.1 = id
      · simp [he]
      · have hrest : (rest.any fun e => decide (e.1 = id)) = true := by
          simpa [he] using hany
        simpa [List.find?_cons, he] using ih hrest
  · have hnone : m.find? (fun e => decide (e.1 = id)) = none := by
      rw [List.find?_eq_none]
      intro e he
      simp only [List.any_eq_true, not_exists, not_and] at hany
      exact hany e he
    simp [List.find?_append, hnone]

theorem timersGet_timersDelete (m : List (Int × Nat)) (id : Int) :
    timersGet (timersDelete m id) id = none := by
  unfold timersGet timersDelete
  have : (m.filter fun e => decide (e.1 ≠ id)).find? (fun e => decide (e.1 = id)) = none := by
    rw [List.find?_eq_none]
    intro e he
    have := (List.mem_filter.mp he).2
    simpa using this
  simp [this]

theorem selectZone_updateZone {zones : List Zone} {id : Int} {zone : Zone}
    (h : selectZone zones id = some zone) (state : Bool) (localTime : String) :
    ∃ updated, selectZone (updateZone zones id state localTime) id = some updated := by
  apply selectZone_of_mem
  obtain ⟨hmem, hid⟩ := selectZone_some h
  refine ⟨_, List.mem_map_of_mem _ hmem, ?_⟩
  cases state <;> simp [hid]

/-- Switching off a zone that exists is always admitted. -/
theorem controlZone_stop_ok (config : Config) (env : CallEnv) {zones : List Zone} {id : Int}
    {zone : Zone} (h : selectZone zones id = some zone) :
    (controlZone config env zones id false).result
      = Except.ok { success := true, zone := zone.name, state := false } := by
  simp [controlZone, h]

theorem stopRoute_fst (s : Server) (id : Int) (env : CallEnv) :
    (stopRoute s id env).1 = (call (cancelTimer s id) env Origin.request id false).1 := by
  unfold stopRoute
  rcases hc : call (cancelTimer s id) env Origin.request id false with ⟨s1, r⟩
  cases r <;> rfl

/-- A start request that answers with success has passed the winter gate, made an admitted
`controlZone(id, true)` call and armed and registered one auto-off timer. -/
theorem startRoute_success {s : Server} {id : Int} {duration : Option Int} {env : CallEnv}
    (h : (startRoute s id duration env).2.success = true) :
    ∃ minutes : Int, ∃ zone : Zone, selectZone s.zones id = some zone ∧
      finalDuration duration (selectZone s.zones id) = Except.ok minutes ∧
      (startRoute s id duration env).1
        = armAutoOff (call s env Origin.request id true).1 (minutes * 60 * 1000).toNat id := by
  unfold startRoute at h ⊢
  split_ifs at h ⊢ with hw
  cases hd : finalDuration duration (selectZone s.zones id) with
  | error e => simp [hd] at h
  | ok minutes =>
    rcases hc : call s env Origin.request id true with ⟨s1, r⟩
    cases r with
    | error e => simp [hd, hc] at h
    | ok v =>
      have hres : (controlZone s.config env s.zones id true).result = Except.ok v := by
        have := congrArg Prod.snd hc
        simpa [call] using this
      obtain ⟨zone, hsel, _⟩ := controlZone_admitted ⟨v, hres⟩
      exact ⟨minutes, zone, hsel, rfl, by simp⟩

theorem executions_of_fresh {s : Server} (hfresh : Fresh s) : executions s.nextHandle s = 0 := by
  unfold executions
  rw [List.countP_eq_zero]
  intro c hc
  simp only [decide_eq_true_eq]
  intro horigin
  exact absurd (hfresh.2.2 c hc _ horigin) (lt_irrefl _)

@[simp] theorem call_pending (s : Server) (env : CallEnv) (origin : Origin) (zoneId : Int)
    (state : Bool) : (call s env origin zoneId state).1.pending = s.pending := rfl

@[simp] theorem call_nextHandle (s : Server) (env : CallEnv) (origin : Origin) (zoneId : Int)
    (state : Bool) : (call s env origin zoneId state).1.nextHandle = s.nextHandle := rfl

@[simp] theorem call_activeTimers (s : Server) (env : CallEnv) (origin : Origin)
    (zoneId : Int) (state : Bool) :
    (call s env origin zoneId state).1.activeTimers = s.activeTimers := rfl

@[simp] theorem call_now (s : Server) (env : CallEnv) (origin : Origin) (zoneId : Int)
    (state : Bool) : (call s env origin zoneId state).1.now = s.now := rfl

@[simp] theorem call_config (s : Server) (env : CallEnv) (origin : Origin) (zoneId : Int)
    (state : Bool) : (call s env origin zoneId state).1.config = s.config := rfl

@[simp] theorem call_zones (s : Server) (env : CallEnv) (origin : Origin) (zoneId : Int)
    (state : Bool) :
    (call s env origin zoneId state).1.zones
      = (controlZone s.config env s.zones zoneId state).zones := rfl

@[simp] theorem call_result (s : Server) (env : CallEnv) (origin : Origin) (zoneId : Int)
    (state : Bool) :
    (call s env origin zoneId state).2 = (controlZone s.config env s.zones zoneId state).result :=
  rfl

@[simp] theorem call_log (s : Server) (env : CallEnv) (origin : Origin) (zoneId : Int)
    (state : Bool) :
    (call s env origin zoneId state).1.log = s.log ++
      [{ time := s.now, zoneId := zoneId, state := state
         ok := (controlZone s.config env s.zones zoneId state).result.toBool
         origin := origin, running := runningIds s.zones }] := rfl

@[simp] theorem armAutoOff_pending (s : Server) (delay : Nat) (id : Int) :
    (armAutoOff s delay id).pending = s.pending ++
      [{ handle := s.nextHandle, due := s.now + timerDelay delay
         callback := Callback.autoOff id }] := rfl

@[simp] theorem armAutoOff_nextHandle (s : Server) (delay : Nat) (id : Int) :
    (armAutoOff s delay id).nextHandle = s.nextHandle + 1 := rfl

@[simp] theorem armAutoOff_activeTimers (s : Server) (delay : Nat) (id : Int) :
    (armAutoOff s delay id).activeTimers = timersSet s.activeTimers id s.nextHandle := rfl

@[simp] theorem armAutoOff_log (s : Server) (delay : Nat) (id : Int) :
    (armAutoOff s delay id).log = s.log := rfl

@[simp] theorem armAutoOff_now (s : Server) (delay : Nat) (id : Int) :
    (armAutoOff s delay id).now = s.now := rfl

@[simp] theorem armAutoOff_zones (s : Server) (delay : Nat) (id : Int) :
    (armAutoOff s delay id).zones = s.zones := rfl

@[simp] theorem armAutoOff_config (s : Server) (delay : Nat) (id : Int) :
    (armAutoOff s delay id).config = s.config := rfl

theorem cancelTimer_of_get {s : Server} {id : Int} {handle : Nat}
    (h : timersGet s.activeTimers id = some handle) :
    cancelTimer s id
      = { clearTimeout s handle with activeTimers := timersDelete s.activeTimers id } := by
  simp [cancelTimer, h]

/-- After an admitted start and its arming, a stop request at any later time clears the timer
before it has made any call. -/
theorem stop_clears_timer {s : Server} (hfresh : Fresh s) (id : Int) (env stopEnv : CallEnv)
    (delay ms : Nat) :
    Dead s.nextHandle
      (stopRoute (elapse (armAutoOff (call s env Origin.request id true).1 delay id) ms) id
        stopEnv).1 ∧
    executions s.nextHandle
      (stopRoute (elapse (armAutoOff (call s env Origin.request id true).1 delay id) ms) id
        stopEnv).1 = 0 := by
  rw [stopRoute_fst]
  have hget : timersGet (elapse (armAutoOff (call s env Origin.request id true).1 delay id)
      ms).activeTimers id = some s.nextHandle := by
    simp [elapse, timersGet_timersSet]
  rw [cancelTimer_of_get hget]
  have h0 := executions_of_fresh hfresh
  unfold executions at h0 ⊢
  refine ⟨⟨?_, ?_⟩, ?_⟩
  · simp [clearTimeout, elapse]
  · intro t ht
    simp only [call_pending, clearTimeout, List.mem_filter, decide_eq_true_eq] at ht
    exact ht.2
  · simp [clearTimeout, elapse, List.countP_append, h0]

theorem selectZone_controlZone (config : Config) (env : CallEnv) {zones : List Zone} {id : Int}
    {zone : Zone} (h : selectZone zones id = some zone) (zoneId : Int) (state : Bool) :
    ∃ found, selectZone (controlZone config env zones zoneId state).zones id = some found := by
  unfold controlZone
  cases selectZone zones zoneId with
  | none => exact ⟨zone, h⟩
  | some target =>
    cases state with
    | false =>
      obtain ⟨hmem, hid⟩ := selectZone_some h
      apply selectZone_of_mem
      refine ⟨_, List.mem_map_of_mem _ hmem, ?_⟩
      subst hid
      by_cases hz : zone.id = zoneId <;> simp [hz]
    | true =>
      simp only [if_true]
      cases selectOtherActive zones zoneId with
      | some a => exact ⟨zone, h⟩
      | none =>
        obtain ⟨hmem, hid⟩ := selectZone_some h
        apply selectZone_of_mem
        refine ⟨_, List.mem_map_of_mem _ hmem, ?_⟩
        subst hid
        by_cases hz : zone.id = zoneId <;> simp [hz]

/-- The auto-off callback on a zone that exists: the zone is switched off and unregistered. -/
theorem runCallback_autoOff (s : Server) (env : CallEnv) (handle : Nat) {id : Int} (zone : Zone)
    (hz : selectZone s.zones id = some zone) :
    runCallback s env handle (Callback.autoOff id)
      = { (call s env (Origin.timer handle) id false).1 with
          activeTimers := timersDelete s.activeTimers id } := by
  simp only [runCallback]
  split
  · rename_i s1 e heq
    have := congrArg Prod.snd heq
    simp [controlZone_stop_ok s.config env hz] at this
  · rename_i s1 v heq
    have := congrArg Prod.fst heq
    simp only at this
    rw [← this]
    rfl

/-- After an admitted start and its arming, the expiry of the timer once its delay has passed
runs the auto-off exactly once: one recorded call, the zone unregistered, the timer gone. -/
theorem expiry_runs_once {s : Server} (hfresh : Fresh s) (id : Int) (env fireEnv : CallEnv)
    (delay ms : Nat) {zone : Zone} (hzone : selectZone s.zones id = some zone)
    (hdue : timerDelay delay ≤ ms) :
    Dead s.nextHandle
      (expire (elapse (armAutoOff (call s env Origin.request id true).1 delay id) ms)
        s.nextHandle fireEnv) ∧
    executions s.nextHandle
      (expire (elapse (armAutoOff (call s env Origin.request id true).1 delay id) ms)
        s.nextHandle fireEnv) = 1 ∧
    timersGet (expire (elapse (armAutoOff (call s env Origin.request id true).1 delay id) ms)
        s.nextHandle fireEnv).activeTimers id = none ∧
    ∃ c, (expire (elapse (armAutoOff (call s env Origin.request id true).1 delay id) ms)
        s.nextHandle fireEnv).log
        = (armAutoOff (call s env Origin.request id true).1 delay id).log ++ [c] ∧
      c.zoneId = id ∧ c.state = false ∧ c.ok = true ∧
      c.origin = Origin.timer s.nextHandle ∧ c.time = s.now + ms := by
  have hnone : s.pending.find? (fun t => decide (t.handle = s.nextHandle)) = none := by
    rw [List.find?_eq_none]
    intro t ht
    have := hfresh.1 t ht
    simp only [decide_eq_true_eq]
    omega
  have hfind : (elapse (armAutoOff (call s env Origin.request id true).1 delay id) ms).pending.find?
      (fun t => decide (t.handle = s.nextHandle))
      = some { handle := s.nextHandle, due := s.now + timerDelay delay
               callback := Callback.autoOff id } := by
    simp [elapse, List.find?_append, hnone]
  obtain ⟨found, hfound⟩ := selectZone_controlZone s.config env hzone id true
  have hexp : expire (elapse (armAutoOff (call s env Origin.request id true).1 delay id) ms)
      s.nextHandle fireEnv
      = runCallback { elapse (armAutoOff (call s env Origin.request id true).1 delay id) ms with
          pending := (elapse (armAutoOff (call s env Origin.request id true).1 delay id)
            ms).pending.filter fun u => u.handle ≠ s.nextHandle } fireEnv s.nextHandle
          (Callback.autoOff id) := by
    unfold expire
    rw [hfind]
    simp [elapse, hdue]
  rw [hexp, runCallback_autoOff _ fireEnv s.nextHandle found (by simpa [elapse] using hfound)]
  have h0 := executions_of_fresh hfresh
  unfold executions at h0 ⊢
  refine ⟨⟨?_, ?_⟩, ?_, ?_, ?_⟩
  · simp [elapse]
  · intro t ht
    simp only [call_pending, List.mem_filter, decide_eq_true_eq] at ht
    exact ht.2
  · simp [elapse, List.countP_append, h0]
  · exact timersGet_timersDelete _ id
  · refine ⟨_, by simp only [call_log]; rfl, rfl, rfl, ?_, rfl, rfl⟩
    show (controlZone _ fireEnv _ id false).result.toBool = true
    have hz : selectZone (elapse (armAutoOff (call s env Origin.request id true).1 delay id)
        ms).zones id = some found := hfound
    rw [controlZone_stop_ok _ fireEnv hz]
    rfl

theorem fresh_idleServer : Fresh idleServer := by
  simp [Fresh, idleServer]

theorem stopEach_frame (env : CallEnv) (ids : List Int) (s : Server) :
    (stopEach s env ids).1.pending = s.pending ∧
    (stopEach s env ids).1.activeTimers = s.activeTimers ∧
    (stopEach s env ids).1.nextHandle = s.nextHandle := by
  induction ids generalizing s with
  | nil => exact ⟨rfl, rfl, rfl⟩
  | cons id rest ih =>
    unfold stopEach
    rcases hc : call s env Origin.request id false with ⟨s1, r⟩
    have h1 : s1 = (call s env Origin.request id false).1 := by rw [hc]
    cases r with
    | error e => simp only [h1]; exact ⟨rfl, rfl, rfl⟩
    | ok v =>
      simp only
      obtain ⟨a, b, c⟩ := ih s1
      rw [a, b, c, h1]
      exact ⟨rfl, rfl, rfl⟩

theorem stopAllRoute_fst (s : Server) (env : CallEnv) :
    (stopAllRoute s env).1
      = (stopEach (clearAllTimers s) env (runningIds (clearAllTimers s).zones)).1 := by
  unfold stopAllRoute
  rcases hc : stopEach (clearAllTimers s) env (runningIds (clearAllTimers s).zones) with ⟨s2, r⟩
  cases r <;> simp only [hc]

/-- A state change that lets no timer call leaves every count of timer calls as it is. -/
theorem executions_of_evolves {s next : Server} (h : Evolves (fun _ => False) s next)
    (handle : Nat) : executions handle next = executions handle s := by
  obtain ⟨_, _, _, more, hl, ho⟩ := h
  unfold executions
  rw [hl, List.countP_append]
  have : more.countP (fun c => c.origin = Origin.timer handle) = 0 := by
    rw [List.countP_eq_zero]
    intro c hc
    simp only [decide_eq_true_eq]
    intro horigin
    exact ho c hc handle horigin
  omega

/-- Clearing the registry leaves no registered timer armed. -/
theorem dead_of_clearAllTimers {s : Server} (hfresh : Fresh s) {e : Int × Nat}
    (he : e ∈ s.activeTimers) : Dead e.2 (clearAllTimers s) := by
  refine ⟨hfresh.2.1 e he, ?_⟩
  intro t ht hth
  have hkeep := (List.mem_filter.mp ht).2
  simp only [Bool.not_eq_true', List.any_eq_false, decide_eq_true_eq] at hkeep
  exact hkeep e he hth.symm

/-- A stop request clears the timer that is registered for the zone: from then on its
callback makes no call, whatever happens. -/
theorem stop_kills_registered {s : Server} {id : Int} {handle : Nat}
    (hget : timersGet s.activeTimers id = some handle) (hissued : handle < s.nextHandle)
    (stopEnv : CallEnv) (events : List Event) :
    executions handle (run (stopRoute s id stopEnv).1 events) = executions handle s := by
  have hdead : Dead handle (stopRoute s id stopEnv).1 := by
    rw [stopRoute_fst, cancelTimer_of_get hget]
    refine ⟨hissued, ?_⟩
    intro t ht
    simp only [call_pending, clearTimeout, List.mem_filter, decide_eq_true_eq] at ht
    exact ht.2
  rw [(dead_forever hdead events).2]
  exact executions_of_evolves (evolves_stopRoute _ s id stopEnv) handle

/-! ## The timer registry: claims C17 to C19 -/

/-- C17, the code at the failing input: zone 1 is started for 10 minutes and, five minutes
later, started again for 30 minutes. The second start overwrites the entry of zone 1 in
`activeTimers` without clearing the first timer, so both timers stay armed; at minute 10 the
first timer expires, switches zone 1 off (25 minutes before the last armed timer is due) and
deletes the registry entry of the second timer, which stays armed. -/
theorem rearm_keeps_first_timer :
    (run idleServer rearmEvents).pending
      = [{ handle := 0, due := 600000, callback := Callback.autoOff 1 },
         { handle := 1, due := 2100000, callback := Callback.autoOff 1 }] ∧
    (run idleServer rearmEvents).activeTimers = [(1, 1)] ∧
    executions 0 (run idleServer
      (rearmEvents ++ [Event.elapsed 300000, Event.expired 0 sampleEnv])) = 1 ∧
    ((run idleServer (rearmEvents ++ [Event.elapsed 300000, Event.expired 0 sampleEnv])).zones.map
      fun z => (z.id, z.is_active)) = [(1, 0), (2, 0)] ∧
    (run idleServer (rearmEvents ++ [Event.elapsed 300000, Event.expired 0 sampleEnv])).now
      = 600000 ∧
    (run idleServer
      (rearmEvents ++ [Event.elapsed 300000, Event.expired 0 sampleEnv])).activeTimers = [] ∧
    (run idleServer (rearmEvents ++ [Event.elapsed 300000, Event.expired 0 sampleEnv])).pending
      = [{ handle := 1, due := 2100000, callback := Callback.autoOff 1 }] := by
  decide

/-- What holds of one start with no second start for the zone in between: a start request
that answers with success has armed one auto-off timer for the zone and registered it. If the
stop request for the zone comes next, or after events that leave this timer registered for the
zone, the timer makes no call from then on. If instead the timer expires next, once its delay
has passed, its auto-off is executed exactly once, `activeTimers` then holds no entry for the
zone, and the auto-off is not executed again. -/
theorem start_then_stop_or_expiry (s : Server) (id : Int) (duration : Option Int) (env : CallEnv)
    (hfresh : Fresh s) (hstart : (startRoute s id duration env).2.success = true) :
    ∃ timer ∈ (startRoute s id duration env).1.pending,
      timer.handle = s.nextHandle ∧ timer.callback = Callback.autoOff id ∧
      (∃ minutes, finalDuration duration (selectZone s.zones id) = Except.ok minutes ∧
        timer.due = s.now + timerDelay (minutes * 60 * 1000).toNat) ∧
      timersGet (startRoute s id duration env).1.activeTimers id = some timer.handle ∧
      (∀ (ms : Nat) (stopEnv : CallEnv) (events : List Event),
        executions timer.handle
          (run (stopRoute (elapse (startRoute s id duration env).1 ms) id stopEnv).1 events)
          = 0) ∧
      (∀ (between : List Event) (stopEnv : CallEnv) (events : List Event),
        timersGet (run (startRoute s id duration env).1 between).activeTimers id
          = some timer.handle →
        executions timer.handle
          (run (stopRoute (run (startRoute s id duration env).1 between) id stopEnv).1 events)
          = executions timer.handle (run (startRoute s id duration env).1 between)) ∧
      (∀ (ms : Nat) (fireEnv : CallEnv) (events : List Event), timer.due ≤ s.now + ms →
        executions timer.handle
          (expire (elapse (startRoute s id duration env).1 ms) timer.handle fireEnv) = 1 ∧
        (∃ c ∈ (expire (elapse (startRoute s id duration env).1 ms) timer.handle fireEnv).log,
          c.origin = Origin.timer timer.handle ∧ c.zoneId = id ∧ c.state = false ∧
          c.ok = true ∧ c.time = s.now + ms) ∧
        timersGet
          (expire (elapse (startRoute s id duration env).1 ms) timer.handle fireEnv).activeTimers
          id = none ∧
        executions timer.handle
          (run (expire (elapse (startRoute s id duration env).1 ms) timer.handle fireEnv) events)
          = 1) := by
  obtain ⟨minutes, zone, hzone, hfinal, hst⟩ := startRoute_success hstart
  rw [hst]
  refine ⟨{ handle := s.nextHandle, due := s.now + timerDelay (minutes * 60 * 1000).toNat,
            callback := Callback.autoOff id }, by simp, rfl, rfl, ⟨minutes, hfinal, rfl⟩,
    by simp [timersGet_timersSet], ?_, ?_, ?_⟩
  · intro ms stopEnv events
    obtain ⟨hdead, hzero⟩ := stop_clears_timer hfresh id env stopEnv (minutes * 60 * 1000).toNat ms
    rw [(dead_forever hdead events).2]
    exact hzero
  · intro between stopEnv events hget
    refine stop_kills_registered hget ?_ stopEnv events
    have hn := (evolves_run between
      (armAutoOff (call s env Origin.request id true).1 (minutes * 60 * 1000).toNat id)).1
    simp only [armAutoOff_nextHandle, call_nextHandle] at hn
    show s.nextHandle < _
    omega
  · intro ms fireEnv events hdue
    obtain ⟨hdead, hone, hget, c, hlog, hc1, hc2, hc3, hc4, hc5⟩ :=
      expiry_runs_once hfresh id env fireEnv (minutes * 60 * 1000).toNat ms hzone
        (by
          have hdue2 : s.now + timerDelay (minutes * 60 * 1000).toNat ≤ s.now + ms := hdue
          omega)
    refine ⟨hone, ⟨c, by rw [hlog]; simp, hc4, hc1, hc2, hc3, hc5⟩, hget, ?_⟩
    rw [(dead_forever hdead events).2]
    exact hone

/-- C18, the failing run: zone 1 is started for 10 minutes by the start request, started again
at minute 5, and stopped by the stop request at minute 6, before the 10 minutes have elapsed.
The stop clears the timer of the second start only: the timer of the first start (handle 0)
stays armed though the registry is empty, and at minute 10 its auto-off is executed. If the
zone was meanwhile started again, at minute 7 for 30 minutes, that auto-off switches it off at
minute 10 and removes the registry entry of the new timer. -/
theorem stop_leaves_first_timer_armed :
    (run idleServer stopAfterRearm).pending
      = [{ handle := 0, due := 600000, callback := Callback.autoOff 1 }] ∧
    (run idleServer stopAfterRearm).activeTimers = [] ∧
    runningIds (run idleServer stopAfterRearm).zones = [] ∧
    executions 0 (run idleServer stopAfterRearm) = 0 ∧
    (run idleServer
        (stopAfterRearm ++ [Event.elapsed 240000, Event.expired 0 sampleEnv])).log.getLast?
      = some { time := 600000, zoneId := 1, state := false, ok := true
               origin := Origin.timer 0, running := [] } ∧
    executions 0 (run idleServer
      (stopAfterRearm ++ [Event.elapsed 240000, Event.expired 0 sampleEnv])) = 1 ∧
    (run idleServer
        (stopAfterRearm ++ [Event.elapsed 60000, Event.startRequest 1 (some 30) sampleEnv,
          Event.elapsed 180000, Event.expired 0 sampleEnv])).log.getLast?
      = some { time := 600000, zoneId := 1, state := false, ok := true
               origin := Origin.timer 0, running := [1] } ∧
    runningIds (run idleServer
        (stopAfterRearm ++ [Event.elapsed 60000, Event.startRequest 1 (some 30) sampleEnv,
          Event.elapsed 180000, Event.expired 0 sampleEnv])).zones = [] ∧
    (run idleServer
        (stopAfterRearm ++ [Event.elapsed 60000, Event.startRequest 1 (some 30) sampleEnv,
          Event.elapsed 180000, Event.expired 0 sampleEnv])).activeTimers = [] := by
  decide

/-- C19, the failing run: the sequence (zone 1, zone 2, ten minutes each) starts zone 1 and arms
the timer of the step (handle 0), which `runSequence` does not register in `activeTimers`; at
minute 4 all zones are stopped. The registry is empty and no zone runs, but the timer of the
step is still armed: at minute 10 it fires and calls `controlZone(1, false)`, and two seconds
later the runner starts zone 2, which is then running after the "stop all". -/
theorem stop_all_does_not_end_sequence :
    (run idleServer stopAllDuringSequence).activeTimers = [] ∧
    runningIds (run idleServer stopAllDuringSequence).zones = [] ∧
    (run idleServer stopAllDuringSequence).pending
      = [{ handle := 0, due := 600000
           callback := Callback.sequenceStop 1 [{ zone_id := 2, duration := 10 }] }] ∧
    executions 0 (run idleServer stopAllDuringSequence) = 0 ∧
    (run idleServer (stopAllDuringSequence ++
        [Event.elapsed 360000, Event.expired 0 sampleEnv, Event.elapsed 2000,
         Event.expired 1 sampleEnv])).log
      = [{ time := 0, zoneId := 1, state := true, ok := true, origin := Origin.request
           running := [] },
         { time := 240000, zoneId := 1, state := false, ok := true, origin := Origin.request
           running := [1] },
         { time := 600000, zoneId := 1, state := false, ok := true, origin := Origin.timer 0
           running := [] },
         { time := 602000, zoneId := 2, state := true, ok := true, origin := Origin.timer 1
           running := [] }] ∧
    runningIds (run idleServer (stopAllDuringSequence ++
        [Event.elapsed 360000, Event.expired 0 sampleEnv, Event.elapsed 2000,
         Event.expired 1 sampleEnv])).zones = [2] := by
  decide

/-- What "stop all zones" and the timer part of the shutdown handler do achieve: the
`activeTimers` registry is empty afterwards and no timer that was registered in it at the time
of the call makes any call afterwards, whatever happens. -/
theorem stop_all_clears_registry (s : Server) (env : CallEnv) (hfresh : Fresh s) :
    (stopAllRoute s env).1.activeTimers = [] ∧ (shutdownHandler s).activeTimers = [] ∧
    ∀ e ∈ s.activeTimers, ∀ events : List Event,
      executions e.2 (run (stopAllRoute s env).1 events) = executions e.2 s ∧
      executions e.2 (run (shutdownHandler s) events) = executions e.2 s := by
  have hframe := stopEach_frame env (runningIds (clearAllTimers s).zones) (clearAllTimers s)
  refine ⟨?_, rfl, ?_⟩
  · rw [stopAllRoute_fst, hframe.2.1]
    rfl
  · intro e he events
    have hcleared := dead_of_clearAllTimers hfresh he
    have hdead : Dead e.2 (stopAllRoute s env).1 := by
      rw [stopAllRoute_fst]
      refine ⟨by rw [hframe.2.2]; exact hcleared.1, ?_⟩
      rw [hframe.1]
      exact hcleared.2
    constructor
    · rw [(dead_forever hdead events).2]
      exact executions_of_evolves (evolves_stopAllRoute _ s env) e.2
    · rw [(dead_forever (s := shutdownHandler s) hcleared events).2]
      exact executions_of_evolves (evolves_clearAllTimers _ s) e.2

/-! ## Lemmas on the sequence runner -/

@[simp] theorem setTimeout_pending (s : Server) (delay : Nat) (callback : Callback) :
    (setTimeout s delay callback).1.pending = s.pending ++
      [{ handle := s.nextHandle, due := s.now + timerDelay delay, callback := callback }] := rfl

@[simp] theorem setTimeout_log (s : Server) (delay : Nat) (callback : Callback) :
    (setTimeout s delay callback).1.log = s.log := rfl

@[simp] theorem setTimeout_now (s : Server) (delay : Nat) (callback : Callback) :
    (setTimeout s delay callback).1.now = s.now := rfl

@[simp] theorem setTimeout_zones (s : Server) (delay : Nat) (callback : Callback) :
    (setTimeout s delay callback).1.zones = s.zones := rfl

theorem drain_idle (envs : Nat → CallEnv) (fuel : Nat) {s : Server} (h : s.pending = []) :
    drain envs fuel s = s := by
  cases fuel with
  | zero => rfl
  | succ n => simp [drain, h, nextDue]

/-- With a single timer armed, the server left alone moves the clock to its due time and runs
its callback. -/
theorem drain_single (envs : Nat → CallEnv) (fuel : Nat) {s : Server} {t : Timer}
    (h : s.pending = [t]) :
    drain envs (fuel + 1) s
      = drain envs fuel
          (runCallback { s with now := max s.now t.due, pending := [] } (envs t.handle) t.handle
            t.callback) := by
  simp [drain, h, nextDue, expire]

theorem not_running_after_stop {config : Config} {env : CallEnv} {zones : List Zone} {id : Int}
    (h : ∃ r, (controlZone config env zones id false).result = Except.ok r) :
    id ∉ runningIds (controlZone config env zones id false).zones := by
  obtain ⟨_, _, _, hzones, _⟩ := controlZone_admitted h
  rw [hzones]
  intro hmem
  simp only [runningIds, updateZone, List.mem_map, List.mem_filter, decide_eq_true_eq] at hmem
  obtain ⟨row, ⟨⟨x, _, hx⟩, hactive⟩, hid⟩ := hmem
  by_cases hxid : x.id = id
  · simp [hxid] at hx
    rw [← hx] at hactive
    simp at hactive
  · simp [hxid] at hx
    rw [← hx] at hid
    exact hxid hid

theorem toBool_eq_true_iff {r : Except String ControlResult} :
    r.toBool = true ↔ ∃ v, r = Except.ok v := by
  cases r with
  | error e => simp [Except.toBool]
  | ok v => simp [Except.toBool]

theorem call_eq (s : Server) (env : CallEnv) (origin : Origin) (zoneId : Int) (state : Bool) :
    call s env origin zoneId state
      = ((call s env origin zoneId state).1,
         (controlZone s.config env s.zones zoneId state).result) := rfl

theorem runSequence_cons_error {s : Server} {env : CallEnv} {origin : Origin}
    {zoneConfig : Step} {rest : List Step} {e : String}
    (h : (controlZone s.config env s.zones zoneConfig.zone_id true).result = Except.error e) :
    runSequence s env origin (zoneConfig :: rest)
      = runSequence (call s env origin zoneConfig.zone_id true).1 env origin rest := by
  rw [runSequence, call_eq, h]

theorem runSequence_cons_ok {s : Server} {env : CallEnv} {origin : Origin}
    {zoneConfig : Step} {rest : List Step} {v : ControlResult}
    (h : (controlZone s.config env s.zones zoneConfig.zone_id true).result = Except.ok v) :
    runSequence s env origin (zoneConfig :: rest)
      = (setTimeout (call s env origin zoneConfig.zone_id true).1
          (zoneConfig.duration * 60 * 1000)
          (Callback.sequenceStop zoneConfig.zone_id rest)).1 := by
  rw [runSequence, call_eq, h]

theorem runCallback_sequenceStop_error {s : Server} {env : CallEnv} {handle : Nat}
    {zoneId : Int} {rest : List Step} {e : String}
    (h : (controlZone s.config env s.zones zoneId false).result = Except.error e) :
    runCallback s env handle (Callback.sequenceStop zoneId rest)
      = (call s env (Origin.timer handle) zoneId false).1 := by
  rw [runCallback, call_eq, h]

theorem runCallback_sequenceStop_ok {s : Server} {env : CallEnv} {handle : Nat}
    {zoneId : Int} {rest : List Step} {v : ControlResult}
    (h : (controlZone s.config env s.zones zoneId false).result = Except.ok v) :
    runCallback s env handle (Callback.sequenceStop zoneId rest)
      = (setTimeout (call s env (Origin.timer handle) zoneId false).1 2000
          (Callback.sequencePause rest)).1 := by
  rw [runCallback, call_eq, h]

/-- The state in which the callback of a single armed timer runs. -/
theorem drain_single_state (envs : Nat → CallEnv) (fuel : Nat) {s : Server} {t : Timer}
    (h : s.pending = [t]) :
    ∃ at_expiry : Server,
      drain envs (fuel + 1) s
        = drain envs fuel (runCallback at_expiry (envs t.handle) t.handle t.callback) ∧
      at_expiry.pending = [] ∧ at_expiry.now = max s.now t.due ∧ at_expiry.log = s.log ∧
      at_expiry.zones = s.zones ∧ at_expiry.config = s.config :=
  ⟨_, drain_single envs fuel h, rfl, rfl, rfl, rfl, rfl⟩

theorem timerDelay_of_range {delay : Nat} (h1 : 1 ≤ delay) (h2 : delay ≤ TIMEOUT_MAX) :
    timerDelay delay = delay := by
  simp [timerDelay, h1, h2]

theorem timerDelay_minutes {minutes : Nat} (h1 : 1 ≤ minutes) (h2 : minutes ≤ 35791) :
    timerDelay (minutes * 60 * 1000) = minutes * 60 * 1000 :=
  timerDelay_of_range (by omega) (by unfold TIMEOUT_MAX; omega)

theorem timerDelay_pause : timerDelay 2000 = 2000 := by decide

/-- The run of `runSequence` on a server with no other timer armed, followed to its end: the
calls it records and, if all of them resolved and every duration is within the range of a
timer, their order and times. -/
theorem sequence_run (envs : Nat → CallEnv) (steps : List Step) :
    (∀ step ∈ steps, 1 ≤ step.duration ∧ step.duration ≤ 35791) →
    ∀ (s : Server) (env : CallEnv) (origin : Origin) (previous : Option Int) (fuel : Nat),
      s.pending = [] → 2 * steps.length ≤ fuel →
      (∀ p, previous = some p → p ∉ runningIds s.zones) →
      ∃ trace, (drain envs fuel (runSequence s env origin steps)).log = s.log ++ trace ∧
        ((∀ c ∈ trace, c.ok = true) →
          SequenceTrace s.now previous steps trace ∧
          (drain envs fuel (runSequence s env origin steps)).pending = []) := by
  induction steps with
  | nil =>
    intro _ s env origin previous fuel hidle _ _
    refine ⟨[], ?_, fun _ => ⟨trivial, ?_⟩⟩
    · simp [runSequence, drain_idle envs fuel hidle]
    · simp [runSequence, drain_idle envs fuel hidle, hidle]
  | cons zoneConfig rest ih =>
    intro hrange s env origin previous fuel hidle hfuel hprev
    have hdelay := timerDelay_minutes (hrange zoneConfig (List.mem_cons_self _ _)).1
      (hrange zoneConfig (List.mem_cons_self _ _)).2
    have ih := ih fun step hstep => hrange step (List.mem_cons_of_mem _ hstep)
    simp only [List.length_cons] at hfuel
    cases hres : (controlZone s.config env s.zones zoneConfig.zone_id true).result with
    | error e =>
      rw [runSequence_cons_error hres]
      obtain ⟨more, hlog, _⟩ := ih (call s env origin zoneConfig.zone_id true).1 env origin none
        fuel (by simpa using hidle) (by omega) (by simp)
      refine ⟨_ :: more, by rw [hlog, call_log, List.append_assoc]; rfl, ?_⟩
      intro hall
      have := hall _ (List.mem_cons_self _ _)
      simp [hres, Except.toBool] at this
    | ok v =>
      rw [runSequence_cons_ok hres]
      obtain ⟨f, rfl⟩ : ∃ f, fuel = f + 1 := ⟨fuel - 1, by omega⟩
      obtain ⟨s3, hdrain, hp3, hn3, hl3, hz3, hc3⟩ := drain_single_state envs f
        (s := (setTimeout (call s env origin zoneConfig.zone_id true).1
          (zoneConfig.duration * 60 * 1000) (Callback.sequenceStop zoneConfig.zone_id rest)).1)
        (t := ⟨s.nextHandle, s.now + zoneConfig.duration * 60 * 1000,
          Callback.sequenceStop zoneConfig.zone_id rest⟩)
        (by simp [hidle, hdelay])
      rw [hdrain]
      simp only [setTimeout_now, call_now, setTimeout_log, call_log] at hn3 hl3
      have hn3' : s3.now = s.now + zoneConfig.duration * 60 * 1000 := by
        rw [hn3]; exact max_eq_right (Nat.le_add_right _ _)
      cases hstop : (controlZone s3.config (envs s.nextHandle) s3.zones zoneConfig.zone_id
          false).result with
      | error e =>
        rw [runCallback_sequenceStop_error hstop, drain_idle envs f (by simpa using hp3)]
        refine ⟨[_, _], by rw [call_log, hl3, List.append_assoc]; rfl, ?_⟩
        intro hall
        have := hall _ (List.mem_cons_of_mem _ (List.mem_cons_self _ _))
        simp [hstop, Except.toBool] at this
      | ok w =>
        rw [runCallback_sequenceStop_ok hstop]
        obtain ⟨g, rfl⟩ : ∃ g, f = g + 1 := ⟨f - 1, by omega⟩
        obtain ⟨s6, hdrain6, hp6, hn6, hl6, hz6, hc6⟩ := drain_single_state envs g
          (s := (setTimeout (call s3 (envs s.nextHandle) (Origin.timer s.nextHandle)
            zoneConfig.zone_id false).1 2000 (Callback.sequencePause rest)).1)
          (t := ⟨s3.nextHandle, s3.now + 2000, Callback.sequencePause rest⟩)
          (by simp [hp3, timerDelay_pause])
        rw [hdrain6]
        simp only [setTimeout_now, call_now, setTimeout_log, call_log, setTimeout_zones,
          call_zones] at hn6 hl6 hz6
        have hn6' : s6.now = s3.now + 2000 := by
          rw [hn6]; exact max_eq_right (Nat.le_add_right _ _)
        have hquiet : ∀ p, some zoneConfig.zone_id = some p → p ∉ runningIds s6.zones := by
          intro p hp
          cases hp
          rw [hz6]
          exact not_running_after_stop ⟨w, hstop⟩
        obtain ⟨more, hlog, hall⟩ := ih s6 (envs s3.nextHandle) (Origin.timer s3.nextHandle)
          (some zoneConfig.zone_id) g hp6 (by omega) hquiet
        simp only [runCallback]
        refine ⟨_ :: _ :: more, by rw [hlog, hl6, hl3, List.append_assoc, List.append_assoc]; rfl,
          ?_⟩
        intro hok
        obtain ⟨htrace, hpending⟩ := hall fun c hc =>
          hok c (List.mem_cons_of_mem _ (List.mem_cons_of_mem _ hc))
        refine ⟨⟨rfl, rfl, rfl, hprev, rfl, rfl, hn3', ?_⟩, hpending⟩
        rw [hn6'] at htrace
        exact htrace

/-! ## The sequence runner: claim C20 -/

/-- C20, counterexample: the single step (zone 1, 35792 minutes) on the idle server. Its delay
of 2147520000 ms is above the longest delay of a timer, so the timer of the step is armed with
1 ms: the stop is made 1 ms after the start, not 35792 minutes after it, and the record of
the run is not the trace the claim describes. -/
theorem long_step_is_stopped_at_once :
    idleServer.pending = [] ∧ (35792 : Nat) * 60 * 1000 = 2147520000 ∧
    TIMEOUT_MAX < 2147520000 ∧
    (runSequence idleServer sampleEnv Origin.request longStep).pending
      = [{ handle := 0, due := 1, callback := Callback.sequenceStop 1 [] }] ∧
    (drain (fun _ => sampleEnv) 2 (runSequence idleServer sampleEnv Origin.request longStep)).log
      = [{ time := 0, zoneId := 1, state := true, ok := true, origin := Origin.request
           running := [] },
         { time := 1, zoneId := 1, state := false, ok := true, origin := Origin.timer 0
           running := [1] }] ∧
    ¬ SequenceTrace 0 none longStep
      (drain (fun _ => sampleEnv) 2
        (runSequence idleServer sampleEnv Origin.request longStep)).log := by
  refine ⟨rfl, by decide, by decide, by decide, by decide, ?_⟩
  have hlog : (drain (fun _ => sampleEnv) 2
      (runSequence idleServer sampleEnv Origin.request longStep)).log
      = [{ time := 0, zoneId := 1, state := true, ok := true, origin := Origin.request
           running := [] },
         { time := 1, zoneId := 1, state := false, ok := true, origin := Origin.timer 0
           running := [1] }] := by decide
  rw [hlog]
  simp [SequenceTrace, longStep]

/-- C20, amended: for every step list whose durations lie between 1 and 35791 minutes, run by
`runSequence` on a server with no other timer armed and left alone until the run has ended,
the calls the run records are, if each of them resolved, exactly a start and a stop per step
in list order: the first start at the time of the call of `runSequence`, each stop `duration`
minutes after its start, each next start two seconds after the stop before it and not seeing
the zone of the step before it running; and the run ends with no timer armed. -/
theorem sequence_ordering (s : Server) (steps : List Step) (env : CallEnv)
    (envs : Nat → CallEnv) (fuel : Nat)
    (hrange : ∀ step ∈ steps, 1 ≤ step.duration ∧ step.duration ≤ 35791)
    (hidle : s.pending = []) (hfuel : 2 * steps.length ≤ fuel) :
    ∃ trace,
      (drain envs fuel (runSequence s env Origin.request steps)).log = s.log ++ trace ∧
      ((∀ c ∈ trace, c.ok = true) →
        SequenceTrace s.now none steps trace ∧
        (drain envs fuel (runSequence s env Origin.request steps)).pending = []) :=
  sequence_run envs steps hrange s env Origin.request none fuel hidle hfuel (by simp)

/-- C20, instance: the steps `[(1, 1), (2, 1)]` on the idle server: zone 1 runs from 0 s to
60 s, zone 2 from 62 s to 122 s, and the start of zone 2 sees no zone running. -/
theorem sequence_ordering_witness :
    (∀ step ∈ twoSteps, 1 ≤ step.duration ∧ step.duration ≤ 35791) ∧
    idleServer.pending = [] ∧ 2 * twoSteps.length ≤ 4 ∧
    ((drain (fun _ => sampleEnv) 4
      (runSequence idleServer sampleEnv Origin.request twoSteps)).log.map
      fun c => (c.time, c.zoneId, c.state, c.ok, c.running))
      = [(0, 1, true, true, []), (60000, 1, false, true, [1]), (62000, 2, true, true, []),
         (122000, 2, false, true, [2])] ∧
    ∃ trace,
      (drain (fun _ => sampleEnv) 4
        (runSequence idleServer sampleEnv Origin.request twoSteps)).log
        = idleServer.log ++ trace ∧
      ((∀ c ∈ trace, c.ok = true) →
        SequenceTrace idleServer.now none twoSteps trace ∧
        (drain (fun _ => sampleEnv) 4
          (runSequence idleServer sampleEnv Origin.request twoSteps)).pending = []) :=
  ⟨by decide, rfl, by decide, by decide,
    sequence_ordering idleServer twoSteps sampleEnv (fun _ => sampleEnv) 4 (by decide) rfl
      (by decide)⟩

/-! ## The start route and the unknown reading: claims C28 and C29 -/

/-- C28, the code at the failing input: a start request for the unknown zone 99 with no
`duration` in the body and winter mode off is answered with status 400 and a structured
failure whose `error` is the message of an internal `TypeError` and not "Zone nicht gefunden";
the same request with a duration gets "Zone nicht gefunden". In both cases no timer is armed
and no zone changes. -/
theorem start_route_unknown_zone_without_duration :
    idleServer.config.winterMode = none ∧ (∀ z ∈ idleServer.zones, z.id ≠ 99) ∧
    (startRoute idleServer 99 none sampleEnv).2
      = { status := 400, success := false
          error := some "Cannot read properties of undefined (reading 'default_duration')"
          message := none } ∧
    (startRoute idleServer 99 (some 10) sampleEnv).2
      = { status := 400, success := false, error := some "Zone nicht gefunden"
          message := none } ∧
    (startRoute idleServer 99 none sampleEnv).1.pending = [] ∧
    (startRoute idleServer 99 none sampleEnv).1.activeTimers = [] ∧
    (startRoute idleServer 99 none sampleEnv).1.zones = idleServer.zones ∧
    (startRoute idleServer 99 (some 10) sampleEnv).1.pending = [] ∧
    (startRoute idleServer 99 (some 10) sampleEnv).1.zones = idleServer.zones := by
  decide

/-- C29: for every zone whose stored moisture is 0 or unset and whose `moisture_optimal` is
unset or at most 100, `shouldWaterBasedOnMoisture` reads the moisture as 100 and returns
`shouldWater = false`, for every weather state and every threshold, without calling
`fetchWeatherData` and so leaving the weather cache and log as they are. -/
theorem unknown_reading_is_not_watered (config : Config) (st : WeatherStore) (now : Int)
    (net : Providers) (zone : Zone)
    (hm : zone.moisture = none ∨ zone.moisture = some 0)
    (ho : zone.moisture_optimal = none ∨ ∃ o, zone.moisture_optimal = some o ∧ o ≤ 100) :
    jsOr zone.moisture 100 = 100 ∧
    (shouldWaterBasedOnMoisture config st now net zone).decision.shouldWater = false ∧
    (shouldWaterBasedOnMoisture config st now net zone).weatherFetch = none ∧
    (shouldWaterBasedOnMoisture config st now net zone).store = st := by
  have h100 : jsOr zone.moisture 100 = 100 := by
    rcases hm with hm | hm <;> simp [hm, jsOr]
  have hopt : jsOr zone.moisture_optimal 60 ≤ 100 := by
    rcases ho with ho | ⟨o, ho, hle⟩
    · simp [ho, jsOr]
    · simp only [ho, jsOr]
      split_ifs <;> omega
  have hs : jsOr zone.moisture 100 ≥ jsOr zone.moisture_optimal 60 := by omega
  refine ⟨h100, ?_, ?_, ?_⟩ <;> simp [shouldWaterBasedOnMoisture, hs]

/-- C29, instance: the zone with a stored moisture of 0, threshold 30 and optimum 60, with a
dry forecast at hand. -/
theorem unknown_reading_is_not_watered_witness :
    (zeroMoistureZone.moisture = none ∨ zeroMoistureZone.moisture = some 0) ∧
    (zeroMoistureZone.moisture_optimal = none ∨
      ∃ o, zeroMoistureZone.moisture_optimal = some o ∧ o ≤ 100) ∧
    (shouldWaterBasedOnMoisture sampleConfig emptyStore 0 (online (snapshot 10 20))
      zeroMoistureZone).decision.shouldWater = false ∧
    (shouldWaterBasedOnMoisture sampleConfig emptyStore 0 (online (snapshot 10 20))
      zeroMoistureZone).weatherFetch = none :=
  ⟨Or.inr rfl, Or.inr ⟨60, rfl, by decide⟩,
    (unknown_reading_is_not_watered sampleConfig emptyStore 0 (online (snapshot 10 20))
      zeroMoistureZone (Or.inr rfl) (Or.inr ⟨60, rfl, by decide⟩)).2.1,
    (unknown_reading_is_not_watered sampleConfig emptyStore 0 (online (snapshot 10 20))
      zeroMoistureZone (Or.inr rfl) (Or.inr ⟨60, rfl, by decide⟩)).2.2.1⟩

/-! ## Errors inside a batch: claims C21 and C24 -/

/-- C21, the failing run: a two-step sequence starts zone 1; the zone is deleted while the step
runs, so the stop made by the timer of the step is rejected. The rejection is raised inside the
timer callback, outside the `try` of the loop: no timer is left armed, the server left alone
makes no further call, and the start of zone 2 is never attempted. (Without the deletion zone 2
is started two seconds after zone 1 is stopped.) -/
theorem sequence_hangs_after_rejected_stop :
    (run idleServer deletedDuringSequence).log
      = [{ time := 0, zoneId := 1, state := true, ok := true, origin := Origin.request
           running := [] },
         { time := 60000, zoneId := 1, state := false, ok := false, origin := Origin.timer 0
           running := [] }] ∧
    (run idleServer deletedDuringSequence).pending = [] ∧
    (∀ (envs : Nat → CallEnv) (fuel : Nat),
      drain envs fuel (run idleServer deletedDuringSequence)
        = run idleServer deletedDuringSequence) ∧
    (run idleServer [Event.sequenceStart twoSteps sampleEnv, Event.elapsed 60000,
        Event.expired 0 sampleEnv, Event.elapsed 2000, Event.expired 1 sampleEnv]).log
      = [{ time := 0, zoneId := 1, state := true, ok := true, origin := Origin.request
           running := [] },
         { time := 60000, zoneId := 1, state := false, ok := true, origin := Origin.timer 0
           running := [1] },
         { time := 62000, zoneId := 2, state := true, ok := true, origin := Origin.timer 1
           running := [] }] :=
  ⟨by decide, by decide, fun envs fuel => drain_idle envs fuel (by decide), by decide⟩

/-- C24, the failing run: three dry zones with auto-watering and a known moisture, the weather
unavailable. The sweep starts zone 1; the start of zone 2 is rejected because zone 1 runs, and
the rejection ends the sweep: zone 3, which would be watered, is never evaluated and its start
is never attempted. -/
theorem sweep_aborts_on_rejected_start :
    (∀ z ∈ threeZoneServer.zones, z.auto_water_enabled = 1 ∧ z.moisture = some 20) ∧
    (shouldWaterBasedOnMoisture threeZoneServer.config emptyStore 0 offline
      thirdZone).decision.shouldWater = true ∧
    (autoWaterSweep threeZoneServer emptyStore 0 offline sampleEnv).evaluated = [1, 2] ∧
    (autoWaterSweep threeZoneServer emptyStore 0 offline sampleEnv).aborted
      = some (alreadyRunning "Zone 1") ∧
    (autoWaterSweep threeZoneServer emptyStore 0 offline sampleEnv).server.log
      = [{ time := 0, zoneId := 1, state := true, ok := true, origin := Origin.request
           running := [] },
         { time := 0, zoneId := 2, state := true, ok := false, origin := Origin.request
           running := [1] }] ∧
    (autoWaterSweep threeZoneServer emptyStore 0 offline sampleEnv).server.pending
      = [{ handle := 0, due := 600000, callback := Callback.autoOff 1 }] := by
  decide

/-! ## Sensor ingestion: claim C26 -/

/-- C26, counterexample: the readings 150 and -5 lie outside 0..100, yet each is written to the
zone of the sensor (whose moisture was 20) and announced to the clients. -/
theorem sensor_reading_out_of_range_is_stored :
    sampleZone.moisture = some 20 ∧ sampleZone.loxone_input = "IrrigationMoisture1" ∧
    ¬ ((0 : Int) ≤ 150 ∧ (150 : Int) ≤ 100) ∧ ¬ ((0 : Int) ≤ -5 ∧ (-5 : Int) ≤ 100) ∧
    sensorReading [sampleZone, secondZone] "IrrigationMoisture1" (some 150)
      = ([{ sampleZone with moisture := some 150 }, secondZone],
         some { zone_id := 1, sensor := "IrrigationMoisture1", moisture := 150 }) ∧
    (sensorReading [sampleZone, secondZone] "IrrigationMoisture1" (some (-5))).1
      = [{ sampleZone with moisture := some (-5) }, secondZone] := by
  decide

/-- C26, amended: a payload that `parseFloat` does not read as a number changes no zone and
announces nothing. A payload read as the number `v`, inside 0..100 or not, keeps the rows of
the table in place and, row by row, sets `moisture = v` in the rows whose `loxone_input` is the
sensor id and leaves every other row unchanged in every field. -/
theorem sensor_ingestion (zones : List Zone) (sensorId : String) (v : Int) :
    sensorReading zones sensorId none = (zones, none) ∧
    (sensorReading zones sensorId (some v)).1.length = zones.length ∧
    ∀ (i : Nat) (before : Zone), zones[i]? = some before →
      ∃ after, (sensorReading zones sensorId (some v)).1[i]? = some after ∧
        (before.loxone_input = sensorId → after = { before with moisture := some v }) ∧
        (before.loxone_input ≠ sensorId → after = before) := by
  refine ⟨rfl, by simp [sensorReading], ?_⟩
  intro i before hi
  have hrow : (sensorReading zones sensorId (some v)).1[i]? =
      some (if before.loxone_input = sensorId then { before with moisture := some v }
        else before) := by
    simp only [sensorReading, List.getElem?_map, hi, Option.map_some']
  refine ⟨_, hrow, ?_, ?_⟩
  · intro heq
    simp [heq]
  · intro hne
    simp [hne]

/-- C26, instance: the reading 45 of the sensor of zone 2 reaches zone 2 only. -/
theorem sensor_ingestion_witness :
    [sampleZone, secondZone][1]? = some secondZone ∧
    ∃ after, (sensorReading [sampleZone, secondZone] "IrrigationMoisture2" (some 45)).1[1]?
        = some after ∧
      (secondZone.loxone_input = "IrrigationMoisture2" →
        after = { secondZone with moisture := some 45 }) ∧
      (secondZone.loxone_input ≠ "IrrigationMoisture2" → after = secondZone) :=
  ⟨rfl, (sensor_ingestion [sampleZone, secondZone] "IrrigationMoisture2" 45).2.2 1 secondZone
    rfl⟩

/-! ## The daily check and the trigger of a schedule: claims C25 and C22 -/

/-- C25, the failing run: with the winter gate off (no row, or `enabled = 0`) the daily check
ends in its outer `catch` with "fetchWeather is not defined", whatever the weather: it visits no
zone, starts none and arms no timer. On the sample server zone 1 is enabled and its moisture
(20) is not above its threshold (30), so a start of it was due. -/
theorem daily_check_reaches_no_zone (s : Server) :
    (dailyIrrigationCheck s (Except.ok none)).visited = [] ∧
    (dailyIrrigationCheck s (Except.ok none)).server = s ∧
    (dailyIrrigationCheck s (Except.ok none)).caught = some "fetchWeather is not defined" ∧
    (dailyIrrigationCheck s (Except.ok (some 0))).visited = [] ∧
    (dailyIrrigationCheck s (Except.ok (some 0))).server = s ∧
    (dailyIrrigationCheck s (Except.ok (some 0))).caught
      = some "fetchWeather is not defined" ∧
    sampleZone ∈ idleServer.zones ∧ sampleZone.enabled = 1 ∧
    sampleZone.moisture = some 20 ∧ sampleZone.moisture_threshold = some 30 ∧
    (dailyIrrigationCheck idleServer (Except.ok none)).server.log = [] ∧
    (dailyIrrigationCheck idleServer (Except.ok none)).server.pending = [] :=
  ⟨rfl, rfl, rfl, rfl, rfl, rfl, by decide, rfl, rfl, rfl, rfl, rfl⟩

/-- C22: when the job of a schedule fires, then (1) if `shouldSkipWateringDueToWeather()` is
true, no sequence is looked up, `runSequence` is not invoked and the server is as before;
(2) otherwise, if no stored sequence has the schedule's `sequence_id`, `runSequence` is not
invoked and the server is as before (the callback has no throwing branch); (3) otherwise
`runSequence` is invoked with exactly the steps stored for that sequence, in their order. -/
theorem schedule_trigger (s : Server) (st : WeatherStore) (now : Int) (net : Providers)
    (sequences : List Sequence) (schedule : Schedule) (env : CallEnv) :
    ((shouldSkipWateringDueToWeather s.config st now net).skip = true →
      (scheduleTrigger s st now net sequences schedule env).lookedUp = none ∧
      (scheduleTrigger s st now net sequences schedule env).invoked = none ∧
      (scheduleTrigger s st now net sequences schedule env).server = s) ∧
    ((shouldSkipWateringDueToWeather s.config st now net).skip = false →
      (∀ q ∈ sequences, q.id ≠ schedule.sequence_id) →
      (scheduleTrigger s st now net sequences schedule env).invoked = none ∧
      (scheduleTrigger s st now net sequences schedule env).server = s) ∧
    ((shouldSkipWateringDueToWeather s.config st now net).skip = false →
      ∀ q ∈ sequences, q.id = schedule.sequence_id →
      (∀ other ∈ sequences, other.id = q.id → other = q) →
      (scheduleTrigger s st now net sequences schedule env).lookedUp = some q.id ∧
      (scheduleTrigger s st now net sequences schedule env).invoked = some q.zones ∧
      (scheduleTrigger s st now net sequences schedule env).server
        = runSequence s env Origin.request q.zones) := by
  refine ⟨?_, ?_, ?_⟩
  · intro hskip
    simp [scheduleTrigger, hskip]
  · intro hskip hnone
    have hsel : selectSequence sequences schedule.sequence_id = none := by
      unfold selectSequence
      rw [List.find?_eq_none]
      intro q hq
      simpa using hnone q hq
    simp [scheduleTrigger, hskip, hsel]
  · intro hskip q hq hid hunique
    have hsel : selectSequence sequences schedule.sequence_id = some q := by
      unfold selectSequence
      rcases hf : sequences.find? (fun q => q.id = schedule.sequence_id) with _ | found
      · rw [List.find?_eq_none] at hf
        exact absurd (by simpa using hid) (hf q hq)
      · have hmem := List.mem_of_find?_eq_some hf
        have hfid : found.id = schedule.sequence_id := by simpa using List.find?_some hf
        rw [hf, hunique found hmem (hfid.trans hid.symm)]
    simp [scheduleTrigger, hskip, hsel, hid]

/-- C22, instance: schedule 3 fires while the weather is unavailable; its sequence 5 is stored,
and the runner is invoked with the two stored steps, starting zone 1. -/
theorem schedule_trigger_witness :
    (shouldSkipWateringDueToWeather idleServer.config emptyStore 0 offline).skip = false ∧
    (scheduleTrigger idleServer emptyStore 0 offline [sampleSequence] sampleSchedule
      sampleEnv).invoked = some twoSteps ∧
    (scheduleTrigger idleServer emptyStore 0 offline [sampleSequence] sampleSchedule
      sampleEnv).server = runSequence idleServer sampleEnv Origin.request twoSteps ∧
    (scheduleTrigger idleServer emptyStore 0 offline [] sampleSchedule sampleEnv).invoked
      = none :=
  have h := schedule_trigger idleServer emptyStore 0 offline [sampleSequence] sampleSchedule
    sampleEnv
  ⟨by decide, (h.2.2 (by decide) sampleSequence (by simp) rfl (by simp)).2.1,
    (h.2.2 (by decide) sampleSequence (by simp) rfl (by simp)).2.2, by decide⟩

/-! ## Reloading the schedule jobs: claim C23 -/

theorem stopAll_eq (m : List (CronKey × Nat)) (jobs : List CronJob) :
    m.foldl (fun jobs e => stopJob jobs e.2) jobs = stoppedJobs m jobs := by
  induction m generalizing jobs with
  | nil => simp [stoppedJobs]
  | cons e rest ih =>
    rw [List.foldl_cons, ih]
    simp only [stoppedJobs, stopJob, List.map_map]
    apply List.map_congr_left
    intro j _
    by_cases h1 : j.handle = e.2
    · simp [h1]
    · have h2 : ¬ e.2 = j.handle := fun h => h1 h.symm
      simp only [Function.comp_apply, if_neg h1, List.any_cons, decide_eq_false h2,
        Bool.false_or]

theorem mem_stoppedJobs {m : List (CronKey × Nat)} {jobs : List CronJob} {j : CronJob}
    (h : j ∈ stoppedJobs m jobs) :
    ∃ old ∈ jobs, j.handle = old.handle ∧ ((∃ e ∈ m, e.2 = j.handle) → j.running = false) := by
  simp only [stoppedJobs, List.mem_map] at h
  obtain ⟨old, hold, rfl⟩ := h
  refine ⟨old, hold, ?_, ?_⟩
  · split_ifs <;> rfl
  · rintro ⟨e, he, heq⟩
    have hany : (m.any fun e => decide (e.2 = old.handle)) = true := by
      rw [List.any_eq_true]
      refine ⟨e, he, ?_⟩
      split_ifs at heq <;> simpa using heq
    simp [hany]

theorem mem_newJobs {cronPattern : Schedule → Except String String} {xs : List Schedule}
    {n : Nat} {j : CronJob} (h : j ∈ newJobs cronPattern n xs) :
    j.schedule ∈ xs ∧ j.running = true ∧ n ≤ j.handle ∧ j.handle < n + xs.length ∧
    j.pattern = patternOf cronPattern j.schedule := by
  induction xs generalizing n with
  | nil => simp [newJobs] at h
  | cons x rest ih =>
    simp only [newJobs, List.mem_cons] at h
    rcases h with rfl | h
    · simp
    · obtain ⟨h1, h2, h3, h4, h5⟩ := ih h
      refine ⟨List.mem_cons_of_mem _ h1, h2, by omega, ?_, h5⟩
      simp only [List.length_cons]
      omega

theorem newJobs_keys (cronPattern : Schedule → Except String String) (xs : List Schedule)
    (n : Nat) :
    ((newJobs cronPattern n xs).map entryOf).map Prod.fst
      = xs.map fun x => CronKey.schedule x.id := by
  induction xs generalizing n with
  | nil => rfl
  | cons x rest ih => simp [newJobs, entryOf, ih]

theorem cronsGet_eq_none {m : List (CronKey × Nat)} {k : CronKey} :
    cronsGet m k = none ↔ ∀ e ∈ m, e.1 ≠ k := by
  simp [cronsGet, List.find?_eq_none]

theorem cronsSet_absent {m : List (CronKey × Nat)} {k : CronKey} (handle : Nat)
    (h : cronsGet m k = none) : cronsSet m k handle = m ++ [(k, handle)] := by
  have hany : (m.any fun e => decide (e.1 = k)) = false := by
    rw [List.any_eq_false]
    intro e he
    simpa using cronsGet_eq_none.1 h e he
  simp [cronsSet, hany]

theorem registerScheduleCron_fresh {cronPattern : Schedule → Except String String} {c : Crons}
    {x : Schedule} {p : String}
    (hnone : cronsGet c.activeCrons (CronKey.schedule x.id) = none)
    (hp : cronPattern x = Except.ok p) :
    registerScheduleCron cronPattern c x
      = ({ activeCrons := c.activeCrons ++ [(CronKey.schedule x.id, c.nextJob)]
           jobs := c.jobs ++
             [{ handle := c.nextJob, pattern := p, schedule := x, running := true }]
           nextJob := c.nextJob + 1 }, none) := by
  simp only [registerScheduleCron, hnone, hp, cronsSet_absent c.nextJob hnone]

theorem registerScheduleCron_complete {cronPattern : Schedule → Except String String}
    {c c1 : Crons} {x : Schedule} (h : registerScheduleCron cronPattern c x = (c1, none)) :
    ∃ p, cronPattern x = Except.ok p := by
  cases hp : cronPattern x with
  | error e => simp [registerScheduleCron, hp] at h
  | ok p => exact ⟨p, rfl⟩

theorem registerEach_complete {cronPattern : Schedule → Except String String}
    {xs : List Schedule} {c c1 : Crons} (h : registerEach cronPattern c xs = (c1, none)) :
    ∀ x ∈ xs, ∃ p, cronPattern x = Except.ok p := by
  induction xs generalizing c with
  | nil => simp
  | cons x rest ih =>
    rcases hr : registerScheduleCron cronPattern c x with ⟨c2, _ | e⟩
    · simp only [registerEach, hr] at h
      intro y hy
      rcases List.mem_cons.1 hy with rfl | hy
      · exact registerScheduleCron_complete hr
      · exact ih h y hy
    · simp [registerEach, hr] at h

theorem registerEach_fresh (cronPattern : Schedule → Except String String)
    (xs : List Schedule) (c : Crons) (hok : ∀ x ∈ xs, ∃ p, cronPattern x = Except.ok p)
    (hnodup : (xs.map fun x => x.id).Nodup)
    (hnone : ∀ x ∈ xs, cronsGet c.activeCrons (CronKey.schedule x.id) = none) :
    registerEach cronPattern c xs
      = ({ activeCrons := c.activeCrons ++ (newJobs cronPattern c.nextJob xs).map entryOf
           jobs := c.jobs ++ newJobs cronPattern c.nextJob xs
           nextJob := c.nextJob + xs.length }, none) := by
  induction xs generalizing c with
  | nil => simp [registerEach, newJobs]
  | cons x rest ih =>
    obtain ⟨p, hp⟩ := hok x (List.mem_cons_self _ _)
    rw [List.map_cons, List.nodup_cons] at hnodup
    rw [registerEach, registerScheduleCron_fresh (hnone x (List.mem_cons_self _ _)) hp]
    simp only []
    rw [ih _ (fun y hy => hok y (List.mem_cons_of_mem _ hy)) hnodup.2]
    · simp [newJobs, entryOf, patternOf, hp, Nat.add_assoc, Nat.add_comm 1]
    · intro y hy
      rw [cronsGet_eq_none]
      intro e he
      rcases List.mem_append.1 he with he | he
      · exact cronsGet_eq_none.1 (hnone y (List.mem_cons_of_mem _ hy)) e he
      · rw [List.mem_singleton] at he
        subst he
        intro heq
        apply hnodup.1
        rw [List.mem_map]
        exact ⟨y, hy, by simpa using heq.symm⟩

theorem reloadAllCrons_of_ok (cronPattern : Schedule → Except String String) (c : Crons)
    (schedules : List Schedule) (hpk : (schedules.map fun x => x.id).Nodup)
    (hok : ∀ x ∈ schedules, x.enabled = 1 → ∃ p, cronPattern x = Except.ok p) :
    reloadAllCrons cronPattern c schedules = (reloaded cronPattern c schedules, none) := by
  unfold reloadAllCrons loadScheduleCrons
  rw [registerEach_fresh]
  · simp [reloaded, stopAll_eq]
  · intro x hx
    rw [List.mem_filter] at hx
    exact hok x hx.1 (by simpa using hx.2)
  · exact hpk.sublist ((List.filter_sublist _).map _)
  · intro x _
    rfl

theorem registrations_newJobs (cronPattern : Schedule → Except String String)
    (xs : List Schedule) (n : Nat) (pre : List CronJob) (hpre : ∀ j ∈ pre, j.handle < n) :
    (((newJobs cronPattern n xs).map entryOf).flatMap fun e =>
      ((pre ++ newJobs cronPattern n xs).filter fun j => j.handle = e.2 ∧ j.running = true).map
        fun j => (e.1, j.schedule, j.pattern))
      = xs.map fun x => (CronKey.schedule x.id, x, patternOf cronPattern x) := by
  induction xs generalizing n pre with
  | nil => rfl
  | cons x rest ih =>
    have hold : (pre.filter fun j => decide (j.handle = n) && j.running) = [] := by
      rw [List.filter_eq_nil_iff]
      intro j hj
      have := hpre j hj
      simp only [Bool.and_eq_true, decide_eq_true_eq, not_and]
      omega
    have hlater : ((newJobs cronPattern (n + 1) rest).filter
        fun j => decide (j.handle = n) && j.running) = [] := by
      rw [List.filter_eq_nil_iff]
      intro j hj
      have := (mem_newJobs hj).2.2.1
      simp only [Bool.and_eq_true, decide_eq_true_eq, not_and]
      omega
    have hnext := ih (n + 1)
      (pre ++ [{ handle := n, pattern := patternOf cronPattern x, schedule := x
                 running := true }])
      (by
        intro j hj
        rcases List.mem_append.1 hj with hj | hj
        · exact Nat.lt_succ_of_lt (hpre j hj)
        · rw [List.mem_singleton] at hj
          subst hj
          exact Nat.lt_succ_self n)
    rw [List.append_assoc, List.singleton_append] at hnext
    simp only [newJobs, List.map_cons, List.flatMap_cons, hnext]
    simp [entryOf, List.filter_append, hold, hlater, List.filter_cons]

theorem registrations_reloaded (cronPattern : Schedule → Except String String) (c : Crons)
    (schedules : List Schedule) (hfresh : CronsFresh c) :
    registrations (reloaded cronPattern c schedules)
      = (schedules.filter fun x => x.enabled = 1).map
          fun x => (CronKey.schedule x.id, x, patternOf cronPattern x) := by
  apply registrations_newJobs
  intro j hj
  obtain ⟨old, hold, hhandle, _⟩ := mem_stoppedJobs hj
  rw [hhandle]
  exact hfresh.2 old hold

theorem fresh_reloaded (cronPattern : Schedule → Except String String) (c : Crons)
    (schedules : List Schedule) (hfresh : CronsFresh c) :
    CronsFresh (reloaded cronPattern c schedules) := by
  constructor
  · intro e he
    simp only [reloaded, List.mem_map] at he
    obtain ⟨j, hj, rfl⟩ := he
    exact (mem_newJobs hj).2.2.2.1
  · intro j hj
    simp only [reloaded, List.mem_append] at hj
    rcases hj with hj | hj
    · obtain ⟨old, hold, hhandle, _⟩ := mem_stoppedJobs hj
      have := hfresh.2 old hold
      show j.handle < c.nextJob + _
      omega
    · exact (mem_newJobs hj).2.2.2.1

/-- C23: for every prior registry (its job handles issued in order) and every schedules table
(its ids distinct), once `reloadAllCrons` has completed: the keys of `activeCrons` are exactly
the keys `schedule_<id>` of the rows with `enabled = 1`, once each and in table order; the
triggers in force are exactly one running job per such row, holding that row and its pattern;
every job that was in the map before has been stopped; no key remains for an id without an
enabled row (such as a deleted schedule); and a second reload completes and leaves the same
keys and the same triggers in force. -/
theorem reload_exactness (cronPattern : Schedule → Except String String) (c c1 : Crons)
    (schedules : List Schedule) (hfresh : CronsFresh c)
    (hpk : (schedules.map fun x => x.id).Nodup)
    (hdone : reloadAllCrons cronPattern c schedules = (c1, none)) :
    c1.activeCrons.map Prod.fst
      = (schedules.filter fun x => x.enabled = 1).map (fun x => CronKey.schedule x.id) ∧
    registrations c1
      = (schedules.filter fun x => x.enabled = 1).map
          (fun x => (CronKey.schedule x.id, x, patternOf cronPattern x)) ∧
    (∀ e ∈ c.activeCrons, ∀ j ∈ c1.jobs, j.handle = e.2 → j.running = false) ∧
    (∀ id, (∀ x ∈ schedules, x.enabled = 1 → x.id ≠ id) →
      cronsGet c1.activeCrons (CronKey.schedule id) = none) ∧
    ∃ c2, reloadAllCrons cronPattern c1 schedules = (c2, none) ∧
      c2.activeCrons.map Prod.fst = c1.activeCrons.map Prod.fst ∧
      registrations c2 = registrations c1 := by
  have hok : ∀ x ∈ schedules, x.enabled = 1 → ∃ p, cronPattern x = Except.ok p := by
    intro x hx henabled
    exact registerEach_complete hdone x (List.mem_filter.2 ⟨hx, by simpa using henabled⟩)
  have hc1 : c1 = reloaded cronPattern c schedules := by
    have h := reloadAllCrons_of_ok cronPattern c schedules hpk hok
    rw [hdone] at h
    exact (Prod.mk.inj h).1
  subst hc1
  have hkeys : ∀ c0 : Crons, (reloaded cronPattern c0 schedules).activeCrons.map Prod.fst
      = (schedules.filter fun x => x.enabled = 1).map (fun x => CronKey.schedule x.id) :=
    fun c0 => newJobs_keys cronPattern _ c0.nextJob
  refine ⟨hkeys c, registrations_reloaded cronPattern c schedules hfresh, ?_, ?_, ?_⟩
  · intro e he j hj hhandle
    simp only [reloaded, List.mem_append] at hj
    rcases hj with hj | hj
    · exact (mem_stoppedJobs hj).choose_spec.2.2 ⟨e, he, hhandle.symm⟩
    · have h1 := (mem_newJobs hj).2.2.1
      have h2 := hfresh.1 e he
      omega
  · intro id hid
    rw [cronsGet_eq_none]
    intro e he hkey
    have hmem : e.1 ∈ (reloaded cronPattern c schedules).activeCrons.map Prod.fst :=
      List.mem_map.2 ⟨e, he, rfl⟩
    rw [hkeys c, List.mem_map] at hmem
    obtain ⟨x, hx, hxe⟩ := hmem
    rw [List.mem_filter] at hx
    rw [hkey] at hxe
    exact hid x hx.1 (by simpa using hx.2) (by simpa using hxe)
  · refine ⟨reloaded cronPattern (reloaded cronPattern c schedules) schedules,
      reloadAllCrons_of_ok cronPattern _ schedules hpk hok, ?_, ?_⟩
    · rw [hkeys, hkeys]
    · rw [registrations_reloaded cronPattern _ schedules
        (fresh_reloaded cronPattern c schedules hfresh),
        registrations_reloaded cronPattern c schedules hfresh]

/-- C23, instance: the job of schedule 3 is running; schedule 3 is deleted and the table holds
the enabled schedule 4 and the disabled schedule 6. After the reload only `schedule_4` is
registered and no key is left for schedule 3. -/
theorem reload_exactness_witness :
    CronsFresh loadedCrons ∧
    ([weekendSchedule, disabledSchedule].map fun x => x.id).Nodup ∧
    reloadAllCrons samplePattern loadedCrons [weekendSchedule, disabledSchedule]
      = ({ activeCrons := [(CronKey.schedule 4, 1)]
           jobs := [{ handle := 0, pattern := "30 06 * * 1,3,5", schedule := sampleSchedule
                      running := false },
                    { handle := 1, pattern := "00 07 * * 0,6", schedule := weekendSchedule
                      running := true }]
           nextJob := 2 }, none) ∧
    cronsGet [(CronKey.schedule 4, 1)] (CronKey.schedule 3) = none :=
  have hfresh : CronsFresh loadedCrons := by simp [CronsFresh, loadedCrons]
  have hpk : ([weekendSchedule, disabledSchedule].map fun x => x.id).Nodup := by decide
  have hdone : reloadAllCrons samplePattern loadedCrons [weekendSchedule, disabledSchedule]
      = ({ activeCrons := [(CronKey.schedule 4, 1)]
           jobs := [{ handle := 0, pattern := "30 06 * * 1,3,5", schedule := sampleSchedule
                      running := false },
                    { handle := 1, pattern := "00 07 * * 0,6", schedule := weekendSchedule
                      running := true }]
           nextJob := 2 }, none) := by decide
  ⟨hfresh, hpk, hdone,
    (reload_exactness samplePattern loadedCrons _ [weekendSchedule, disabledSchedule] hfresh
      hpk hdone).2.2.2.1 3 (by decide)⟩

/-! ## The Open-Meteo snapshot and the skip rule: claim C30 -/

theorem le_foldl_max (b : Int) (rest : List Int) (p : Int) :
    b ≤ rest.foldl max p ↔ b ≤ p ∨ ∃ q ∈ rest, b ≤ q := by
  induction rest generalizing p with
  | nil => simp
  | cons q rest ih =>
    rw [List.foldl_cons, ih, le_max_iff]
    simp only [List.mem_cons, exists_eq_or_imp]
    tauto

theorem le_maxOrZero (l : List Int) (b : Int) (hb : 0 < b) :
    b ≤ maxOrZero l ↔ ∃ p ∈ l, b ≤ p := by
  cases l with
  | nil =>
    simp only [maxOrZero, List.not_mem_nil, false_and, exists_false, iff_false]
    omega
  | cons p rest =>
    rw [maxOrZero, le_foldl_max]
    simp only [List.mem_cons, exists_eq_or_imp]

/-- C30, counterexample: in the sample answer the first hour has no value, so the first 24
non-null hourly probabilities reach into the second day and include its 90 %: their maximum
is 90. The program takes the non-null values among the first 24 hours, whose maximum is 40,
and with the threshold at 70 it does not skip. -/
theorem first_non_null_values_reach_next_day :
    sampleAnswer.precipitation_probability = some sampleProbabilities ∧
    maxOrZero (firstNonNullValues sampleProbabilities) = 90 ∧
    rainOfDay sampleAnswer 0 = 40 ∧
    (sampleConfig.weather.bind fun wc => wc.rainThreshold) = some 70 ∧
    (fetchWeatherData sampleConfig emptyStore 0
        (online (fetchOpenMeteoWeather sampleAnswer none 0))).value
      = some (fetchOpenMeteoWeather sampleAnswer none 0) ∧
    (shouldSkipWateringDueToWeather sampleConfig emptyStore 0
        (online (fetchOpenMeteoWeather sampleAnswer none 0))).skip = false := by
  decide

/-- C30, amended: whenever the snapshot `shouldSkipWateringDueToWeather` works on was built by
`fetchOpenMeteoWeather` (from whole-number hourly probabilities) and the configured
`rainThreshold` is at least 50, the schedule is skipped if and only if `rainToday` is at least
50, where `rainToday` is the maximum of the non-null values among the first 24 hourly
probabilities (0 if there are none): that is, if and only if one of those values is at least
50. The threshold itself does not enter. -/
theorem open_meteo_skip (config : Config) (st : WeatherStore) (now : Int) (net : Providers)
    (data : OpenMeteoData) (locationName : Option String) (t r : Int)
    (hfetch : (fetchWeatherData config st now net).value
      = some (fetchOpenMeteoWeather data locationName t))
    (hthr : (config.weather.bind fun wc => wc.rainThreshold) = some r) (hr : 50 ≤ r) :
    ((shouldSkipWateringDueToWeather config st now net).skip = true
      ↔ 50 ≤ rainOfDay data 0) ∧
    (50 ≤ rainOfDay data 0 ↔
      ∃ probs, data.precipitation_probability = some probs ∧
        ∃ p ∈ ((probs.take 24).filterMap id), 50 ≤ p) := by
  have hthreshold : rainThresholdOf config = r := by
    rw [rainThresholdOf, hthr]
    exact jsOr_some_of_ne_zero 70 (by omega)
  constructor
  · simp only [shouldSkipWateringDueToWeather, hfetch, hthreshold]
    by_cases h50 : 50 ≤ rainOfDay data 0
    · simp [fetchOpenMeteoWeather, h50]
    · have hlt : ¬ rainOfDay data 0 ≥ r := by omega
      simp [fetchOpenMeteoWeather, h50, hlt]
  · unfold rainOfDay
    cases data.precipitation_probability with
    | none => simp
    | some probs =>
      simp only [Option.some.injEq, exists_eq_left']
      rw [le_maxOrZero _ 50 (by decide)]
      simp [sliceNonNull]

/-- C30, instance: with the threshold at 70, an answer whose first day peaks at 40 % (and whose
second day opens with 90 %) does not skip; with 60 % in the third hour it skips, although 60 is
below the threshold. -/
theorem open_meteo_skip_witness :
    rainOfDay sampleAnswer 0 = 40 ∧ rainOfDay rainyAnswer 0 = 60 ∧
    ((shouldSkipWateringDueToWeather sampleConfig emptyStore 0
        (online (fetchOpenMeteoWeather sampleAnswer none 0))).skip = true
      ↔ 50 ≤ rainOfDay sampleAnswer 0) ∧
    ((shouldSkipWateringDueToWeather sampleConfig emptyStore 0
        (online (fetchOpenMeteoWeather rainyAnswer none 0))).skip = true
      ↔ 50 ≤ rainOfDay rainyAnswer 0) ∧
    (shouldSkipWateringDueToWeather sampleConfig emptyStore 0
        (online (fetchOpenMeteoWeather rainyAnswer none 0))).skip = true :=
  ⟨by decide, by decide,
    (open_meteo_skip sampleConfig emptyStore 0 (online (fetchOpenMeteoWeather sampleAnswer none 0))
      sampleAnswer none 0 70 (by decide) (by decide) (by decide)).1,
    (open_meteo_skip sampleConfig emptyStore 0 (online (fetchOpenMeteoWeather rainyAnswer none 0))
      rainyAnswer none 0 70 (by decide) (by decide) (by decide)).1,
    by decide⟩

/-! ## Two calls under way at once: claim C27 -/

theorem relayEffects_of_not_configured {config : Config} (env : CallEnv) (zone : Zone)
    (zoneId : Int) (state : Bool) (h : loxoneConfigured config = false) :
    relayEffects config env zone zoneId state = [] := by
  unfold loxoneConfigured at h
  unfold relayEffects
  cases hl : config.loxone with
  | none => rfl
  | some lox =>
    rw [hl] at h
    have hn : ¬ (lox.host ≠ "" ∧ lox.username ≠ "") := by simpa using h
    simp only [hn, if_false]

/-- A call that no other call interrupts does what `controlZone` does in one piece. -/
theorem runAlone_controlZone (config : Config) (env : CallEnv) (zoneId : Int) (state : Bool)
    (w : Shared) :
    (runAlone { config := config, env := env, zoneId := zoneId, state := state
                phase := Phase.lookup } w).1.result
      = some (controlZone config env w.zones zoneId state).result ∧
    (runAlone { config := config, env := env, zoneId := zoneId, state := state
                phase := Phase.lookup } w).2.zones
      = (controlZone config env w.zones zoneId state).zones ∧
    (runAlone { config := config, env := env, zoneId := zoneId, state := state
                phase := Phase.lookup } w).2.effects
      = w.effects ++ (controlZone config env w.zones zoneId state).effects := by
  rcases hz : selectZone w.zones zoneId with _ | zone
  · simp [runAlone, advance, controlZone, hz, Task.result]
  · cases hl : loxoneConfigured config
    · have hr := relayEffects_of_not_configured env zone zoneId state hl
      cases state
      · simp [runAlone, advance, controlZone, hz, afterAdmission, hl, hr, Task.result]
      · rcases ha : selectOtherActive w.zones zoneId with _ | active
        · simp [runAlone, advance, controlZone, hz, afterAdmission, hl, hr, ha, Task.result]
        · simp [runAlone, advance, controlZone, hz, ha, Task.result]
    · cases state
      · simp [runAlone, advance, controlZone, hz, afterAdmission, hl, Task.result]
      · rcases ha : selectOtherActive w.zones zoneId with _ | active
        · simp [runAlone, advance, controlZone, hz, afterAdmission, hl, ha, Task.result]
        · simp [runAlone, advance, controlZone, hz, ha, Task.result]

/-- C27, the failing interleaving: zones 1 and 2 are idle; `controlZone(1, true)` has passed
its check for another active zone and waits for the relay when `controlZone(2, true)` is made
and passes the same check, zone 1 not yet being written. Both calls resolve, both relays are
switched and both zones end with `is_active = 1`; no call fails with the conflict error. (When
the first call settles before the second is made, the second is rejected.) -/
theorem overlapping_starts_both_succeed :
    activeCount idleShared.zones = 0 ∧
    (interleave (startTask 1) (startTask 2) idleShared overlapping).1.result
      = some (Except.ok { success := true, zone := "Zone 1", state := true }) ∧
    (interleave (startTask 1) (startTask 2) idleShared overlapping).2.1.result
      = some (Except.ok { success := true, zone := "Zone 2", state := true }) ∧
    runningIds (interleave (startTask 1) (startTask 2) idleShared overlapping).2.2.zones
      = [1, 2] ∧
    activeCount (interleave (startTask 1) (startTask 2) idleShared overlapping).2.2.zones
      = 2 ∧
    (interleave (startTask 1) (startTask 2) idleShared overlapping).2.2.effects
      = [Effect.loxoneGet "http://192.168.1.77/dev/sps/io/IrrigationValve1/1",
         Effect.broadcastZoneUpdate 1 true,
         Effect.loxoneGet "http://192.168.1.77/dev/sps/io/IrrigationValve2/1",
         Effect.broadcastZoneUpdate 2 true] ∧
    (interleave (startTask 1) (startTask 2) idleShared oneAfterAnother).2.1.result
      = some (Except.error (alreadyRunning "Zone 1")) ∧
    runningIds (interleave (startTask 1) (startTask 2) idleShared oneAfterAnother).2.2.zones
      = [1] :=
  ⟨by decide, rfl, rfl, by decide, by decide, by decide, rfl, by decide⟩

end Irrigation
